import Mathlib

/-!
Verification of the pysim5g system-simulator core (`src/pysim5g/system_simulator.py`
together with the shipped modulation-and-coding table of `scripts/run_script.py`).

The Python code is embedded shallowly: dB quantities are real numbers, the
modulation-and-coding machinery is stated over an arbitrary linear ordered field
so that the lookup can be evaluated over `ℚ`, and Python runtime failures
(IndexError, ZeroDivisionError, TypeError) are made explicit through `Except`.
The external path-loss collaborator (`pysim5g/path_loss.py`, not among the
sources) is passed as an explicit function argument, following the spec's
description of it as an opaque pluggable function.
-/

namespace Pysim5g

/-- Python runtime errors that the embedded functions can raise. -/
inductive PyErr where
  | indexError
  | zeroDivisionError
  | typeError
deriving DecidableEq

/-- One row of a modulation-and-coding lookup table:
(generation, MIMO, CQI index, modulation, coding rate, spectral efficiency,
SINR threshold), as in `MODULATION_AND_CODING_LUT` of `scripts/run_script.py`.
The numeric type is a parameter so that the table can be read over `ℚ` or `ℝ`. -/
structure MCEntry (α : Type) where
  generation : String
  mimo : String
  cqi : ℕ
  modulation : String
  coding_rate : ℕ
  spectral_efficiency : α
  sinr : α
deriving DecidableEq

/-- Python list indexing `l[i]` for a non-negative index: `some` element, or
`none` when the index is out of range (an IndexError at the use site). -/
def listAt {α : Type} : List α → ℕ → Option α
  | [], _ => Option.none
  | a :: _, 0 => some a
  | _ :: t, n + 1 => listAt t n

/-- `pairwise` from `system_simulator.py`: the sliding window `zip(l, l[1:])`. -/
def pairwise {α : Type} (l : List α) : List (α × α) := l.zip l.tail

section ModulationLookup

variable {α : Type} [LinearOrderedField α]

/-- The saturation/floor checks that `estimate_spectral_efficiency` runs inside
every loop iteration whose generation test matched but whose interval test
failed: read `lut[14]` and `lut[29]`, return the 4G/5G maximum entry when the
SINR is at or above its threshold, return `0` when the SINR is below the
threshold of `lut[0]`.  `some r` means the Python body returned `r`;
`none` means it fell through to the next loop iteration. -/
def seTail (sinr : α) (generation : String) (lut : List (MCEntry α)) :
    Option (Except PyErr (Option α)) :=
  match listAt lut 14 with
  | Option.none => some (Except.error PyErr.indexError)
  | some highest_value_4G =>
    match listAt lut 29 with
    | Option.none => some (Except.error PyErr.indexError)
    | some highest_value_5G =>
      if highest_value_4G.sinr ≤ sinr ∧ generation = "4G" then
        some (Except.ok (some highest_value_4G.spectral_efficiency))
      else if highest_value_5G.sinr ≤ sinr ∧ generation = "5G" then
        some (Except.ok (some highest_value_5G.spectral_efficiency))
      else
        match listAt lut 0 with
        | Option.none => some (Except.error PyErr.indexError)
        | some lowest_value =>
          if sinr < lowest_value.sinr then some (Except.ok (some 0))
          else Option.none

/-- One loop-body iteration of `estimate_spectral_efficiency` on the pair
`(lower, upper)`.  The Python guard is `lower[0] and upper[0] == generation`:
truthiness of the `lower` generation string conjoined with the equality test on
the `upper` one.  `some r` = the body returned `r`, `none` = continue. -/
def seStep (sinr : α) (generation : String) (lut : List (MCEntry α))
    (lower upper : MCEntry α) : Option (Except PyErr (Option α)) :=
  if ¬ lower.generation = "" ∧ upper.generation = generation then
    if lower.sinr ≤ sinr then
      if sinr < upper.sinr then some (Except.ok (some lower.spectral_efficiency))
      else seTail sinr generation lut
    else seTail sinr generation lut
  else Option.none

/-- The `for lower, upper in pairwise(...)` loop of
`estimate_spectral_efficiency`.  Falling off the end of the loop returns
Python `None` (the `spectral_efficiency = 0.1` initialisation is never
returned), embedded as `Except.ok Option.none`. -/
def seLoop (sinr : α) (generation : String) (lut : List (MCEntry α)) :
    List (MCEntry α × MCEntry α) → Except PyErr (Option α)
  | [] => Except.ok Option.none
  | (lower, upper) :: rest =>
    match seStep sinr generation lut lower upper with
    | some r => r
    | Option.none => seLoop sinr generation lut rest

/-- `SimulationManager.estimate_spectral_efficiency` (lines 477-526). -/
def estimate_spectral_efficiency (sinr : α) (generation : String)
    (modulation_and_coding_lut : List (MCEntry α)) : Except PyErr (Option α) :=
  seLoop sinr generation modulation_and_coding_lut (pairwise modulation_and_coding_lut)

/-- The shipped `MODULATION_AND_CODING_LUT` of `scripts/run_script.py`
(lines 731-765): entries 0-14 are the 4G block, entries 15-29 the 5G block. -/
def MODULATION_AND_CODING_LUT : List (MCEntry α) := [
  ⟨"4G", "1x1", 1, "QPSK", 78, 0.1523, -6.7⟩,
  ⟨"4G", "1x1", 2, "QPSK", 120, 0.2344, -4.7⟩,
  ⟨"4G", "1x1", 3, "QPSK", 193, 0.377, -2.3⟩,
  ⟨"4G", "1x1", 4, "QPSK", 308, 0.6016, 0.2⟩,
  ⟨"4G", "1x1", 5, "QPSK", 449, 0.877, 2.4⟩,
  ⟨"4G", "1x1", 6, "QPSK", 602, 1.1758, 4.3⟩,
  ⟨"4G", "1x1", 7, "16QAM", 378, 1.4766, 5.9⟩,
  ⟨"4G", "1x1", 8, "16QAM", 490, 1.9141, 8.1⟩,
  ⟨"4G", "1x1", 9, "16QAM", 616, 2.4063, 10.3⟩,
  ⟨"4G", "1x1", 10, "64QAM", 466, 2.7305, 11.7⟩,
  ⟨"4G", "1x1", 11, "64QAM", 567, 3.3223, 14.1⟩,
  ⟨"4G", "1x1", 12, "64QAM", 666, 3.9023, 16.3⟩,
  ⟨"4G", "1x1", 13, "64QAM", 772, 4.5234, 18.7⟩,
  ⟨"4G", "1x1", 14, "64QAM", 873, 5.1152, 21⟩,
  ⟨"4G", "1x1", 15, "64QAM", 948, 5.5547, 22.7⟩,
  ⟨"5G", "8x8", 1, "QPSK", 78, 0.30, -6.7⟩,
  ⟨"5G", "8x8", 2, "QPSK", 193, 2.05, -4.7⟩,
  ⟨"5G", "8x8", 3, "QPSK", 449, 4.42, -2.3⟩,
  ⟨"5G", "8x8", 4, "16QAM", 378, 6.40, 0.2⟩,
  ⟨"5G", "8x8", 5, "16QAM", 490, 8.00, 2.4⟩,
  ⟨"5G", "8x8", 6, "16QAM", 616, 10.82, 4.3⟩,
  ⟨"5G", "8x8", 7, "64QAM", 466, 12.40, 5.9⟩,
  ⟨"5G", "8x8", 8, "64QAM", 567, 16.00, 8.1⟩,
  ⟨"5G", "8x8", 9, "64QAM", 666, 19.00, 10.3⟩,
  ⟨"5G", "8x8", 10, "64QAM", 772, 22.00, 11.7⟩,
  ⟨"5G", "8x8", 11, "64QAM", 873, 28.00, 14.1⟩,
  ⟨"5G", "8x8", 12, "256QAM", 711, 32.00, 16.3⟩,
  ⟨"5G", "8x8", 13, "256QAM", 797, 38.00, 18.7⟩,
  ⟨"5G", "8x8", 14, "256QAM", 885, 44.00, 21⟩,
  ⟨"5G", "8x8", 15, "256QAM", 948, 50.00, 22.7⟩]

end ModulationLookup

noncomputable section RadioPipeline

/-- The fields of the `simulation_parameters` dict that `SimulationManager`
and its methods read. -/
structure SimParams where
  los_breakpoint_m : ℝ
  building_height : ℝ
  street_width : ℝ
  above_roof : ℕ
  network_load : ℝ
  seed_value1 : ℕ
  seed_value2 : ℕ
  iterations : ℕ
  tx_macro_baseline_height : ℝ
  tx_macro_power : ℝ
  tx_macro_gain : ℝ
  tx_macro_losses : ℝ
  tx_micro_baseline_height : ℝ
  tx_micro_power : ℝ
  tx_micro_gain : ℝ
  tx_micro_losses : ℝ

/-- A radio transmitter (the `Transmitter` and `InterferingTransmitter`
classes have identical fields). -/
structure Transmitter where
  id : String
  coordinates : ℝ × ℝ
  ant_type : String
  ant_height : ℝ
  power : ℝ
  gain : ℝ
  losses : ℝ

/-- A receiving User Equipment item (`Receiver`). -/
structure Receiver where
  id : String
  coordinates : ℝ × ℝ
  ue_height : ℝ
  gain : ℝ
  losses : ℝ
  misc_losses : ℝ
  indoor : Bool

/-- `SiteArea`: its planar polygon area is computed at construction by the
external geometry library, so it enters the embedding as a number. -/
structure SiteArea where
  id : String
  area : ℝ

/-- The entity set owned by `SimulationManager`.  The Python dicts of
interfering transmitters and receivers are embedded as lists in insertion
order. -/
structure SimulationManager where
  transmitter : Transmitter
  interfering_transmitters : List Transmitter
  receivers : List Receiver
  site_area : SiteArea

/-- The argument record of the external path-loss collaborator.
Modelled from the spec: `path_loss_calculator` of `pysim5g/path_loss.py` is not
among the sources; §4.2/§6 of the spec list exactly these thirteen arguments. -/
structure PLArgs where
  frequency : ℝ
  distance : ℝ
  ant_height : ℝ
  ant_type : String
  building_height : ℝ
  street_width : ℝ
  environment : String
  type_of_sight : String
  ue_height : ℝ
  above_roof : ℕ
  indoor : Bool
  seed_value : ℕ
  iterations : ℕ

/-- Modelled from the spec: the path-loss collaborator is a pure pluggable
function returning `(path_loss_dB, model_name)`. -/
def PLFn : Type := PLArgs → ℝ × String

/-- Length of the straight `LineString` between two planar points. -/
def lineLength (p q : ℝ × ℝ) : ℝ :=
  Real.sqrt ((p.1 - q.1) ^ 2 + (p.2 - q.2) ^ 2)

/-- `SimulationManager.estimate_path_loss` (lines 151-225): returns
`(path_loss, model, strt_distance, type_of_sight)`.  The straight-line
distance is clamped to 20 m (`strt_distance = 20`). -/
def estimate_path_loss (self : SimulationManager) (receiver : Receiver)
    (frequency : ℝ) (environment : String) (simulation_parameters : SimParams)
    (path_loss_calculator : PLFn) : ℝ × String × ℝ × String :=
  let temp_line := lineLength receiver.coordinates self.transmitter.coordinates
  let strt_distance := if temp_line < 20 then 20 else temp_line
  let ant_height := self.transmitter.ant_height
  let ant_type := self.transmitter.ant_type
  let type_of_sight :=
    if strt_distance < simulation_parameters.los_breakpoint_m then "los" else "nlos"
  let res := path_loss_calculator ⟨frequency, strt_distance, ant_height, ant_type,
    simulation_parameters.building_height, simulation_parameters.street_width,
    environment, type_of_sight, receiver.ue_height, simulation_parameters.above_roof,
    receiver.indoor, simulation_parameters.seed_value1, simulation_parameters.iterations⟩
  (res.1, res.2, strt_distance, type_of_sight)

/-- `SimulationManager.estimate_received_power` (lines 228-268).  The EIRP is
read from `self.transmitter`; the `transmitter` parameter is not used. -/
def estimate_received_power (self : SimulationManager) (transmitter : Transmitter)
    (receiver : Receiver) (path_loss : ℝ) : ℝ :=
  let eirp := self.transmitter.power + self.transmitter.gain - self.transmitter.losses
  eirp - path_loss - receiver.misc_losses + receiver.gain - receiver.losses

/-- `SimulationManager.estimate_interference` (lines 271-373): returns
`(interference, model, ave_distance, ave_pl)`; with zero interferers the
final division by `len(...)` raises ZeroDivisionError.  Line 328
(`interference_strt_distance == 20`) is a comparison, not an assignment, so
the interference distance is not clamped.  The reported model name is the one
of the last interferer processed. -/
def estimate_interference (self : SimulationManager) (receiver : Receiver)
    (frequency : ℝ) (environment : String) (simulation_parameters : SimParams)
    (path_loss_calculator : PLFn) : Except PyErr (List ℝ × String × ℝ × ℝ) :=
  let infos := self.interfering_transmitters.map (fun interfering_transmitter =>
    let interference_strt_distance :=
      lineLength receiver.coordinates interfering_transmitter.coordinates
    let type_of_sight :=
      if interference_strt_distance < simulation_parameters.los_breakpoint_m
      then "los" else "nlos"
    let res := path_loss_calculator ⟨frequency, interference_strt_distance,
      interfering_transmitter.ant_height, interfering_transmitter.ant_type,
      simulation_parameters.building_height, simulation_parameters.street_width,
      environment, type_of_sight, receiver.ue_height, simulation_parameters.above_roof,
      receiver.indoor, simulation_parameters.seed_value2, simulation_parameters.iterations⟩
    let received_interference :=
      estimate_received_power self interfering_transmitter receiver res.1
    (received_interference, res.2, interference_strt_distance, res.1))
  match infos.getLast? with
  | Option.none => Except.error PyErr.zeroDivisionError
  | some last =>
    Except.ok (infos.map (fun x => x.1), last.2.1,
      (infos.map (fun x => x.2.2.1)).sum / (infos.length : ℝ),
      (infos.map (fun x => x.2.2.2)).sum / (infos.length : ℝ))

/-- `SimulationManager.estimate_noise` (lines 376-418), with `k = 1.38e-23`,
`t = 290` and a receiver noise figure of 1.5 dB. -/
def estimate_noise (bandwidth : ℝ) : ℝ :=
  let k : ℝ := 1.38e-23
  let t : ℝ := 290
  let BW := bandwidth * 1000000
  10 * Real.logb 10 (k * t * 1000) + 1.5 + 10 * Real.logb 10 BW

/-- Python `round` to the nearest integer with ties going to the even
neighbour. -/
def pyRound (y : ℝ) : ℤ :=
  if Int.fract y < 1 / 2 then ⌊y⌋
  else if 1 / 2 < Int.fract y then ⌊y⌋ + 1
  else if ⌊y⌋ % 2 = 0 then ⌊y⌋ else ⌊y⌋ + 1

/-- Python `round(x, 2)`. -/
def pyRound2 (x : ℝ) : ℝ := (pyRound (x * 100) : ℝ) / 100

/-- `SimulationManager.estimate_sinr` (lines 421-474): dB values are mapped to
linear magnitudes via `10 ** value`, the linear interference magnitudes are
sorted descending and truncated to the strongest three, summed, scaled by
`network_load / 100`, and the rounded `log10` ratio is returned as the fifth
component. -/
def estimate_sinr (received_power : ℝ) (interference : List ℝ) (noise : ℝ)
    (simulation_parameters : SimParams) : ℝ × ℝ × ℝ × ℝ × ℝ :=
  let raw_received_power := (10 : ℝ) ^ received_power
  let interference_list :=
    ((interference.map (fun value => (10 : ℝ) ^ value)).insertionSort (· ≥ ·)).take 3
  let network_load := simulation_parameters.network_load
  let i_summed := interference_list.sum
  let raw_sum_of_interference := i_summed * (network_load / 100)
  let raw_noise := (10 : ℝ) ^ noise
  let i_plus_n := raw_sum_of_interference + raw_noise
  let sinr := pyRound2 (Real.logb 10 (raw_received_power / i_plus_n))
  (received_power, raw_sum_of_interference, noise, i_plus_n, sinr)

/-- Variant of `estimate_sinr` written after the spec's words in §4.6, which
claim the dB-to-linear conversion `10 ^ (value / 10)` for the received power,
the interference entries and the noise.  Stated only to be compared with the
source function `estimate_sinr`. -/
def estimate_sinr_claimedconv (received_power : ℝ) (interference : List ℝ) (noise : ℝ)
    (simulation_parameters : SimParams) : ℝ × ℝ × ℝ × ℝ × ℝ :=
  let raw_received_power := (10 : ℝ) ^ (received_power / 10)
  let interference_list :=
    ((interference.map (fun value => (10 : ℝ) ^ (value / 10))).insertionSort (· ≥ ·)).take 3
  let network_load := simulation_parameters.network_load
  let i_summed := interference_list.sum
  let raw_sum_of_interference := i_summed * (network_load / 100)
  let raw_noise := (10 : ℝ) ^ (noise / 10)
  let i_plus_n := raw_sum_of_interference + raw_noise
  let sinr := pyRound2 (Real.logb 10 (raw_received_power / i_plus_n))
  (received_power, raw_sum_of_interference, noise, i_plus_n, sinr)

/-- `SimulationManager.estimate_average_capacity` (lines 529-558). -/
def estimate_average_capacity (self : SimulationManager)
    (bandwidth spectral_efficiency : ℝ) : ℝ × ℝ :=
  let bandwidth_in_hertz := bandwidth * 1e6
  let capacity_mbps := bandwidth_in_hertz * spectral_efficiency / 1e6
  let capacity_mbps_km2 := capacity_mbps / (self.site_area.area / 1e6)
  (capacity_mbps, capacity_mbps_km2)

/-- One per-receiver result dict appended by `estimate_link_budget`. -/
structure ResultRecord where
  id : String
  path_loss : ℝ
  r_model : String
  type_of_sight : String
  ave_inf_pl : ℝ
  received_power : ℝ
  distance : ℝ
  interference : ℝ
  i_model : String
  network_load : ℝ
  ave_distance : ℝ
  noise : ℝ
  i_plus_n : ℝ
  tranmission_type : String
  sinr : ℝ
  spectral_efficiency : ℝ
  capacity_mbps : ℝ
  capacity_mbps_km2 : ℝ
  receiver_x : ℝ
  receiver_y : ℝ

/-- The body of the receiver loop of `estimate_link_budget` (lines 94-146) for
one receiver.  A spectral-efficiency lookup that returns Python `None` makes
`estimate_average_capacity` multiply a float by `None`: a TypeError. -/
def linkBudgetOne (self : SimulationManager) (frequency bandwidth : ℝ)
    (generation tranmission_type environment : String)
    (modulation_and_coding_lut : List (MCEntry ℝ))
    (simulation_parameters : SimParams) (path_loss_calculator : PLFn)
    (receiver : Receiver) : Except PyErr ResultRecord :=
  let pl := estimate_path_loss self receiver frequency environment
    simulation_parameters path_loss_calculator
  let received_power := estimate_received_power self self.transmitter receiver pl.1
  match estimate_interference self receiver frequency environment
      simulation_parameters path_loss_calculator with
  | Except.error e => Except.error e
  | Except.ok intf =>
    let noise := estimate_noise bandwidth
    let s := estimate_sinr received_power intf.1 noise simulation_parameters
    match estimate_spectral_efficiency s.2.2.2.2 generation modulation_and_coding_lut with
    | Except.error e => Except.error e
    | Except.ok Option.none => Except.error PyErr.typeError
    | Except.ok (some spectral_efficiency) =>
      let cap := estimate_average_capacity self bandwidth spectral_efficiency
      Except.ok
        { id := receiver.id
          path_loss := pl.1
          r_model := pl.2.1
          type_of_sight := pl.2.2.2
          ave_inf_pl := intf.2.2.2
          received_power := s.1
          distance := pl.2.2.1
          interference := Real.logb 10 s.2.1
          i_model := intf.2.1
          network_load := simulation_parameters.network_load
          ave_distance := intf.2.2.1
          noise := s.2.2.1
          i_plus_n := Real.logb 10 s.2.2.2.1
          tranmission_type := tranmission_type
          sinr := s.2.2.2.2
          spectral_efficiency := spectral_efficiency
          capacity_mbps := cap.1
          capacity_mbps_km2 := cap.2
          receiver_x := receiver.coordinates.1
          receiver_y := receiver.coordinates.2 }

/-- The receiver loop of `estimate_link_budget`: the first Python exception
aborts the whole call. -/
def linkBudgetList (self : SimulationManager) (frequency bandwidth : ℝ)
    (generation tranmission_type environment : String)
    (modulation_and_coding_lut : List (MCEntry ℝ))
    (simulation_parameters : SimParams) (path_loss_calculator : PLFn) :
    List Receiver → Except PyErr (List ResultRecord)
  | [] => Except.ok []
  | receiver :: rest =>
    match linkBudgetOne self frequency bandwidth generation tranmission_type
        environment modulation_and_coding_lut simulation_parameters
        path_loss_calculator receiver with
    | Except.error e => Except.error e
    | Except.ok record =>
      match linkBudgetList self frequency bandwidth generation tranmission_type
          environment modulation_and_coding_lut simulation_parameters
          path_loss_calculator rest with
      | Except.error e => Except.error e
      | Except.ok records => Except.ok (record :: records)

/-- `SimulationManager.estimate_link_budget` (lines 59-148).  The `ant_type`
argument is accepted but, as in the source, not read by the method body. -/
def estimate_link_budget (self : SimulationManager) (frequency bandwidth : ℝ)
    (generation ant_type tranmission_type environment : String)
    (modulation_and_coding_lut : List (MCEntry ℝ))
    (simulation_parameters : SimParams) (path_loss_calculator : PLFn) :
    Except PyErr (List ResultRecord) :=
  linkBudgetList self frequency bandwidth generation tranmission_type environment
    modulation_and_coding_lut simulation_parameters path_loss_calculator
    self.receivers

/-- The geojson payload of one transmitter site: its id and coordinates. -/
structure TxData where
  site_id : String
  coordinates : ℝ × ℝ

/-- The geojson payload of one receiver. -/
structure RxData where
  ue_id : String
  coordinates : ℝ × ℝ
  ue_height : ℝ
  gain : ℝ
  losses : ℝ
  misc_losses : ℝ
  indoor : Bool

/-- The geojson payload of the site area; its polygon area is computed by the
external geometry library at construction. -/
structure SiteAreaData where
  site_id : String
  area : ℝ

/-- The `Transmitter`/`InterferingTransmitter` constructors (lines 590-653):
height/power/gain/losses are copied from the antenna-type specific simulation
parameters.  For an antenna type other than `macro`/`micro` the Python object
is left without these attributes, embedded as `none`. -/
def mkTransmitter (data : TxData) (ant_type : String) (p : SimParams) :
    Option Transmitter :=
  if ant_type = "macro" then
    some ⟨data.site_id, data.coordinates, ant_type, p.tx_macro_baseline_height,
      p.tx_macro_power, p.tx_macro_gain, p.tx_macro_losses⟩
  else if ant_type = "micro" then
    some ⟨data.site_id, data.coordinates, ant_type, p.tx_micro_baseline_height,
      p.tx_micro_power, p.tx_micro_gain, p.tx_micro_losses⟩
  else Option.none

/-- The interfering-transmitter construction loop of `SimulationManager.__init__`. -/
def mkInterferers : List TxData → String → SimParams → Option (List Transmitter)
  | [], _, _ => some []
  | d :: rest, ant_type, p =>
    match mkTransmitter d ant_type p, mkInterferers rest ant_type p with
    | some t, some ts => some (t :: ts)
    | _, _ => Option.none

/-- The `Receiver` constructor (lines 656-677). -/
def mkReceiver (d : RxData) : Receiver :=
  ⟨d.ue_id, d.coordinates, d.ue_height, d.gain, d.losses, d.misc_losses, d.indoor⟩

/-- `SimulationManager.__init__` (lines 37-56): takes the first element of the
transmitter and site-area lists and builds the entity set. -/
def mkSimulationManager (transmitter : List TxData)
    (interfering_transmitters : List TxData) (ant_type : String)
    (receivers : List RxData) (site_area : List SiteAreaData) (p : SimParams) :
    Option SimulationManager :=
  match transmitter.head?, site_area.head? with
  | some t0, some sa0 =>
    match mkTransmitter t0 ant_type p, mkInterferers interfering_transmitters ant_type p with
    | some tx, some itxs =>
      some ⟨tx, itxs, receivers.map mkReceiver, ⟨sa0.site_id, sa0.area⟩⟩
    | _, _ => Option.none
  | _, _ => Option.none

end RadioPipeline

section StepFunctions

/-- The step function denoted by the shipped table's 4G block: the spectral-efficiency lookup value as a plain case split on the SINR. -/
def se4G (s : ℚ) : ℚ :=
  if s < (-6.7 : ℚ) then 0
  else if s < (-4.7 : ℚ) then 0.1523
  else if s < (-2.3 : ℚ) then 0.2344
  else if s < (0.2 : ℚ) then 0.377
  else if s < (2.4 : ℚ) then 0.6016
  else if s < (4.3 : ℚ) then 0.877
  else if s < (5.9 : ℚ) then 1.1758
  else if s < (8.1 : ℚ) then 1.4766
  else if s < (10.3 : ℚ) then 1.9141
  else if s < (11.7 : ℚ) then 2.4063
  else if s < (14.1 : ℚ) then 2.7305
  else if s < (16.3 : ℚ) then 3.3223
  else if s < (18.7 : ℚ) then 3.9023
  else if s < (21 : ℚ) then 4.5234
  else if s < (22.7 : ℚ) then 5.1152
  else 5.5547

/-- The step function denoted by the shipped table's 5G block. -/
def se5G (s : ℚ) : ℚ :=
  if s < (-6.7 : ℚ) then 0
  else if s < (-4.7 : ℚ) then 0.30
  else if s < (-2.3 : ℚ) then 2.05
  else if s < (0.2 : ℚ) then 4.42
  else if s < (2.4 : ℚ) then 6.40
  else if s < (4.3 : ℚ) then 8.00
  else if s < (5.9 : ℚ) then 10.82
  else if s < (8.1 : ℚ) then 12.40
  else if s < (10.3 : ℚ) then 16.00
  else if s < (11.7 : ℚ) then 19.00
  else if s < (14.1 : ℚ) then 22.00
  else if s < (16.3 : ℚ) then 28.00
  else if s < (18.7 : ℚ) then 32.00
  else if s < (21 : ℚ) then 38.00
  else if s < (22.7 : ℚ) then 44.00
  else 50.00

end StepFunctions

noncomputable section WitnessInputs

/-- A concrete simulation-parameter set used for witness checks. -/
def sampleParams : SimParams :=
  ⟨500, 5, 20, 0, 50, 42, 43, 100, 30, 40, 16, 2, 10, 24, 5, 1⟩

/-- A spying path-loss collaborator: reports the distance it was handed as the
path loss, making the passed distance observable in the outputs. -/
def plSpy : PLFn := fun a => (a.distance, "spy")

/-- A receiver at the origin. -/
def rxOrigin : Receiver := ⟨"ue1", (0, 0), 1.5, 4, 4, 4, false⟩

/-- A transmitter 10 m from the origin (at (6, 8)). -/
def txNear : Transmitter := ⟨"site9", (6, 8), "micro", 10, 24, 5, 1⟩

/-- A manager whose serving and single interfering transmitter sit 10 m from
the receiver. -/
def mgrNear : SimulationManager := ⟨txNear, [txNear], [rxOrigin], ⟨"area1", 1000000⟩⟩

/-- A manager with no interfering transmitters and one receiver. -/
def mgrEmpty : SimulationManager := ⟨txNear, [], [rxOrigin], ⟨"area1", 1000000⟩⟩

/-- A manager as constructed by `mkSimulationManager` from macro antenna data,
used to check the interference received-power formula. -/
def mgrC4 : SimulationManager :=
  ⟨⟨"s1", (0, 0), "macro", 30, 40, 16, 2⟩,
   [⟨"i1", (100, 0), "macro", 30, 40, 16, 2⟩], [], ⟨"a1", 1000000⟩⟩

end WitnessInputs

set_option maxHeartbeats 1600000

section LookupLemmas

/-- String facts used to evaluate the generation guards of the lookup loop. -/
lemma g44 : (("4G" : String) = "4G") = True := eq_true rfl

/-- See `g44`. -/
lemma g45 : (("4G" : String) = "5G") = False := eq_false (by decide)

/-- See `g44`. -/
lemma g54 : (("5G" : String) = "4G") = False := eq_false (by decide)

/-- See `g44`. -/
lemma g55 : (("5G" : String) = "5G") = True := eq_true rfl

/-- See `g44`. -/
lemma g4e : (("4G" : String) = "") = False := eq_false (by decide)

/-- See `g44`. -/
lemma g5e : (("5G" : String) = "") = False := eq_false (by decide)

/-- The saturation/floor part for generation 4G: no branch fires strictly inside the table range. -/
lemma tail4G_none (s : ℚ) (h1 : (-6.7 : ℚ) ≤ s) (h2 : s < (22.7 : ℚ)) :
    seTail s "4G" (MODULATION_AND_CODING_LUT : List (MCEntry ℚ)) = Option.none := by
  have c1 : ((22.7 : ℚ) ≤ s) = False := eq_false (by linarith)
  have c2 : (s < (-6.7 : ℚ)) = False := eq_false (by linarith)
  simp only [seTail, MODULATION_AND_CODING_LUT, listAt, c1, c2, g44, g45, g54, g55, g4e, g5e, and_true, and_false, true_and, false_and, not_false_eq_true, not_true_eq_false, if_true, if_false, eq_self_iff_true]

/-- The saturation branch for generation 4G. -/
lemma tail4G_sat (s : ℚ) (h : (22.7 : ℚ) ≤ s) :
    seTail s "4G" (MODULATION_AND_CODING_LUT : List (MCEntry ℚ)) = some (Except.ok (some (5.5547 : ℚ))) := by
  simp only [seTail, MODULATION_AND_CODING_LUT, listAt, h, g44, g45, g54, g55, g4e, g5e, and_true, and_false, true_and, false_and, not_false_eq_true, not_true_eq_false, if_true, if_false, eq_self_iff_true]

/-- The floor branch for generation 4G. -/
lemma tail4G_floor (s : ℚ) (h : s < (-6.7 : ℚ)) :
    seTail s "4G" (MODULATION_AND_CODING_LUT : List (MCEntry ℚ)) = some (Except.ok (some (0 : ℚ))) := by
  have c1 : ((22.7 : ℚ) ≤ s) = False := eq_false (by linarith)
  simp only [seTail, MODULATION_AND_CODING_LUT, listAt, c1, h, g44, g45, g54, g55, g4e, g5e, and_true, and_false, true_and, false_and, not_false_eq_true, not_true_eq_false, if_true, if_false, eq_self_iff_true]

/-- The saturation/floor part for generation 5G: no branch fires strictly inside the table range. -/
lemma tail5G_none (s : ℚ) (h1 : (-6.7 : ℚ) ≤ s) (h2 : s < (22.7 : ℚ)) :
    seTail s "5G" (MODULATION_AND_CODING_LUT : List (MCEntry ℚ)) = Option.none := by
  have c1 : ((22.7 : ℚ) ≤ s) = False := eq_false (by linarith)
  have c2 : (s < (-6.7 : ℚ)) = False := eq_false (by linarith)
  simp only [seTail, MODULATION_AND_CODING_LUT, listAt, c1, c2, g44, g45, g54, g55, g4e, g5e, and_true, and_false, true_and, false_and, not_false_eq_true, not_true_eq_false, if_true, if_false, eq_self_iff_true]

/-- The saturation branch for generation 5G. -/
lemma tail5G_sat (s : ℚ) (h : (22.7 : ℚ) ≤ s) :
    seTail s "5G" (MODULATION_AND_CODING_LUT : List (MCEntry ℚ)) = some (Except.ok (some (50.00 : ℚ))) := by
  simp only [seTail, MODULATION_AND_CODING_LUT, listAt, h, g44, g45, g54, g55, g4e, g5e, and_true, and_false, true_and, false_and, not_false_eq_true, not_true_eq_false, if_true, if_false, eq_self_iff_true]

/-- The floor branch for generation 5G. -/
lemma tail5G_floor (s : ℚ) (h : s < (-6.7 : ℚ)) :
    seTail s "5G" (MODULATION_AND_CODING_LUT : List (MCEntry ℚ)) = some (Except.ok (some (0 : ℚ))) := by
  have c1 : ((22.7 : ℚ) ≤ s) = False := eq_false (by linarith)
  simp only [seTail, MODULATION_AND_CODING_LUT, listAt, c1, h, g44, g45, g54, g55, g4e, g5e, and_true, and_false, true_and, false_and, not_false_eq_true, not_true_eq_false, if_true, if_false, eq_self_iff_true]

/-- Scanning lemma: with the SINR at or past threshold index 1, the first pair of the 4G block falls through. -/
lemma reach4G_1 (s : ℚ) (h1 : (-4.7 : ℚ) ≤ s) (h2 : s < (22.7 : ℚ)) :
    seLoop s "4G" (MODULATION_AND_CODING_LUT : List (MCEntry ℚ)) (pairwise (MODULATION_AND_CODING_LUT : List (MCEntry ℚ))) =
      seLoop s "4G" (MODULATION_AND_CODING_LUT : List (MCEntry ℚ)) (List.drop 1 (pairwise (MODULATION_AND_CODING_LUT : List (MCEntry ℚ)))) := by
  have hd : pairwise (MODULATION_AND_CODING_LUT : List (MCEntry ℚ)) =
      (⟨"4G", "1x1", 1, "QPSK", 78, 0.1523, -6.7⟩,
       ⟨"4G", "1x1", 2, "QPSK", 120, 0.2344, -4.7⟩) :: List.drop 1 (pairwise (MODULATION_AND_CODING_LUT : List (MCEntry ℚ))) := rfl
  have ht : seTail s "4G" (MODULATION_AND_CODING_LUT : List (MCEntry ℚ)) = Option.none := tail4G_none s (by linarith) h2
  have a : ((-6.7 : ℚ) ≤ s) = True := eq_true (by linarith)
  have b : (s < (-4.7 : ℚ)) = False := eq_false (by linarith)
  rw [hd]
  simp only [seLoop, seStep, ht, a, b, g44, g45, g54, g55, g4e, g5e, and_true, and_false, true_and, false_and, not_false_eq_true, not_true_eq_false, if_true, if_false, eq_self_iff_true]

/-- Scanning lemma: with the SINR at or past threshold index 2, the first 2 pairs of the 4G block fall through. -/
lemma reach4G_2 (s : ℚ) (h1 : (-2.3 : ℚ) ≤ s) (h2 : s < (22.7 : ℚ)) :
    seLoop s "4G" (MODULATION_AND_CODING_LUT : List (MCEntry ℚ)) (pairwise (MODULATION_AND_CODING_LUT : List (MCEntry ℚ))) =
      seLoop s "4G" (MODULATION_AND_CODING_LUT : List (MCEntry ℚ)) (List.drop 2 (pairwise (MODULATION_AND_CODING_LUT : List (MCEntry ℚ)))) := by
  rw [reach4G_1 s (by linarith) h2]
  have hd : List.drop 1 (pairwise (MODULATION_AND_CODING_LUT : List (MCEntry ℚ))) =
      (⟨"4G", "1x1", 2, "QPSK", 120, 0.2344, -4.7⟩,
       ⟨"4G", "1x1", 3, "QPSK", 193, 0.377, -2.3⟩) :: List.drop 2 (pairwise (MODULATION_AND_CODING_LUT : List (MCEntry ℚ))) := rfl
  have ht : seTail s "4G" (MODULATION_AND_CODING_LUT : List (MCEntry ℚ)) = Option.none := tail4G_none s (by linarith) h2
  have a : ((-4.7 : ℚ) ≤ s) = True := eq_true (by linarith)
  have b : (s < (-2.3 : ℚ)) = False := eq_false (by linarith)
  rw [hd]
  simp only [seLoop, seStep, ht, a, b, g44, g45, g54, g55, g4e, g5e, and_true, and_false, true_and, false_and, not_false_eq_true, not_true_eq_false, if_true, if_false, eq_self_iff_true]

/-- Scanning lemma: with the SINR at or past threshold index 3, the first 3 pairs of the 4G block fall through. -/
lemma reach4G_3 (s : ℚ) (h1 : (0.2 : ℚ) ≤ s) (h2 : s < (22.7 : ℚ)) :
    seLoop s "4G" (MODULATION_AND_CODING_LUT : List (MCEntry ℚ)) (pairwise (MODULATION_AND_CODING_LUT : List (MCEntry ℚ))) =
      seLoop s "4G" (MODULATION_AND_CODING_LUT : List (MCEntry ℚ)) (List.drop 3 (pairwise (MODULATION_AND_CODING_LUT : List (MCEntry ℚ)))) := by
  rw [reach4G_2 s (by linarith) h2]
  have hd : List.drop 2 (pairwise (MODULATION_AND_CODING_LUT : List (MCEntry ℚ))) =
      (⟨"4G", "1x1", 3, "QPSK", 193, 0.377, -2.3⟩,
       ⟨"4G", "1x1", 4, "QPSK", 308, 0.6016, 0.2⟩) :: List.drop 3 (pairwise (MODULATION_AND_CODING_LUT : List (MCEntry ℚ))) := rfl
  have ht : seTail s "4G" (MODULATION_AND_CODING_LUT : List (MCEntry ℚ)) = Option.none := tail4G_none s (by linarith) h2
  have a : ((-2.3 : ℚ) ≤ s) = True := eq_true (by linarith)
  have b : (s < (0.2 : ℚ)) = False := eq_false (by linarith)
  rw [hd]
  simp only [seLoop, seStep, ht, a, b, g44, g45, g54, g55, g4e, g5e, and_true, and_false, true_and, false_and, not_false_eq_true, not_true_eq_false, if_true, if_false, eq_self_iff_true]

/-- Scanning lemma: with the SINR at or past threshold index 4, the first 4 pairs of the 4G block fall through. -/
lemma reach4G_4 (s : ℚ) (h1 : (2.4 : ℚ) ≤ s) (h2 : s < (22.7 : ℚ)) :
    seLoop s "4G" (MODULATION_AND_CODING_LUT : List (MCEntry ℚ)) (pairwise (MODULATION_AND_CODING_LUT : List (MCEntry ℚ))) =
      seLoop s "4G" (MODULATION_AND_CODING_LUT : List (MCEntry ℚ)) (List.drop 4 (pairwise (MODULATION_AND_CODING_LUT : List (MCEntry ℚ)))) := by
  rw [reach4G_3 s (by linarith) h2]
  have hd : List.drop 3 (pairwise (MODULATION_AND_CODING_LUT : List (MCEntry ℚ))) =
      (⟨"4G", "1x1", 4, "QPSK", 308, 0.6016, 0.2⟩,
       ⟨"4G", "1x1", 5, "QPSK", 449, 0.877, 2.4⟩) :: List.drop 4 (pairwise (MODULATION_AND_CODING_LUT : List (MCEntry ℚ))) := rfl
  have ht : seTail s "4G" (MODULATION_AND_CODING_LUT : List (MCEntry ℚ)) = Option.none := tail4G_none s (by linarith) h2
  have a : ((0.2 : ℚ) ≤ s) = True := eq_true (by linarith)
  have b : (s < (2.4 : ℚ)) = False := eq_false (by linarith)
  rw [hd]
  simp only [seLoop, seStep, ht, a, b, g44, g45, g54, g55, g4e, g5e, and_true, and_false, true_and, false_and, not_false_eq_true, not_true_eq_false, if_true, if_false, eq_self_iff_true]

/-- Scanning lemma: with the SINR at or past threshold index 5, the first 5 pairs of the 4G block fall through. -/
lemma reach4G_5 (s : ℚ) (h1 : (4.3 : ℚ) ≤ s) (h2 : s < (22.7 : ℚ)) :
    seLoop s "4G" (MODULATION_AND_CODING_LUT : List (MCEntry ℚ)) (pairwise (MODULATION_AND_CODING_LUT : List (MCEntry ℚ))) =
      seLoop s "4G" (MODULATION_AND_CODING_LUT : List (MCEntry ℚ)) (List.drop 5 (pairwise (MODULATION_AND_CODING_LUT : List (MCEntry ℚ)))) := by
  rw [reach4G_4 s (by linarith) h2]
  have hd : List.drop 4 (pairwise (MODULATION_AND_CODING_LUT : List (MCEntry ℚ))) =
      (⟨"4G", "1x1", 5, "QPSK", 449, 0.877, 2.4⟩,
       ⟨"4G", "1x1", 6, "QPSK", 602, 1.1758, 4.3⟩) :: List.drop 5 (pairwise (MODULATION_AND_CODING_LUT : List (MCEntry ℚ))) := rfl
  have ht : seTail s "4G" (MODULATION_AND_CODING_LUT : List (MCEntry ℚ)) = Option.none := tail4G_none s (by linarith) h2
  have a : ((2.4 : ℚ) ≤ s) = True := eq_true (by linarith)
  have b : (s < (4.3 : ℚ)) = False := eq_false (by linarith)
  rw [hd]
  simp only [seLoop, seStep, ht, a, b, g44, g45, g54, g55, g4e, g5e, and_true, and_false, true_and, false_and, not_false_eq_true, not_true_eq_false, if_true, if_false, eq_self_iff_true]

/-- Scanning lemma: with the SINR at or past threshold index 6, the first 6 pairs of the 4G block fall through. -/
lemma reach4G_6 (s : ℚ) (h1 : (5.9 : ℚ) ≤ s) (h2 : s < (22.7 : ℚ)) :
    seLoop s "4G" (MODULATION_AND_CODING_LUT : List (MCEntry ℚ)) (pairwise (MODULATION_AND_CODING_LUT : List (MCEntry ℚ))) =
      seLoop s "4G" (MODULATION_AND_CODING_LUT : List (MCEntry ℚ)) (List.drop 6 (pairwise (MODULATION_AND_CODING_LUT : List (MCEntry ℚ)))) := by
  rw [reach4G_5 s (by linarith) h2]
  have hd : List.drop 5 (pairwise (MODULATION_AND_CODING_LUT : List (MCEntry ℚ))) =
      (⟨"4G", "1x1", 6, "QPSK", 602, 1.1758, 4.3⟩,
       ⟨"4G", "1x1", 7, "16QAM", 378, 1.4766, 5.9⟩) :: List.drop 6 (pairwise (MODULATION_AND_CODING_LUT : List (MCEntry ℚ))) := rfl
  have ht : seTail s "4G" (MODULATION_AND_CODING_LUT : List (MCEntry ℚ)) = Option.none := tail4G_none s (by linarith) h2
  have a : ((4.3 : ℚ) ≤ s) = True := eq_true (by linarith)
  have b : (s < (5.9 : ℚ)) = False := eq_false (by linarith)
  rw [hd]
  simp only [seLoop, seStep, ht, a, b, g44, g45, g54, g55, g4e, g5e, and_true, and_false, true_and, false_and, not_false_eq_true, not_true_eq_false, if_true, if_false, eq_self_iff_true]

/-- Scanning lemma: with the SINR at or past threshold index 7, the first 7 pairs of the 4G block fall through. -/
lemma reach4G_7 (s : ℚ) (h1 : (8.1 : ℚ) ≤ s) (h2 : s < (22.7 : ℚ)) :
    seLoop s "4G" (MODULATION_AND_CODING_LUT : List (MCEntry ℚ)) (pairwise (MODULATION_AND_CODING_LUT : List (MCEntry ℚ))) =
      seLoop s "4G" (MODULATION_AND_CODING_LUT : List (MCEntry ℚ)) (List.drop 7 (pairwise (MODULATION_AND_CODING_LUT : List (MCEntry ℚ)))) := by
  rw [reach4G_6 s (by linarith) h2]
  have hd : List.drop 6 (pairwise (MODULATION_AND_CODING_LUT : List (MCEntry ℚ))) =
      (⟨"4G", "1x1", 7, "16QAM", 378, 1.4766, 5.9⟩,
       ⟨"4G", "1x1", 8, "16QAM", 490, 1.9141, 8.1⟩) :: List.drop 7 (pairwise (MODULATION_AND_CODING_LUT : List (MCEntry ℚ))) := rfl
  have ht : seTail s "4G" (MODULATION_AND_CODING_LUT : List (MCEntry ℚ)) = Option.none := tail4G_none s (by linarith) h2
  have a : ((5.9 : ℚ) ≤ s) = True := eq_true (by linarith)
  have b : (s < (8.1 : ℚ)) = False := eq_false (by linarith)
  rw [hd]
  simp only [seLoop, seStep, ht, a, b, g44, g45, g54, g55, g4e, g5e, and_true, and_false, true_and, false_and, not_false_eq_true, not_true_eq_false, if_true, if_false, eq_self_iff_true]

/-- Scanning lemma: with the SINR at or past threshold index 8, the first 8 pairs of the 4G block fall through. -/
lemma reach4G_8 (s : ℚ) (h1 : (10.3 : ℚ) ≤ s) (h2 : s < (22.7 : ℚ)) :
    seLoop s "4G" (MODULATION_AND_CODING_LUT : List (MCEntry ℚ)) (pairwise (MODULATION_AND_CODING_LUT : List (MCEntry ℚ))) =
      seLoop s "4G" (MODULATION_AND_CODING_LUT : List (MCEntry ℚ)) (List.drop 8 (pairwise (MODULATION_AND_CODING_LUT : List (MCEntry ℚ)))) := by
  rw [reach4G_7 s (by linarith) h2]
  have hd : List.drop 7 (pairwise (MODULATION_AND_CODING_LUT : List (MCEntry ℚ))) =
      (⟨"4G", "1x1", 8, "16QAM", 490, 1.9141, 8.1⟩,
       ⟨"4G", "1x1", 9, "16QAM", 616, 2.4063, 10.3⟩) :: List.drop 8 (pairwise (MODULATION_AND_CODING_LUT : List (MCEntry ℚ))) := rfl
  have ht : seTail s "4G" (MODULATION_AND_CODING_LUT : List (MCEntry ℚ)) = Option.none := tail4G_none s (by linarith) h2
  have a : ((8.1 : ℚ) ≤ s) = True := eq_true (by linarith)
  have b : (s < (10.3 : ℚ)) = False := eq_false (by linarith)
  rw [hd]
  simp only [seLoop, seStep, ht, a, b, g44, g45, g54, g55, g4e, g5e, and_true, and_false, true_and, false_and, not_false_eq_true, not_true_eq_false, if_true, if_false, eq_self_iff_true]

/-- Scanning lemma: with the SINR at or past threshold index 9, the first 9 pairs of the 4G block fall through. -/
lemma reach4G_9 (s : ℚ) (h1 : (11.7 : ℚ) ≤ s) (h2 : s < (22.7 : ℚ)) :
    seLoop s "4G" (MODULATION_AND_CODING_LUT : List (MCEntry ℚ)) (pairwise (MODULATION_AND_CODING_LUT : List (MCEntry ℚ))) =
      seLoop s "4G" (MODULATION_AND_CODING_LUT : List (MCEntry ℚ)) (List.drop 9 (pairwise (MODULATION_AND_CODING_LUT : List (MCEntry ℚ)))) := by
  rw [reach4G_8 s (by linarith) h2]
  have hd : List.drop 8 (pairwise (MODULATION_AND_CODING_LUT : List (MCEntry ℚ))) =
      (⟨"4G", "1x1", 9, "16QAM", 616, 2.4063, 10.3⟩,
       ⟨"4G", "1x1", 10, "64QAM", 466, 2.7305, 11.7⟩) :: List.drop 9 (pairwise (MODULATION_AND_CODING_LUT : List (MCEntry ℚ))) := rfl
  have ht : seTail s "4G" (MODULATION_AND_CODING_LUT : List (MCEntry ℚ)) = Option.none := tail4G_none s (by linarith) h2
  have a : ((10.3 : ℚ) ≤ s) = True := eq_true (by linarith)
  have b : (s < (11.7 : ℚ)) = False := eq_false (by linarith)
  rw [hd]
  simp only [seLoop, seStep, ht, a, b, g44, g45, g54, g55, g4e, g5e, and_true, and_false, true_and, false_and, not_false_eq_true, not_true_eq_false, if_true, if_false, eq_self_iff_true]

/-- Scanning lemma: with the SINR at or past threshold index 10, the first 10 pairs of the 4G block fall through. -/
lemma reach4G_10 (s : ℚ) (h1 : (14.1 : ℚ) ≤ s) (h2 : s < (22.7 : ℚ)) :
    seLoop s "4G" (MODULATION_AND_CODING_LUT : List (MCEntry ℚ)) (pairwise (MODULATION_AND_CODING_LUT : List (MCEntry ℚ))) =
      seLoop s "4G" (MODULATION_AND_CODING_LUT : List (MCEntry ℚ)) (List.drop 10 (pairwise (MODULATION_AND_CODING_LUT : List (MCEntry ℚ)))) := by
  rw [reach4G_9 s (by linarith) h2]
  have hd : List.drop 9 (pairwise (MODULATION_AND_CODING_LUT : List (MCEntry ℚ))) =
      (⟨"4G", "1x1", 10, "64QAM", 466, 2.7305, 11.7⟩,
       ⟨"4G", "1x1", 11, "64QAM", 567, 3.3223, 14.1⟩) :: List.drop 10 (pairwise (MODULATION_AND_CODING_LUT : List (MCEntry ℚ))) := rfl
  have ht : seTail s "4G" (MODULATION_AND_CODING_LUT : List (MCEntry ℚ)) = Option.none := tail4G_none s (by linarith) h2
  have a : ((11.7 : ℚ) ≤ s) = True := eq_true (by linarith)
  have b : (s < (14.1 : ℚ)) = False := eq_false (by linarith)
  rw [hd]
  simp only [seLoop, seStep, ht, a, b, g44, g45, g54, g55, g4e, g5e, and_true, and_false, true_and, false_and, not_false_eq_true, not_true_eq_false, if_true, if_false, eq_self_iff_true]

/-- Scanning lemma: with the SINR at or past threshold index 11, the first 11 pairs of the 4G block fall through. -/
lemma reach4G_11 (s : ℚ) (h1 : (16.3 : ℚ) ≤ s) (h2 : s < (22.7 : ℚ)) :
    seLoop s "4G" (MODULATION_AND_CODING_LUT : List (MCEntry ℚ)) (pairwise (MODULATION_AND_CODING_LUT : List (MCEntry ℚ))) =
      seLoop s "4G" (MODULATION_AND_CODING_LUT : List (MCEntry ℚ)) (List.drop 11 (pairwise (MODULATION_AND_CODING_LUT : List (MCEntry ℚ)))) := by
  rw [reach4G_10 s (by linarith) h2]
  have hd : List.drop 10 (pairwise (MODULATION_AND_CODING_LUT : List (MCEntry ℚ))) =
      (⟨"4G", "1x1", 11, "64QAM", 567, 3.3223, 14.1⟩,
       ⟨"4G", "1x1", 12, "64QAM", 666, 3.9023, 16.3⟩) :: List.drop 11 (pairwise (MODULATION_AND_CODING_LUT : List (MCEntry ℚ))) := rfl
  have ht : seTail s "4G" (MODULATION_AND_CODING_LUT : List (MCEntry ℚ)) = Option.none := tail4G_none s (by linarith) h2
  have a : ((14.1 : ℚ) ≤ s) = True := eq_true (by linarith)
  have b : (s < (16.3 : ℚ)) = False := eq_false (by linarith)
  rw [hd]
  simp only [seLoop, seStep, ht, a, b, g44, g45, g54, g55, g4e, g5e, and_true, and_false, true_and, false_and, not_false_eq_true, not_true_eq_false, if_true, if_false, eq_self_iff_true]

/-- Scanning lemma: with the SINR at or past threshold index 12, the first 12 pairs of the 4G block fall through. -/
lemma reach4G_12 (s : ℚ) (h1 : (18.7 : ℚ) ≤ s) (h2 : s < (22.7 : ℚ)) :
    seLoop s "4G" (MODULATION_AND_CODING_LUT : List (MCEntry ℚ)) (pairwise (MODULATION_AND_CODING_LUT : List (MCEntry ℚ))) =
      seLoop s "4G" (MODULATION_AND_CODING_LUT : List (MCEntry ℚ)) (List.drop 12 (pairwise (MODULATION_AND_CODING_LUT : List (MCEntry ℚ)))) := by
  rw [reach4G_11 s (by linarith) h2]
  have hd : List.drop 11 (pairwise (MODULATION_AND_CODING_LUT : List (MCEntry ℚ))) =
      (⟨"4G", "1x1", 12, "64QAM", 666, 3.9023, 16.3⟩,
       ⟨"4G", "1x1", 13, "64QAM", 772, 4.5234, 18.7⟩) :: List.drop 12 (pairwise (MODULATION_AND_CODING_LUT : List (MCEntry ℚ))) := rfl
  have ht : seTail s "4G" (MODULATION_AND_CODING_LUT : List (MCEntry ℚ)) = Option.none := tail4G_none s (by linarith) h2
  have a : ((16.3 : ℚ) ≤ s) = True := eq_true (by linarith)
  have b : (s < (18.7 : ℚ)) = False := eq_false (by linarith)
  rw [hd]
  simp only [seLoop, seStep, ht, a, b, g44, g45, g54, g55, g4e, g5e, and_true, and_false, true_and, false_and, not_false_eq_true, not_true_eq_false, if_true, if_false, eq_self_iff_true]

/-- Scanning lemma: with the SINR at or past threshold index 13, the first 13 pairs of the 4G block fall through. -/
lemma reach4G_13 (s : ℚ) (h1 : (21 : ℚ) ≤ s) (h2 : s < (22.7 : ℚ)) :
    seLoop s "4G" (MODULATION_AND_CODING_LUT : List (MCEntry ℚ)) (pairwise (MODULATION_AND_CODING_LUT : List (MCEntry ℚ))) =
      seLoop s "4G" (MODULATION_AND_CODING_LUT : List (MCEntry ℚ)) (List.drop 13 (pairwise (MODULATION_AND_CODING_LUT : List (MCEntry ℚ)))) := by
  rw [reach4G_12 s (by linarith) h2]
  have hd : List.drop 12 (pairwise (MODULATION_AND_CODING_LUT : List (MCEntry ℚ))) =
      (⟨"4G", "1x1", 13, "64QAM", 772, 4.5234, 18.7⟩,
       ⟨"4G", "1x1", 14, "64QAM", 873, 5.1152, 21⟩) :: List.drop 13 (pairwise (MODULATION_AND_CODING_LUT : List (MCEntry ℚ))) := rfl
  have ht : seTail s "4G" (MODULATION_AND_CODING_LUT : List (MCEntry ℚ)) = Option.none := tail4G_none s (by linarith) h2
  have a : ((18.7 : ℚ) ≤ s) = True := eq_true (by linarith)
  have b : (s < (21 : ℚ)) = False := eq_false (by linarith)
  rw [hd]
  simp only [seLoop, seStep, ht, a, b, g44, g45, g54, g55, g4e, g5e, and_true, and_false, true_and, false_and, not_false_eq_true, not_true_eq_false, if_true, if_false, eq_self_iff_true]

/-- Interval evaluation: SINR in the first 4G interval. -/
lemma eval4G_0 (s : ℚ) (h1 : (-6.7 : ℚ) ≤ s) (h2 : s < (-4.7 : ℚ)) :
    estimate_spectral_efficiency s "4G" (MODULATION_AND_CODING_LUT : List (MCEntry ℚ)) =
      Except.ok (some (0.1523 : ℚ)) := by
  have hd : pairwise (MODULATION_AND_CODING_LUT : List (MCEntry ℚ)) =
      (⟨"4G", "1x1", 1, "QPSK", 78, 0.1523, -6.7⟩,
       ⟨"4G", "1x1", 2, "QPSK", 120, 0.2344, -4.7⟩) :: List.drop 1 (pairwise (MODULATION_AND_CODING_LUT : List (MCEntry ℚ))) := rfl
  have a : ((-6.7 : ℚ) ≤ s) = True := eq_true (by linarith)
  rw [estimate_spectral_efficiency, hd]
  simp only [seLoop, seStep, a, h2, g44, g45, g54, g55, g4e, g5e, and_true, and_false, true_and, false_and, not_false_eq_true, not_true_eq_false, if_true, if_false, eq_self_iff_true]

/-- Interval evaluation: SINR in 4G interval 1. -/
lemma eval4G_1 (s : ℚ) (h1 : (-4.7 : ℚ) ≤ s) (h2 : s < (-2.3 : ℚ)) :
    estimate_spectral_efficiency s "4G" (MODULATION_AND_CODING_LUT : List (MCEntry ℚ)) =
      Except.ok (some (0.2344 : ℚ)) := by
  rw [estimate_spectral_efficiency, reach4G_1 s h1 (by linarith)]
  have hd : List.drop 1 (pairwise (MODULATION_AND_CODING_LUT : List (MCEntry ℚ))) =
      (⟨"4G", "1x1", 2, "QPSK", 120, 0.2344, -4.7⟩,
       ⟨"4G", "1x1", 3, "QPSK", 193, 0.377, -2.3⟩) :: List.drop 2 (pairwise (MODULATION_AND_CODING_LUT : List (MCEntry ℚ))) := rfl
  have a : ((-4.7 : ℚ) ≤ s) = True := eq_true h1
  rw [hd]
  simp only [seLoop, seStep, a, h2, g44, g45, g54, g55, g4e, g5e, and_true, and_false, true_and, false_and, not_false_eq_true, not_true_eq_false, if_true, if_false, eq_self_iff_true]

/-- Interval evaluation: SINR in 4G interval 2. -/
lemma eval4G_2 (s : ℚ) (h1 : (-2.3 : ℚ) ≤ s) (h2 : s < (0.2 : ℚ)) :
    estimate_spectral_efficiency s "4G" (MODULATION_AND_CODING_LUT : List (MCEntry ℚ)) =
      Except.ok (some (0.377 : ℚ)) := by
  rw [estimate_spectral_efficiency, reach4G_2 s h1 (by linarith)]
  have hd : List.drop 2 (pairwise (MODULATION_AND_CODING_LUT : List (MCEntry ℚ))) =
      (⟨"4G", "1x1", 3, "QPSK", 193, 0.377, -2.3⟩,
       ⟨"4G", "1x1", 4, "QPSK", 308, 0.6016, 0.2⟩) :: List.drop 3 (pairwise (MODULATION_AND_CODING_LUT : List (MCEntry ℚ))) := rfl
  have a : ((-2.3 : ℚ) ≤ s) = True := eq_true h1
  rw [hd]
  simp only [seLoop, seStep, a, h2, g44, g45, g54, g55, g4e, g5e, and_true, and_false, true_and, false_and, not_false_eq_true, not_true_eq_false, if_true, if_false, eq_self_iff_true]

/-- Interval evaluation: SINR in 4G interval 3. -/
lemma eval4G_3 (s : ℚ) (h1 : (0.2 : ℚ) ≤ s) (h2 : s < (2.4 : ℚ)) :
    estimate_spectral_efficiency s "4G" (MODULATION_AND_CODING_LUT : List (MCEntry ℚ)) =
      Except.ok (some (0.6016 : ℚ)) := by
  rw [estimate_spectral_efficiency, reach4G_3 s h1 (by linarith)]
  have hd : List.drop 3 (pairwise (MODULATION_AND_CODING_LUT : List (MCEntry ℚ))) =
      (⟨"4G", "1x1", 4, "QPSK", 308, 0.6016, 0.2⟩,
       ⟨"4G", "1x1", 5, "QPSK", 449, 0.877, 2.4⟩) :: List.drop 4 (pairwise (MODULATION_AND_CODING_LUT : List (MCEntry ℚ))) := rfl
  have a : ((0.2 : ℚ) ≤ s) = True := eq_true h1
  rw [hd]
  simp only [seLoop, seStep, a, h2, g44, g45, g54, g55, g4e, g5e, and_true, and_false, true_and, false_and, not_false_eq_true, not_true_eq_false, if_true, if_false, eq_self_iff_true]

/-- Interval evaluation: SINR in 4G interval 4. -/
lemma eval4G_4 (s : ℚ) (h1 : (2.4 : ℚ) ≤ s) (h2 : s < (4.3 : ℚ)) :
    estimate_spectral_efficiency s "4G" (MODULATION_AND_CODING_LUT : List (MCEntry ℚ)) =
      Except.ok (some (0.877 : ℚ)) := by
  rw [estimate_spectral_efficiency, reach4G_4 s h1 (by linarith)]
  have hd : List.drop 4 (pairwise (MODULATION_AND_CODING_LUT : List (MCEntry ℚ))) =
      (⟨"4G", "1x1", 5, "QPSK", 449, 0.877, 2.4⟩,
       ⟨"4G", "1x1", 6, "QPSK", 602, 1.1758, 4.3⟩) :: List.drop 5 (pairwise (MODULATION_AND_CODING_LUT : List (MCEntry ℚ))) := rfl
  have a : ((2.4 : ℚ) ≤ s) = True := eq_true h1
  rw [hd]
  simp only [seLoop, seStep, a, h2, g44, g45, g54, g55, g4e, g5e, and_true, and_false, true_and, false_and, not_false_eq_true, not_true_eq_false, if_true, if_false, eq_self_iff_true]

/-- Interval evaluation: SINR in 4G interval 5. -/
lemma eval4G_5 (s : ℚ) (h1 : (4.3 : ℚ) ≤ s) (h2 : s < (5.9 : ℚ)) :
    estimate_spectral_efficiency s "4G" (MODULATION_AND_CODING_LUT : List (MCEntry ℚ)) =
      Except.ok (some (1.1758 : ℚ)) := by
  rw [estimate_spectral_efficiency, reach4G_5 s h1 (by linarith)]
  have hd : List.drop 5 (pairwise (MODULATION_AND_CODING_LUT : List (MCEntry ℚ))) =
      (⟨"4G", "1x1", 6, "QPSK", 602, 1.1758, 4.3⟩,
       ⟨"4G", "1x1", 7, "16QAM", 378, 1.4766, 5.9⟩) :: List.drop 6 (pairwise (MODULATION_AND_CODING_LUT : List (MCEntry ℚ))) := rfl
  have a : ((4.3 : ℚ) ≤ s) = True := eq_true h1
  rw [hd]
  simp only [seLoop, seStep, a, h2, g44, g45, g54, g55, g4e, g5e, and_true, and_false, true_and, false_and, not_false_eq_true, not_true_eq_false, if_true, if_false, eq_self_iff_true]

/-- Interval evaluation: SINR in 4G interval 6. -/
lemma eval4G_6 (s : ℚ) (h1 : (5.9 : ℚ) ≤ s) (h2 : s < (8.1 : ℚ)) :
    estimate_spectral_efficiency s "4G" (MODULATION_AND_CODING_LUT : List (MCEntry ℚ)) =
      Except.ok (some (1.4766 : ℚ)) := by
  rw [estimate_spectral_efficiency, reach4G_6 s h1 (by linarith)]
  have hd : List.drop 6 (pairwise (MODULATION_AND_CODING_LUT : List (MCEntry ℚ))) =
      (⟨"4G", "1x1", 7, "16QAM", 378, 1.4766, 5.9⟩,
       ⟨"4G", "1x1", 8, "16QAM", 490, 1.9141, 8.1⟩) :: List.drop 7 (pairwise (MODULATION_AND_CODING_LUT : List (MCEntry ℚ))) := rfl
  have a : ((5.9 : ℚ) ≤ s) = True := eq_true h1
  rw [hd]
  simp only [seLoop, seStep, a, h2, g44, g45, g54, g55, g4e, g5e, and_true, and_false, true_and, false_and, not_false_eq_true, not_true_eq_false, if_true, if_false, eq_self_iff_true]

/-- Interval evaluation: SINR in 4G interval 7. -/
lemma eval4G_7 (s : ℚ) (h1 : (8.1 : ℚ) ≤ s) (h2 : s < (10.3 : ℚ)) :
    estimate_spectral_efficiency s "4G" (MODULATION_AND_CODING_LUT : List (MCEntry ℚ)) =
      Except.ok (some (1.9141 : ℚ)) := by
  rw [estimate_spectral_efficiency, reach4G_7 s h1 (by linarith)]
  have hd : List.drop 7 (pairwise (MODULATION_AND_CODING_LUT : List (MCEntry ℚ))) =
      (⟨"4G", "1x1", 8, "16QAM", 490, 1.9141, 8.1⟩,
       ⟨"4G", "1x1", 9, "16QAM", 616, 2.4063, 10.3⟩) :: List.drop 8 (pairwise (MODULATION_AND_CODING_LUT : List (MCEntry ℚ))) := rfl
  have a : ((8.1 : ℚ) ≤ s) = True := eq_true h1
  rw [hd]
  simp only [seLoop, seStep, a, h2, g44, g45, g54, g55, g4e, g5e, and_true, and_false, true_and, false_and, not_false_eq_true, not_true_eq_false, if_true, if_false, eq_self_iff_true]

/-- Interval evaluation: SINR in 4G interval 8. -/
lemma eval4G_8 (s : ℚ) (h1 : (10.3 : ℚ) ≤ s) (h2 : s < (11.7 : ℚ)) :
    estimate_spectral_efficiency s "4G" (MODULATION_AND_CODING_LUT : List (MCEntry ℚ)) =
      Except.ok (some (2.4063 : ℚ)) := by
  rw [estimate_spectral_efficiency, reach4G_8 s h1 (by linarith)]
  have hd : List.drop 8 (pairwise (MODULATION_AND_CODING_LUT : List (MCEntry ℚ))) =
      (⟨"4G", "1x1", 9, "16QAM", 616, 2.4063, 10.3⟩,
       ⟨"4G", "1x1", 10, "64QAM", 466, 2.7305, 11.7⟩) :: List.drop 9 (pairwise (MODULATION_AND_CODING_LUT : List (MCEntry ℚ))) := rfl
  have a : ((10.3 : ℚ) ≤ s) = True := eq_true h1
  rw [hd]
  simp only [seLoop, seStep, a, h2, g44, g45, g54, g55, g4e, g5e, and_true, and_false, true_and, false_and, not_false_eq_true, not_true_eq_false, if_true, if_false, eq_self_iff_true]

/-- Interval evaluation: SINR in 4G interval 9. -/
lemma eval4G_9 (s : ℚ) (h1 : (11.7 : ℚ) ≤ s) (h2 : s < (14.1 : ℚ)) :
    estimate_spectral_efficiency s "4G" (MODULATION_AND_CODING_LUT : List (MCEntry ℚ)) =
      Except.ok (some (2.7305 : ℚ)) := by
  rw [estimate_spectral_efficiency, reach4G_9 s h1 (by linarith)]
  have hd : List.drop 9 (pairwise (MODULATION_AND_CODING_LUT : List (MCEntry ℚ))) =
      (⟨"4G", "1x1", 10, "64QAM", 466, 2.7305, 11.7⟩,
       ⟨"4G", "1x1", 11, "64QAM", 567, 3.3223, 14.1⟩) :: List.drop 10 (pairwise (MODULATION_AND_CODING_LUT : List (MCEntry ℚ))) := rfl
  have a : ((11.7 : ℚ) ≤ s) = True := eq_true h1
  rw [hd]
  simp only [seLoop, seStep, a, h2, g44, g45, g54, g55, g4e, g5e, and_true, and_false, true_and, false_and, not_false_eq_true, not_true_eq_false, if_true, if_false, eq_self_iff_true]

/-- Interval evaluation: SINR in 4G interval 10. -/
lemma eval4G_10 (s : ℚ) (h1 : (14.1 : ℚ) ≤ s) (h2 : s < (16.3 : ℚ)) :
    estimate_spectral_efficiency s "4G" (MODULATION_AND_CODING_LUT : List (MCEntry ℚ)) =
      Except.ok (some (3.3223 : ℚ)) := by
  rw [estimate_spectral_efficiency, reach4G_10 s h1 (by linarith)]
  have hd : List.drop 10 (pairwise (MODULATION_AND_CODING_LUT : List (MCEntry ℚ))) =
      (⟨"4G", "1x1", 11, "64QAM", 567, 3.3223, 14.1⟩,
       ⟨"4G", "1x1", 12, "64QAM", 666, 3.9023, 16.3⟩) :: List.drop 11 (pairwise (MODULATION_AND_CODING_LUT : List (MCEntry ℚ))) := rfl
  have a : ((14.1 : ℚ) ≤ s) = True := eq_true h1
  rw [hd]
  simp only [seLoop, seStep, a, h2, g44, g45, g54, g55, g4e, g5e, and_true, and_false, true_and, false_and, not_false_eq_true, not_true_eq_false, if_true, if_false, eq_self_iff_true]

/-- Interval evaluation: SINR in 4G interval 11. -/
lemma eval4G_11 (s : ℚ) (h1 : (16.3 : ℚ) ≤ s) (h2 : s < (18.7 : ℚ)) :
    estimate_spectral_efficiency s "4G" (MODULATION_AND_CODING_LUT : List (MCEntry ℚ)) =
      Except.ok (some (3.9023 : ℚ)) := by
  rw [estimate_spectral_efficiency, reach4G_11 s h1 (by linarith)]
  have hd : List.drop 11 (pairwise (MODULATION_AND_CODING_LUT : List (MCEntry ℚ))) =
      (⟨"4G", "1x1", 12, "64QAM", 666, 3.9023, 16.3⟩,
       ⟨"4G", "1x1", 13, "64QAM", 772, 4.5234, 18.7⟩) :: List.drop 12 (pairwise (MODULATION_AND_CODING_LUT : List (MCEntry ℚ))) := rfl
  have a : ((16.3 : ℚ) ≤ s) = True := eq_true h1
  rw [hd]
  simp only [seLoop, seStep, a, h2, g44, g45, g54, g55, g4e, g5e, and_true, and_false, true_and, false_and, not_false_eq_true, not_true_eq_false, if_true, if_false, eq_self_iff_true]

/-- Interval evaluation: SINR in 4G interval 12. -/
lemma eval4G_12 (s : ℚ) (h1 : (18.7 : ℚ) ≤ s) (h2 : s < (21 : ℚ)) :
    estimate_spectral_efficiency s "4G" (MODULATION_AND_CODING_LUT : List (MCEntry ℚ)) =
      Except.ok (some (4.5234 : ℚ)) := by
  rw [estimate_spectral_efficiency, reach4G_12 s h1 (by linarith)]
  have hd : List.drop 12 (pairwise (MODULATION_AND_CODING_LUT : List (MCEntry ℚ))) =
      (⟨"4G", "1x1", 13, "64QAM", 772, 4.5234, 18.7⟩,
       ⟨"4G", "1x1", 14, "64QAM", 873, 5.1152, 21⟩) :: List.drop 13 (pairwise (MODULATION_AND_CODING_LUT : List (MCEntry ℚ))) := rfl
  have a : ((18.7 : ℚ) ≤ s) = True := eq_true h1
  rw [hd]
  simp only [seLoop, seStep, a, h2, g44, g45, g54, g55, g4e, g5e, and_true, and_false, true_and, false_and, not_false_eq_true, not_true_eq_false, if_true, if_false, eq_self_iff_true]

/-- Interval evaluation: SINR in 4G interval 13. -/
lemma eval4G_13 (s : ℚ) (h1 : (21 : ℚ) ≤ s) (h2 : s < (22.7 : ℚ)) :
    estimate_spectral_efficiency s "4G" (MODULATION_AND_CODING_LUT : List (MCEntry ℚ)) =
      Except.ok (some (5.1152 : ℚ)) := by
  rw [estimate_spectral_efficiency, reach4G_13 s h1 (by linarith)]
  have hd : List.drop 13 (pairwise (MODULATION_AND_CODING_LUT : List (MCEntry ℚ))) =
      (⟨"4G", "1x1", 14, "64QAM", 873, 5.1152, 21⟩,
       ⟨"4G", "1x1", 15, "64QAM", 948, 5.5547, 22.7⟩) :: List.drop 14 (pairwise (MODULATION_AND_CODING_LUT : List (MCEntry ℚ))) := rfl
  have a : ((21 : ℚ) ≤ s) = True := eq_true h1
  rw [hd]
  simp only [seLoop, seStep, a, h2, g44, g45, g54, g55, g4e, g5e, and_true, and_false, true_and, false_and, not_false_eq_true, not_true_eq_false, if_true, if_false, eq_self_iff_true]

/-- 4G floor: SINR below the whole 4G block. -/
lemma eval4G_floor (s : ℚ) (h : s < (-6.7 : ℚ)) :
    estimate_spectral_efficiency s "4G" (MODULATION_AND_CODING_LUT : List (MCEntry ℚ)) =
      Except.ok (some (0 : ℚ)) := by
  have hd : pairwise (MODULATION_AND_CODING_LUT : List (MCEntry ℚ)) =
      (⟨"4G", "1x1", 1, "QPSK", 78, 0.1523, -6.7⟩,
       ⟨"4G", "1x1", 2, "QPSK", 120, 0.2344, -4.7⟩) :: List.drop 1 (pairwise (MODULATION_AND_CODING_LUT : List (MCEntry ℚ))) := rfl
  have ht := tail4G_floor s h
  have a : ((-6.7 : ℚ) ≤ s) = False := eq_false (by linarith)
  rw [estimate_spectral_efficiency, hd]
  simp only [seLoop, seStep, ht, a, g44, g45, g54, g55, g4e, g5e, and_true, and_false, true_and, false_and, not_false_eq_true, not_true_eq_false, if_true, if_false, eq_self_iff_true]

/-- 4G saturation: SINR at or above the maximum 4G threshold. -/
lemma eval4G_sat (s : ℚ) (h : (22.7 : ℚ) ≤ s) :
    estimate_spectral_efficiency s "4G" (MODULATION_AND_CODING_LUT : List (MCEntry ℚ)) =
      Except.ok (some (5.5547 : ℚ)) := by
  have hd : pairwise (MODULATION_AND_CODING_LUT : List (MCEntry ℚ)) =
      (⟨"4G", "1x1", 1, "QPSK", 78, 0.1523, -6.7⟩,
       ⟨"4G", "1x1", 2, "QPSK", 120, 0.2344, -4.7⟩) :: List.drop 1 (pairwise (MODULATION_AND_CODING_LUT : List (MCEntry ℚ))) := rfl
  have ht := tail4G_sat s h
  have a : ((-6.7 : ℚ) ≤ s) = True := eq_true (by linarith)
  have b : (s < (-4.7 : ℚ)) = False := eq_false (by linarith)
  rw [estimate_spectral_efficiency, hd]
  simp only [seLoop, seStep, ht, a, b, g44, g45, g54, g55, g4e, g5e, and_true, and_false, true_and, false_and, not_false_eq_true, not_true_eq_false, if_true, if_false, eq_self_iff_true]

/-- For generation 5G the first fourteen pairs (inside the 4G block) are skipped by the generation guard. -/
lemma skip5G (s : ℚ) :
    seLoop s "5G" (MODULATION_AND_CODING_LUT : List (MCEntry ℚ)) (pairwise (MODULATION_AND_CODING_LUT : List (MCEntry ℚ))) =
      seLoop s "5G" (MODULATION_AND_CODING_LUT : List (MCEntry ℚ)) (List.drop 14 (pairwise (MODULATION_AND_CODING_LUT : List (MCEntry ℚ)))) := by
  have hd : pairwise (MODULATION_AND_CODING_LUT : List (MCEntry ℚ)) =
      (⟨"4G", "1x1", 1, "QPSK", 78, 0.1523, -6.7⟩,
       ⟨"4G", "1x1", 2, "QPSK", 120, 0.2344, -4.7⟩) ::
      (⟨"4G", "1x1", 2, "QPSK", 120, 0.2344, -4.7⟩,
       ⟨"4G", "1x1", 3, "QPSK", 193, 0.377, -2.3⟩) ::
      (⟨"4G", "1x1", 3, "QPSK", 193, 0.377, -2.3⟩,
       ⟨"4G", "1x1", 4, "QPSK", 308, 0.6016, 0.2⟩) ::
      (⟨"4G", "1x1", 4, "QPSK", 308, 0.6016, 0.2⟩,
       ⟨"4G", "1x1", 5, "QPSK", 449, 0.877, 2.4⟩) ::
      (⟨"4G", "1x1", 5, "QPSK", 449, 0.877, 2.4⟩,
       ⟨"4G", "1x1", 6, "QPSK", 602, 1.1758, 4.3⟩) ::
      (⟨"4G", "1x1", 6, "QPSK", 602, 1.1758, 4.3⟩,
       ⟨"4G", "1x1", 7, "16QAM", 378, 1.4766, 5.9⟩) ::
      (⟨"4G", "1x1", 7, "16QAM", 378, 1.4766, 5.9⟩,
       ⟨"4G", "1x1", 8, "16QAM", 490, 1.9141, 8.1⟩) ::
      (⟨"4G", "1x1", 8, "16QAM", 490, 1.9141, 8.1⟩,
       ⟨"4G", "1x1", 9, "16QAM", 616, 2.4063, 10.3⟩) ::
      (⟨"4G", "1x1", 9, "16QAM", 616, 2.4063, 10.3⟩,
       ⟨"4G", "1x1", 10, "64QAM", 466, 2.7305, 11.7⟩) ::
      (⟨"4G", "1x1", 10, "64QAM", 466, 2.7305, 11.7⟩,
       ⟨"4G", "1x1", 11, "64QAM", 567, 3.3223, 14.1⟩) ::
      (⟨"4G", "1x1", 11, "64QAM", 567, 3.3223, 14.1⟩,
       ⟨"4G", "1x1", 12, "64QAM", 666, 3.9023, 16.3⟩) ::
      (⟨"4G", "1x1", 12, "64QAM", 666, 3.9023, 16.3⟩,
       ⟨"4G", "1x1", 13, "64QAM", 772, 4.5234, 18.7⟩) ::
      (⟨"4G", "1x1", 13, "64QAM", 772, 4.5234, 18.7⟩,
       ⟨"4G", "1x1", 14, "64QAM", 873, 5.1152, 21⟩) ::
      (⟨"4G", "1x1", 14, "64QAM", 873, 5.1152, 21⟩,
       ⟨"4G", "1x1", 15, "64QAM", 948, 5.5547, 22.7⟩) ::
      List.drop 14 (pairwise (MODULATION_AND_CODING_LUT : List (MCEntry ℚ))) := rfl
  rw [hd]
  simp only [seLoop, seStep, g44, g45, g54, g55, g4e, g5e, and_true, and_false, true_and, false_and, not_false_eq_true, not_true_eq_false, if_true, if_false, eq_self_iff_true]

/-- Scanning lemma: inside the table range, pair fourteen (the 4G/5G boundary pair) falls through. -/
lemma reach5G_0 (s : ℚ) (h1 : (-6.7 : ℚ) ≤ s) (h2 : s < (22.7 : ℚ)) :
    seLoop s "5G" (MODULATION_AND_CODING_LUT : List (MCEntry ℚ)) (pairwise (MODULATION_AND_CODING_LUT : List (MCEntry ℚ))) =
      seLoop s "5G" (MODULATION_AND_CODING_LUT : List (MCEntry ℚ)) (List.drop 15 (pairwise (MODULATION_AND_CODING_LUT : List (MCEntry ℚ)))) := by
  rw [skip5G s]
  have hd : List.drop 14 (pairwise (MODULATION_AND_CODING_LUT : List (MCEntry ℚ))) =
      (⟨"4G", "1x1", 15, "64QAM", 948, 5.5547, 22.7⟩,
       ⟨"5G", "8x8", 1, "QPSK", 78, 0.30, -6.7⟩) :: List.drop 15 (pairwise (MODULATION_AND_CODING_LUT : List (MCEntry ℚ))) := rfl
  have ht : seTail s "5G" (MODULATION_AND_CODING_LUT : List (MCEntry ℚ)) = Option.none := tail5G_none s h1 h2
  have b : ((22.7 : ℚ) ≤ s) = False := eq_false (by linarith)
  rw [hd]
  simp only [seLoop, seStep, ht, b, g44, g45, g54, g55, g4e, g5e, and_true, and_false, true_and, false_and, not_false_eq_true, not_true_eq_false, if_true, if_false, eq_self_iff_true]

/-- Scanning lemma: with the SINR at or past 5G threshold index 1, the first 1 pairs of the 5G block fall through. -/
lemma reach5G_1 (s : ℚ) (h1 : (-4.7 : ℚ) ≤ s) (h2 : s < (22.7 : ℚ)) :
    seLoop s "5G" (MODULATION_AND_CODING_LUT : List (MCEntry ℚ)) (pairwise (MODULATION_AND_CODING_LUT : List (MCEntry ℚ))) =
      seLoop s "5G" (MODULATION_AND_CODING_LUT : List (MCEntry ℚ)) (List.drop 16 (pairwise (MODULATION_AND_CODING_LUT : List (MCEntry ℚ)))) := by
  rw [reach5G_0 s (by linarith) h2]
  have hd : List.drop 15 (pairwise (MODULATION_AND_CODING_LUT : List (MCEntry ℚ))) =
      (⟨"5G", "8x8", 1, "QPSK", 78, 0.30, -6.7⟩,
       ⟨"5G", "8x8", 2, "QPSK", 193, 2.05, -4.7⟩) :: List.drop 16 (pairwise (MODULATION_AND_CODING_LUT : List (MCEntry ℚ))) := rfl
  have ht : seTail s "5G" (MODULATION_AND_CODING_LUT : List (MCEntry ℚ)) = Option.none := tail5G_none s (by linarith) h2
  have a : ((-6.7 : ℚ) ≤ s) = True := eq_true (by linarith)
  have b : (s < (-4.7 : ℚ)) = False := eq_false (by linarith)
  rw [hd]
  simp only [seLoop, seStep, ht, a, b, g44, g45, g54, g55, g4e, g5e, and_true, and_false, true_and, false_and, not_false_eq_true, not_true_eq_false, if_true, if_false, eq_self_iff_true]

/-- Scanning lemma: with the SINR at or past 5G threshold index 2, the first 2 pairs of the 5G block fall through. -/
lemma reach5G_2 (s : ℚ) (h1 : (-2.3 : ℚ) ≤ s) (h2 : s < (22.7 : ℚ)) :
    seLoop s "5G" (MODULATION_AND_CODING_LUT : List (MCEntry ℚ)) (pairwise (MODULATION_AND_CODING_LUT : List (MCEntry ℚ))) =
      seLoop s "5G" (MODULATION_AND_CODING_LUT : List (MCEntry ℚ)) (List.drop 17 (pairwise (MODULATION_AND_CODING_LUT : List (MCEntry ℚ)))) := by
  rw [reach5G_1 s (by linarith) h2]
  have hd : List.drop 16 (pairwise (MODULATION_AND_CODING_LUT : List (MCEntry ℚ))) =
      (⟨"5G", "8x8", 2, "QPSK", 193, 2.05, -4.7⟩,
       ⟨"5G", "8x8", 3, "QPSK", 449, 4.42, -2.3⟩) :: List.drop 17 (pairwise (MODULATION_AND_CODING_LUT : List (MCEntry ℚ))) := rfl
  have ht : seTail s "5G" (MODULATION_AND_CODING_LUT : List (MCEntry ℚ)) = Option.none := tail5G_none s (by linarith) h2
  have a : ((-4.7 : ℚ) ≤ s) = True := eq_true (by linarith)
  have b : (s < (-2.3 : ℚ)) = False := eq_false (by linarith)
  rw [hd]
  simp only [seLoop, seStep, ht, a, b, g44, g45, g54, g55, g4e, g5e, and_true, and_false, true_and, false_and, not_false_eq_true, not_true_eq_false, if_true, if_false, eq_self_iff_true]

/-- Scanning lemma: with the SINR at or past 5G threshold index 3, the first 3 pairs of the 5G block fall through. -/
lemma reach5G_3 (s : ℚ) (h1 : (0.2 : ℚ) ≤ s) (h2 : s < (22.7 : ℚ)) :
    seLoop s "5G" (MODULATION_AND_CODING_LUT : List (MCEntry ℚ)) (pairwise (MODULATION_AND_CODING_LUT : List (MCEntry ℚ))) =
      seLoop s "5G" (MODULATION_AND_CODING_LUT : List (MCEntry ℚ)) (List.drop 18 (pairwise (MODULATION_AND_CODING_LUT : List (MCEntry ℚ)))) := by
  rw [reach5G_2 s (by linarith) h2]
  have hd : List.drop 17 (pairwise (MODULATION_AND_CODING_LUT : List (MCEntry ℚ))) =
      (⟨"5G", "8x8", 3, "QPSK", 449, 4.42, -2.3⟩,
       ⟨"5G", "8x8", 4, "16QAM", 378, 6.40, 0.2⟩) :: List.drop 18 (pairwise (MODULATION_AND_CODING_LUT : List (MCEntry ℚ))) := rfl
  have ht : seTail s "5G" (MODULATION_AND_CODING_LUT : List (MCEntry ℚ)) = Option.none := tail5G_none s (by linarith) h2
  have a : ((-2.3 : ℚ) ≤ s) = True := eq_true (by linarith)
  have b : (s < (0.2 : ℚ)) = False := eq_false (by linarith)
  rw [hd]
  simp only [seLoop, seStep, ht, a, b, g44, g45, g54, g55, g4e, g5e, and_true, and_false, true_and, false_and, not_false_eq_true, not_true_eq_false, if_true, if_false, eq_self_iff_true]

/-- Scanning lemma: with the SINR at or past 5G threshold index 4, the first 4 pairs of the 5G block fall through. -/
lemma reach5G_4 (s : ℚ) (h1 : (2.4 : ℚ) ≤ s) (h2 : s < (22.7 : ℚ)) :
    seLoop s "5G" (MODULATION_AND_CODING_LUT : List (MCEntry ℚ)) (pairwise (MODULATION_AND_CODING_LUT : List (MCEntry ℚ))) =
      seLoop s "5G" (MODULATION_AND_CODING_LUT : List (MCEntry ℚ)) (List.drop 19 (pairwise (MODULATION_AND_CODING_LUT : List (MCEntry ℚ)))) := by
  rw [reach5G_3 s (by linarith) h2]
  have hd : List.drop 18 (pairwise (MODULATION_AND_CODING_LUT : List (MCEntry ℚ))) =
      (⟨"5G", "8x8", 4, "16QAM", 378, 6.40, 0.2⟩,
       ⟨"5G", "8x8", 5, "16QAM", 490, 8.00, 2.4⟩) :: List.drop 19 (pairwise (MODULATION_AND_CODING_LUT : List (MCEntry ℚ))) := rfl
  have ht : seTail s "5G" (MODULATION_AND_CODING_LUT : List (MCEntry ℚ)) = Option.none := tail5G_none s (by linarith) h2
  have a : ((0.2 : ℚ) ≤ s) = True := eq_true (by linarith)
  have b : (s < (2.4 : ℚ)) = False := eq_false (by linarith)
  rw [hd]
  simp only [seLoop, seStep, ht, a, b, g44, g45, g54, g55, g4e, g5e, and_true, and_false, true_and, false_and, not_false_eq_true, not_true_eq_false, if_true, if_false, eq_self_iff_true]

/-- Scanning lemma: with the SINR at or past 5G threshold index 5, the first 5 pairs of the 5G block fall through. -/
lemma reach5G_5 (s : ℚ) (h1 : (4.3 : ℚ) ≤ s) (h2 : s < (22.7 : ℚ)) :
    seLoop s "5G" (MODULATION_AND_CODING_LUT : List (MCEntry ℚ)) (pairwise (MODULATION_AND_CODING_LUT : List (MCEntry ℚ))) =
      seLoop s "5G" (MODULATION_AND_CODING_LUT : List (MCEntry ℚ)) (List.drop 20 (pairwise (MODULATION_AND_CODING_LUT : List (MCEntry ℚ)))) := by
  rw [reach5G_4 s (by linarith) h2]
  have hd : List.drop 19 (pairwise (MODULATION_AND_CODING_LUT : List (MCEntry ℚ))) =
      (⟨"5G", "8x8", 5, "16QAM", 490, 8.00, 2.4⟩,
       ⟨"5G", "8x8", 6, "16QAM", 616, 10.82, 4.3⟩) :: List.drop 20 (pairwise (MODULATION_AND_CODING_LUT : List (MCEntry ℚ))) := rfl
  have ht : seTail s "5G" (MODULATION_AND_CODING_LUT : List (MCEntry ℚ)) = Option.none := tail5G_none s (by linarith) h2
  have a : ((2.4 : ℚ) ≤ s) = True := eq_true (by linarith)
  have b : (s < (4.3 : ℚ)) = False := eq_false (by linarith)
  rw [hd]
  simp only [seLoop, seStep, ht, a, b, g44, g45, g54, g55, g4e, g5e, and_true, and_false, true_and, false_and, not_false_eq_true, not_true_eq_false, if_true, if_false, eq_self_iff_true]

/-- Scanning lemma: with the SINR at or past 5G threshold index 6, the first 6 pairs of the 5G block fall through. -/
lemma reach5G_6 (s : ℚ) (h1 : (5.9 : ℚ) ≤ s) (h2 : s < (22.7 : ℚ)) :
    seLoop s "5G" (MODULATION_AND_CODING_LUT : List (MCEntry ℚ)) (pairwise (MODULATION_AND_CODING_LUT : List (MCEntry ℚ))) =
      seLoop s "5G" (MODULATION_AND_CODING_LUT : List (MCEntry ℚ)) (List.drop 21 (pairwise (MODULATION_AND_CODING_LUT : List (MCEntry ℚ)))) := by
  rw [reach5G_5 s (by linarith) h2]
  have hd : List.drop 20 (pairwise (MODULATION_AND_CODING_LUT : List (MCEntry ℚ))) =
      (⟨"5G", "8x8", 6, "16QAM", 616, 10.82, 4.3⟩,
       ⟨"5G", "8x8", 7, "64QAM", 466, 12.40, 5.9⟩) :: List.drop 21 (pairwise (MODULATION_AND_CODING_LUT : List (MCEntry ℚ))) := rfl
  have ht : seTail s "5G" (MODULATION_AND_CODING_LUT : List (MCEntry ℚ)) = Option.none := tail5G_none s (by linarith) h2
  have a : ((4.3 : ℚ) ≤ s) = True := eq_true (by linarith)
  have b : (s < (5.9 : ℚ)) = False := eq_false (by linarith)
  rw [hd]
  simp only [seLoop, seStep, ht, a, b, g44, g45, g54, g55, g4e, g5e, and_true, and_false, true_and, false_and, not_false_eq_true, not_true_eq_false, if_true, if_false, eq_self_iff_true]

/-- Scanning lemma: with the SINR at or past 5G threshold index 7, the first 7 pairs of the 5G block fall through. -/
lemma reach5G_7 (s : ℚ) (h1 : (8.1 : ℚ) ≤ s) (h2 : s < (22.7 : ℚ)) :
    seLoop s "5G" (MODULATION_AND_CODING_LUT : List (MCEntry ℚ)) (pairwise (MODULATION_AND_CODING_LUT : List (MCEntry ℚ))) =
      seLoop s "5G" (MODULATION_AND_CODING_LUT : List (MCEntry ℚ)) (List.drop 22 (pairwise (MODULATION_AND_CODING_LUT : List (MCEntry ℚ)))) := by
  rw [reach5G_6 s (by linarith) h2]
  have hd : List.drop 21 (pairwise (MODULATION_AND_CODING_LUT : List (MCEntry ℚ))) =
      (⟨"5G", "8x8", 7, "64QAM", 466, 12.40, 5.9⟩,
       ⟨"5G", "8x8", 8, "64QAM", 567, 16.00, 8.1⟩) :: List.drop 22 (pairwise (MODULATION_AND_CODING_LUT : List (MCEntry ℚ))) := rfl
  have ht : seTail s "5G" (MODULATION_AND_CODING_LUT : List (MCEntry ℚ)) = Option.none := tail5G_none s (by linarith) h2
  have a : ((5.9 : ℚ) ≤ s) = True := eq_true (by linarith)
  have b : (s < (8.1 : ℚ)) = False := eq_false (by linarith)
  rw [hd]
  simp only [seLoop, seStep, ht, a, b, g44, g45, g54, g55, g4e, g5e, and_true, and_false, true_and, false_and, not_false_eq_true, not_true_eq_false, if_true, if_false, eq_self_iff_true]

/-- Scanning lemma: with the SINR at or past 5G threshold index 8, the first 8 pairs of the 5G block fall through. -/
lemma reach5G_8 (s : ℚ) (h1 : (10.3 : ℚ) ≤ s) (h2 : s < (22.7 : ℚ)) :
    seLoop s "5G" (MODULATION_AND_CODING_LUT : List (MCEntry ℚ)) (pairwise (MODULATION_AND_CODING_LUT : List (MCEntry ℚ))) =
      seLoop s "5G" (MODULATION_AND_CODING_LUT : List (MCEntry ℚ)) (List.drop 23 (pairwise (MODULATION_AND_CODING_LUT : List (MCEntry ℚ)))) := by
  rw [reach5G_7 s (by linarith) h2]
  have hd : List.drop 22 (pairwise (MODULATION_AND_CODING_LUT : List (MCEntry ℚ))) =
      (⟨"5G", "8x8", 8, "64QAM", 567, 16.00, 8.1⟩,
       ⟨"5G", "8x8", 9, "64QAM", 666, 19.00, 10.3⟩) :: List.drop 23 (pairwise (MODULATION_AND_CODING_LUT : List (MCEntry ℚ))) := rfl
  have ht : seTail s "5G" (MODULATION_AND_CODING_LUT : List (MCEntry ℚ)) = Option.none := tail5G_none s (by linarith) h2
  have a : ((8.1 : ℚ) ≤ s) = True := eq_true (by linarith)
  have b : (s < (10.3 : ℚ)) = False := eq_false (by linarith)
  rw [hd]
  simp only [seLoop, seStep, ht, a, b, g44, g45, g54, g55, g4e, g5e, and_true, and_false, true_and, false_and, not_false_eq_true, not_true_eq_false, if_true, if_false, eq_self_iff_true]

/-- Scanning lemma: with the SINR at or past 5G threshold index 9, the first 9 pairs of the 5G block fall through. -/
lemma reach5G_9 (s : ℚ) (h1 : (11.7 : ℚ) ≤ s) (h2 : s < (22.7 : ℚ)) :
    seLoop s "5G" (MODULATION_AND_CODING_LUT : List (MCEntry ℚ)) (pairwise (MODULATION_AND_CODING_LUT : List (MCEntry ℚ))) =
      seLoop s "5G" (MODULATION_AND_CODING_LUT : List (MCEntry ℚ)) (List.drop 24 (pairwise (MODULATION_AND_CODING_LUT : List (MCEntry ℚ)))) := by
  rw [reach5G_8 s (by linarith) h2]
  have hd : List.drop 23 (pairwise (MODULATION_AND_CODING_LUT : List (MCEntry ℚ))) =
      (⟨"5G", "8x8", 9, "64QAM", 666, 19.00, 10.3⟩,
       ⟨"5G", "8x8", 10, "64QAM", 772, 22.00, 11.7⟩) :: List.drop 24 (pairwise (MODULATION_AND_CODING_LUT : List (MCEntry ℚ))) := rfl
  have ht : seTail s "5G" (MODULATION_AND_CODING_LUT : List (MCEntry ℚ)) = Option.none := tail5G_none s (by linarith) h2
  have a : ((10.3 : ℚ) ≤ s) = True := eq_true (by linarith)
  have b : (s < (11.7 : ℚ)) = False := eq_false (by linarith)
  rw [hd]
  simp only [seLoop, seStep, ht, a, b, g44, g45, g54, g55, g4e, g5e, and_true, and_false, true_and, false_and, not_false_eq_true, not_true_eq_false, if_true, if_false, eq_self_iff_true]

/-- Scanning lemma: with the SINR at or past 5G threshold index 10, the first 10 pairs of the 5G block fall through. -/
lemma reach5G_10 (s : ℚ) (h1 : (14.1 : ℚ) ≤ s) (h2 : s < (22.7 : ℚ)) :
    seLoop s "5G" (MODULATION_AND_CODING_LUT : List (MCEntry ℚ)) (pairwise (MODULATION_AND_CODING_LUT : List (MCEntry ℚ))) =
      seLoop s "5G" (MODULATION_AND_CODING_LUT : List (MCEntry ℚ)) (List.drop 25 (pairwise (MODULATION_AND_CODING_LUT : List (MCEntry ℚ)))) := by
  rw [reach5G_9 s (by linarith) h2]
  have hd : List.drop 24 (pairwise (MODULATION_AND_CODING_LUT : List (MCEntry ℚ))) =
      (⟨"5G", "8x8", 10, "64QAM", 772, 22.00, 11.7⟩,
       ⟨"5G", "8x8", 11, "64QAM", 873, 28.00, 14.1⟩) :: List.drop 25 (pairwise (MODULATION_AND_CODING_LUT : List (MCEntry ℚ))) := rfl
  have ht : seTail s "5G" (MODULATION_AND_CODING_LUT : List (MCEntry ℚ)) = Option.none := tail5G_none s (by linarith) h2
  have a : ((11.7 : ℚ) ≤ s) = True := eq_true (by linarith)
  have b : (s < (14.1 : ℚ)) = False := eq_false (by linarith)
  rw [hd]
  simp only [seLoop, seStep, ht, a, b, g44, g45, g54, g55, g4e, g5e, and_true, and_false, true_and, false_and, not_false_eq_true, not_true_eq_false, if_true, if_false, eq_self_iff_true]

/-- Scanning lemma: with the SINR at or past 5G threshold index 11, the first 11 pairs of the 5G block fall through. -/
lemma reach5G_11 (s : ℚ) (h1 : (16.3 : ℚ) ≤ s) (h2 : s < (22.7 : ℚ)) :
    seLoop s "5G" (MODULATION_AND_CODING_LUT : List (MCEntry ℚ)) (pairwise (MODULATION_AND_CODING_LUT : List (MCEntry ℚ))) =
      seLoop s "5G" (MODULATION_AND_CODING_LUT : List (MCEntry ℚ)) (List.drop 26 (pairwise (MODULATION_AND_CODING_LUT : List (MCEntry ℚ)))) := by
  rw [reach5G_10 s (by linarith) h2]
  have hd : List.drop 25 (pairwise (MODULATION_AND_CODING_LUT : List (MCEntry ℚ))) =
      (⟨"5G", "8x8", 11, "64QAM", 873, 28.00, 14.1⟩,
       ⟨"5G", "8x8", 12, "256QAM", 711, 32.00, 16.3⟩) :: List.drop 26 (pairwise (MODULATION_AND_CODING_LUT : List (MCEntry ℚ))) := rfl
  have ht : seTail s "5G" (MODULATION_AND_CODING_LUT : List (MCEntry ℚ)) = Option.none := tail5G_none s (by linarith) h2
  have a : ((14.1 : ℚ) ≤ s) = True := eq_true (by linarith)
  have b : (s < (16.3 : ℚ)) = False := eq_false (by linarith)
  rw [hd]
  simp only [seLoop, seStep, ht, a, b, g44, g45, g54, g55, g4e, g5e, and_true, and_false, true_and, false_and, not_false_eq_true, not_true_eq_false, if_true, if_false, eq_self_iff_true]

/-- Scanning lemma: with the SINR at or past 5G threshold index 12, the first 12 pairs of the 5G block fall through. -/
lemma reach5G_12 (s : ℚ) (h1 : (18.7 : ℚ) ≤ s) (h2 : s < (22.7 : ℚ)) :
    seLoop s "5G" (MODULATION_AND_CODING_LUT : List (MCEntry ℚ)) (pairwise (MODULATION_AND_CODING_LUT : List (MCEntry ℚ))) =
      seLoop s "5G" (MODULATION_AND_CODING_LUT : List (MCEntry ℚ)) (List.drop 27 (pairwise (MODULATION_AND_CODING_LUT : List (MCEntry ℚ)))) := by
  rw [reach5G_11 s (by linarith) h2]
  have hd : List.drop 26 (pairwise (MODULATION_AND_CODING_LUT : List (MCEntry ℚ))) =
      (⟨"5G", "8x8", 12, "256QAM", 711, 32.00, 16.3⟩,
       ⟨"5G", "8x8", 13, "256QAM", 797, 38.00, 18.7⟩) :: List.drop 27 (pairwise (MODULATION_AND_CODING_LUT : List (MCEntry ℚ))) := rfl
  have ht : seTail s "5G" (MODULATION_AND_CODING_LUT : List (MCEntry ℚ)) = Option.none := tail5G_none s (by linarith) h2
  have a : ((16.3 : ℚ) ≤ s) = True := eq_true (by linarith)
  have b : (s < (18.7 : ℚ)) = False := eq_false (by linarith)
  rw [hd]
  simp only [seLoop, seStep, ht, a, b, g44, g45, g54, g55, g4e, g5e, and_true, and_false, true_and, false_and, not_false_eq_true, not_true_eq_false, if_true, if_false, eq_self_iff_true]

/-- Scanning lemma: with the SINR at or past 5G threshold index 13, the first 13 pairs of the 5G block fall through. -/
lemma reach5G_13 (s : ℚ) (h1 : (21 : ℚ) ≤ s) (h2 : s < (22.7 : ℚ)) :
    seLoop s "5G" (MODULATION_AND_CODING_LUT : List (MCEntry ℚ)) (pairwise (MODULATION_AND_CODING_LUT : List (MCEntry ℚ))) =
      seLoop s "5G" (MODULATION_AND_CODING_LUT : List (MCEntry ℚ)) (List.drop 28 (pairwise (MODULATION_AND_CODING_LUT : List (MCEntry ℚ)))) := by
  rw [reach5G_12 s (by linarith) h2]
  have hd : List.drop 27 (pairwise (MODULATION_AND_CODING_LUT : List (MCEntry ℚ))) =
      (⟨"5G", "8x8", 13, "256QAM", 797, 38.00, 18.7⟩,
       ⟨"5G", "8x8", 14, "256QAM", 885, 44.00, 21⟩) :: List.drop 28 (pairwise (MODULATION_AND_CODING_LUT : List (MCEntry ℚ))) := rfl
  have ht : seTail s "5G" (MODULATION_AND_CODING_LUT : List (MCEntry ℚ)) = Option.none := tail5G_none s (by linarith) h2
  have a : ((18.7 : ℚ) ≤ s) = True := eq_true (by linarith)
  have b : (s < (21 : ℚ)) = False := eq_false (by linarith)
  rw [hd]
  simp only [seLoop, seStep, ht, a, b, g44, g45, g54, g55, g4e, g5e, and_true, and_false, true_and, false_and, not_false_eq_true, not_true_eq_false, if_true, if_false, eq_self_iff_true]

/-- Interval evaluation: SINR in 5G interval 0. -/
lemma eval5G_0 (s : ℚ) (h1 : (-6.7 : ℚ) ≤ s) (h2 : s < (-4.7 : ℚ)) :
    estimate_spectral_efficiency s "5G" (MODULATION_AND_CODING_LUT : List (MCEntry ℚ)) =
      Except.ok (some (0.30 : ℚ)) := by
  rw [estimate_spectral_efficiency, reach5G_0 s h1 (by linarith)]
  have hd : List.drop 15 (pairwise (MODULATION_AND_CODING_LUT : List (MCEntry ℚ))) =
      (⟨"5G", "8x8", 1, "QPSK", 78, 0.30, -6.7⟩,
       ⟨"5G", "8x8", 2, "QPSK", 193, 2.05, -4.7⟩) :: List.drop 16 (pairwise (MODULATION_AND_CODING_LUT : List (MCEntry ℚ))) := rfl
  have a : ((-6.7 : ℚ) ≤ s) = True := eq_true h1
  rw [hd]
  simp only [seLoop, seStep, a, h2, g44, g45, g54, g55, g4e, g5e, and_true, and_false, true_and, false_and, not_false_eq_true, not_true_eq_false, if_true, if_false, eq_self_iff_true]

/-- Interval evaluation: SINR in 5G interval 1. -/
lemma eval5G_1 (s : ℚ) (h1 : (-4.7 : ℚ) ≤ s) (h2 : s < (-2.3 : ℚ)) :
    estimate_spectral_efficiency s "5G" (MODULATION_AND_CODING_LUT : List (MCEntry ℚ)) =
      Except.ok (some (2.05 : ℚ)) := by
  rw [estimate_spectral_efficiency, reach5G_1 s h1 (by linarith)]
  have hd : List.drop 16 (pairwise (MODULATION_AND_CODING_LUT : List (MCEntry ℚ))) =
      (⟨"5G", "8x8", 2, "QPSK", 193, 2.05, -4.7⟩,
       ⟨"5G", "8x8", 3, "QPSK", 449, 4.42, -2.3⟩) :: List.drop 17 (pairwise (MODULATION_AND_CODING_LUT : List (MCEntry ℚ))) := rfl
  have a : ((-4.7 : ℚ) ≤ s) = True := eq_true h1
  rw [hd]
  simp only [seLoop, seStep, a, h2, g44, g45, g54, g55, g4e, g5e, and_true, and_false, true_and, false_and, not_false_eq_true, not_true_eq_false, if_true, if_false, eq_self_iff_true]

/-- Interval evaluation: SINR in 5G interval 2. -/
lemma eval5G_2 (s : ℚ) (h1 : (-2.3 : ℚ) ≤ s) (h2 : s < (0.2 : ℚ)) :
    estimate_spectral_efficiency s "5G" (MODULATION_AND_CODING_LUT : List (MCEntry ℚ)) =
      Except.ok (some (4.42 : ℚ)) := by
  rw [estimate_spectral_efficiency, reach5G_2 s h1 (by linarith)]
  have hd : List.drop 17 (pairwise (MODULATION_AND_CODING_LUT : List (MCEntry ℚ))) =
      (⟨"5G", "8x8", 3, "QPSK", 449, 4.42, -2.3⟩,
       ⟨"5G", "8x8", 4, "16QAM", 378, 6.40, 0.2⟩) :: List.drop 18 (pairwise (MODULATION_AND_CODING_LUT : List (MCEntry ℚ))) := rfl
  have a : ((-2.3 : ℚ) ≤ s) = True := eq_true h1
  rw [hd]
  simp only [seLoop, seStep, a, h2, g44, g45, g54, g55, g4e, g5e, and_true, and_false, true_and, false_and, not_false_eq_true, not_true_eq_false, if_true, if_false, eq_self_iff_true]

/-- Interval evaluation: SINR in 5G interval 3. -/
lemma eval5G_3 (s : ℚ) (h1 : (0.2 : ℚ) ≤ s) (h2 : s < (2.4 : ℚ)) :
    estimate_spectral_efficiency s "5G" (MODULATION_AND_CODING_LUT : List (MCEntry ℚ)) =
      Except.ok (some (6.40 : ℚ)) := by
  rw [estimate_spectral_efficiency, reach5G_3 s h1 (by linarith)]
  have hd : List.drop 18 (pairwise (MODULATION_AND_CODING_LUT : List (MCEntry ℚ))) =
      (⟨"5G", "8x8", 4, "16QAM", 378, 6.40, 0.2⟩,
       ⟨"5G", "8x8", 5, "16QAM", 490, 8.00, 2.4⟩) :: List.drop 19 (pairwise (MODULATION_AND_CODING_LUT : List (MCEntry ℚ))) := rfl
  have a : ((0.2 : ℚ) ≤ s) = True := eq_true h1
  rw [hd]
  simp only [seLoop, seStep, a, h2, g44, g45, g54, g55, g4e, g5e, and_true, and_false, true_and, false_and, not_false_eq_true, not_true_eq_false, if_true, if_false, eq_self_iff_true]

/-- Interval evaluation: SINR in 5G interval 4. -/
lemma eval5G_4 (s : ℚ) (h1 : (2.4 : ℚ) ≤ s) (h2 : s < (4.3 : ℚ)) :
    estimate_spectral_efficiency s "5G" (MODULATION_AND_CODING_LUT : List (MCEntry ℚ)) =
      Except.ok (some (8.00 : ℚ)) := by
  rw [estimate_spectral_efficiency, reach5G_4 s h1 (by linarith)]
  have hd : List.drop 19 (pairwise (MODULATION_AND_CODING_LUT : List (MCEntry ℚ))) =
      (⟨"5G", "8x8", 5, "16QAM", 490, 8.00, 2.4⟩,
       ⟨"5G", "8x8", 6, "16QAM", 616, 10.82, 4.3⟩) :: List.drop 20 (pairwise (MODULATION_AND_CODING_LUT : List (MCEntry ℚ))) := rfl
  have a : ((2.4 : ℚ) ≤ s) = True := eq_true h1
  rw [hd]
  simp only [seLoop, seStep, a, h2, g44, g45, g54, g55, g4e, g5e, and_true, and_false, true_and, false_and, not_false_eq_true, not_true_eq_false, if_true, if_false, eq_self_iff_true]

/-- Interval evaluation: SINR in 5G interval 5. -/
lemma eval5G_5 (s : ℚ) (h1 : (4.3 : ℚ) ≤ s) (h2 : s < (5.9 : ℚ)) :
    estimate_spectral_efficiency s "5G" (MODULATION_AND_CODING_LUT : List (MCEntry ℚ)) =
      Except.ok (some (10.82 : ℚ)) := by
  rw [estimate_spectral_efficiency, reach5G_5 s h1 (by linarith)]
  have hd : List.drop 20 (pairwise (MODULATION_AND_CODING_LUT : List (MCEntry ℚ))) =
      (⟨"5G", "8x8", 6, "16QAM", 616, 10.82, 4.3⟩,
       ⟨"5G", "8x8", 7, "64QAM", 466, 12.40, 5.9⟩) :: List.drop 21 (pairwise (MODULATION_AND_CODING_LUT : List (MCEntry ℚ))) := rfl
  have a : ((4.3 : ℚ) ≤ s) = True := eq_true h1
  rw [hd]
  simp only [seLoop, seStep, a, h2, g44, g45, g54, g55, g4e, g5e, and_true, and_false, true_and, false_and, not_false_eq_true, not_true_eq_false, if_true, if_false, eq_self_iff_true]

/-- Interval evaluation: SINR in 5G interval 6. -/
lemma eval5G_6 (s : ℚ) (h1 : (5.9 : ℚ) ≤ s) (h2 : s < (8.1 : ℚ)) :
    estimate_spectral_efficiency s "5G" (MODULATION_AND_CODING_LUT : List (MCEntry ℚ)) =
      Except.ok (some (12.40 : ℚ)) := by
  rw [estimate_spectral_efficiency, reach5G_6 s h1 (by linarith)]
  have hd : List.drop 21 (pairwise (MODULATION_AND_CODING_LUT : List (MCEntry ℚ))) =
      (⟨"5G", "8x8", 7, "64QAM", 466, 12.40, 5.9⟩,
       ⟨"5G", "8x8", 8, "64QAM", 567, 16.00, 8.1⟩) :: List.drop 22 (pairwise (MODULATION_AND_CODING_LUT : List (MCEntry ℚ))) := rfl
  have a : ((5.9 : ℚ) ≤ s) = True := eq_true h1
  rw [hd]
  simp only [seLoop, seStep, a, h2, g44, g45, g54, g55, g4e, g5e, and_true, and_false, true_and, false_and, not_false_eq_true, not_true_eq_false, if_true, if_false, eq_self_iff_true]

/-- Interval evaluation: SINR in 5G interval 7. -/
lemma eval5G_7 (s : ℚ) (h1 : (8.1 : ℚ) ≤ s) (h2 : s < (10.3 : ℚ)) :
    estimate_spectral_efficiency s "5G" (MODULATION_AND_CODING_LUT : List (MCEntry ℚ)) =
      Except.ok (some (16.00 : ℚ)) := by
  rw [estimate_spectral_efficiency, reach5G_7 s h1 (by linarith)]
  have hd : List.drop 22 (pairwise (MODULATION_AND_CODING_LUT : List (MCEntry ℚ))) =
      (⟨"5G", "8x8", 8, "64QAM", 567, 16.00, 8.1⟩,
       ⟨"5G", "8x8", 9, "64QAM", 666, 19.00, 10.3⟩) :: List.drop 23 (pairwise (MODULATION_AND_CODING_LUT : List (MCEntry ℚ))) := rfl
  have a : ((8.1 : ℚ) ≤ s) = True := eq_true h1
  rw [hd]
  simp only [seLoop, seStep, a, h2, g44, g45, g54, g55, g4e, g5e, and_true, and_false, true_and, false_and, not_false_eq_true, not_true_eq_false, if_true, if_false, eq_self_iff_true]

/-- Interval evaluation: SINR in 5G interval 8. -/
lemma eval5G_8 (s : ℚ) (h1 : (10.3 : ℚ) ≤ s) (h2 : s < (11.7 : ℚ)) :
    estimate_spectral_efficiency s "5G" (MODULATION_AND_CODING_LUT : List (MCEntry ℚ)) =
      Except.ok (some (19.00 : ℚ)) := by
  rw [estimate_spectral_efficiency, reach5G_8 s h1 (by linarith)]
  have hd : List.drop 23 (pairwise (MODULATION_AND_CODING_LUT : List (MCEntry ℚ))) =
      (⟨"5G", "8x8", 9, "64QAM", 666, 19.00, 10.3⟩,
       ⟨"5G", "8x8", 10, "64QAM", 772, 22.00, 11.7⟩) :: List.drop 24 (pairwise (MODULATION_AND_CODING_LUT : List (MCEntry ℚ))) := rfl
  have a : ((10.3 : ℚ) ≤ s) = True := eq_true h1
  rw [hd]
  simp only [seLoop, seStep, a, h2, g44, g45, g54, g55, g4e, g5e, and_true, and_false, true_and, false_and, not_false_eq_true, not_true_eq_false, if_true, if_false, eq_self_iff_true]

/-- Interval evaluation: SINR in 5G interval 9. -/
lemma eval5G_9 (s : ℚ) (h1 : (11.7 : ℚ) ≤ s) (h2 : s < (14.1 : ℚ)) :
    estimate_spectral_efficiency s "5G" (MODULATION_AND_CODING_LUT : List (MCEntry ℚ)) =
      Except.ok (some (22.00 : ℚ)) := by
  rw [estimate_spectral_efficiency, reach5G_9 s h1 (by linarith)]
  have hd : List.drop 24 (pairwise (MODULATION_AND_CODING_LUT : List (MCEntry ℚ))) =
      (⟨"5G", "8x8", 10, "64QAM", 772, 22.00, 11.7⟩,
       ⟨"5G", "8x8", 11, "64QAM", 873, 28.00, 14.1⟩) :: List.drop 25 (pairwise (MODULATION_AND_CODING_LUT : List (MCEntry ℚ))) := rfl
  have a : ((11.7 : ℚ) ≤ s) = True := eq_true h1
  rw [hd]
  simp only [seLoop, seStep, a, h2, g44, g45, g54, g55, g4e, g5e, and_true, and_false, true_and, false_and, not_false_eq_true, not_true_eq_false, if_true, if_false, eq_self_iff_true]

/-- Interval evaluation: SINR in 5G interval 10. -/
lemma eval5G_10 (s : ℚ) (h1 : (14.1 : ℚ) ≤ s) (h2 : s < (16.3 : ℚ)) :
    estimate_spectral_efficiency s "5G" (MODULATION_AND_CODING_LUT : List (MCEntry ℚ)) =
      Except.ok (some (28.00 : ℚ)) := by
  rw [estimate_spectral_efficiency, reach5G_10 s h1 (by linarith)]
  have hd : List.drop 25 (pairwise (MODULATION_AND_CODING_LUT : List (MCEntry ℚ))) =
      (⟨"5G", "8x8", 11, "64QAM", 873, 28.00, 14.1⟩,
       ⟨"5G", "8x8", 12, "256QAM", 711, 32.00, 16.3⟩) :: List.drop 26 (pairwise (MODULATION_AND_CODING_LUT : List (MCEntry ℚ))) := rfl
  have a : ((14.1 : ℚ) ≤ s) = True := eq_true h1
  rw [hd]
  simp only [seLoop, seStep, a, h2, g44, g45, g54, g55, g4e, g5e, and_true, and_false, true_and, false_and, not_false_eq_true, not_true_eq_false, if_true, if_false, eq_self_iff_true]

/-- Interval evaluation: SINR in 5G interval 11. -/
lemma eval5G_11 (s : ℚ) (h1 : (16.3 : ℚ) ≤ s) (h2 : s < (18.7 : ℚ)) :
    estimate_spectral_efficiency s "5G" (MODULATION_AND_CODING_LUT : List (MCEntry ℚ)) =
      Except.ok (some (32.00 : ℚ)) := by
  rw [estimate_spectral_efficiency, reach5G_11 s h1 (by linarith)]
  have hd : List.drop 26 (pairwise (MODULATION_AND_CODING_LUT : List (MCEntry ℚ))) =
      (⟨"5G", "8x8", 12, "256QAM", 711, 32.00, 16.3⟩,
       ⟨"5G", "8x8", 13, "256QAM", 797, 38.00, 18.7⟩) :: List.drop 27 (pairwise (MODULATION_AND_CODING_LUT : List (MCEntry ℚ))) := rfl
  have a : ((16.3 : ℚ) ≤ s) = True := eq_true h1
  rw [hd]
  simp only [seLoop, seStep, a, h2, g44, g45, g54, g55, g4e, g5e, and_true, and_false, true_and, false_and, not_false_eq_true, not_true_eq_false, if_true, if_false, eq_self_iff_true]

/-- Interval evaluation: SINR in 5G interval 12. -/
lemma eval5G_12 (s : ℚ) (h1 : (18.7 : ℚ) ≤ s) (h2 : s < (21 : ℚ)) :
    estimate_spectral_efficiency s "5G" (MODULATION_AND_CODING_LUT : List (MCEntry ℚ)) =
      Except.ok (some (38.00 : ℚ)) := by
  rw [estimate_spectral_efficiency, reach5G_12 s h1 (by linarith)]
  have hd : List.drop 27 (pairwise (MODULATION_AND_CODING_LUT : List (MCEntry ℚ))) =
      (⟨"5G", "8x8", 13, "256QAM", 797, 38.00, 18.7⟩,
       ⟨"5G", "8x8", 14, "256QAM", 885, 44.00, 21⟩) :: List.drop 28 (pairwise (MODULATION_AND_CODING_LUT : List (MCEntry ℚ))) := rfl
  have a : ((18.7 : ℚ) ≤ s) = True := eq_true h1
  rw [hd]
  simp only [seLoop, seStep, a, h2, g44, g45, g54, g55, g4e, g5e, and_true, and_false, true_and, false_and, not_false_eq_true, not_true_eq_false, if_true, if_false, eq_self_iff_true]

/-- Interval evaluation: SINR in 5G interval 13. -/
lemma eval5G_13 (s : ℚ) (h1 : (21 : ℚ) ≤ s) (h2 : s < (22.7 : ℚ)) :
    estimate_spectral_efficiency s "5G" (MODULATION_AND_CODING_LUT : List (MCEntry ℚ)) =
      Except.ok (some (44.00 : ℚ)) := by
  rw [estimate_spectral_efficiency, reach5G_13 s h1 (by linarith)]
  have hd : List.drop 28 (pairwise (MODULATION_AND_CODING_LUT : List (MCEntry ℚ))) =
      (⟨"5G", "8x8", 14, "256QAM", 885, 44.00, 21⟩,
       ⟨"5G", "8x8", 15, "256QAM", 948, 50.00, 22.7⟩) :: List.drop 29 (pairwise (MODULATION_AND_CODING_LUT : List (MCEntry ℚ))) := rfl
  have a : ((21 : ℚ) ≤ s) = True := eq_true h1
  rw [hd]
  simp only [seLoop, seStep, a, h2, g44, g45, g54, g55, g4e, g5e, and_true, and_false, true_and, false_and, not_false_eq_true, not_true_eq_false, if_true, if_false, eq_self_iff_true]

/-- 5G floor: SINR below the whole 5G block. -/
lemma eval5G_floor (s : ℚ) (h : s < (-6.7 : ℚ)) :
    estimate_spectral_efficiency s "5G" (MODULATION_AND_CODING_LUT : List (MCEntry ℚ)) =
      Except.ok (some (0 : ℚ)) := by
  rw [estimate_spectral_efficiency, skip5G s]
  have hd : List.drop 14 (pairwise (MODULATION_AND_CODING_LUT : List (MCEntry ℚ))) =
      (⟨"4G", "1x1", 15, "64QAM", 948, 5.5547, 22.7⟩,
       ⟨"5G", "8x8", 1, "QPSK", 78, 0.30, -6.7⟩) :: List.drop 15 (pairwise (MODULATION_AND_CODING_LUT : List (MCEntry ℚ))) := rfl
  have ht := tail5G_floor s h
  have b : ((22.7 : ℚ) ≤ s) = False := eq_false (by linarith)
  rw [hd]
  simp only [seLoop, seStep, ht, b, g44, g45, g54, g55, g4e, g5e, and_true, and_false, true_and, false_and, not_false_eq_true, not_true_eq_false, if_true, if_false, eq_self_iff_true]

/-- 5G saturation: SINR at or above the maximum 5G threshold. -/
lemma eval5G_sat (s : ℚ) (h : (22.7 : ℚ) ≤ s) :
    estimate_spectral_efficiency s "5G" (MODULATION_AND_CODING_LUT : List (MCEntry ℚ)) =
      Except.ok (some (50.00 : ℚ)) := by
  rw [estimate_spectral_efficiency, skip5G s]
  have hd : List.drop 14 (pairwise (MODULATION_AND_CODING_LUT : List (MCEntry ℚ))) =
      (⟨"4G", "1x1", 15, "64QAM", 948, 5.5547, 22.7⟩,
       ⟨"5G", "8x8", 1, "QPSK", 78, 0.30, -6.7⟩) :: List.drop 15 (pairwise (MODULATION_AND_CODING_LUT : List (MCEntry ℚ))) := rfl
  have ht := tail5G_sat s h
  have b : (s < (-6.7 : ℚ)) = False := eq_false (by linarith)
  rw [hd]
  simp only [seLoop, seStep, ht, h, b, g44, g45, g54, g55, g4e, g5e, and_true, and_false, true_and, false_and, not_false_eq_true, not_true_eq_false, if_true, if_false, eq_self_iff_true]


/-- Value of the `4G` step function below the block. -/
lemma seval4G_floor (s : ℚ) (h : s < (-6.7 : ℚ)) : se4G s = 0 := by
  simp only [se4G, h, if_true]

/-- Value of the `4G` step function on interval 0. -/
lemma seval4G_0 (s : ℚ) (h1 : (-6.7 : ℚ) ≤ s) (h2 : s < (-4.7 : ℚ)) :
    se4G s = 0.1523 := by
  have d0 : (s < (-6.7 : ℚ)) = False := eq_false (by linarith)
  simp only [se4G, d0, h2, if_true, if_false]

/-- Value of the `4G` step function on interval 1. -/
lemma seval4G_1 (s : ℚ) (h1 : (-4.7 : ℚ) ≤ s) (h2 : s < (-2.3 : ℚ)) :
    se4G s = 0.2344 := by
  have d0 : (s < (-6.7 : ℚ)) = False := eq_false (by linarith)
  have d1 : (s < (-4.7 : ℚ)) = False := eq_false (by linarith)
  simp only [se4G, d0, d1, h2, if_true, if_false]

/-- Value of the `4G` step function on interval 2. -/
lemma seval4G_2 (s : ℚ) (h1 : (-2.3 : ℚ) ≤ s) (h2 : s < (0.2 : ℚ)) :
    se4G s = 0.377 := by
  have d0 : (s < (-6.7 : ℚ)) = False := eq_false (by linarith)
  have d1 : (s < (-4.7 : ℚ)) = False := eq_false (by linarith)
  have d2 : (s < (-2.3 : ℚ)) = False := eq_false (by linarith)
  simp only [se4G, d0, d1, d2, h2, if_true, if_false]

/-- Value of the `4G` step function on interval 3. -/
lemma seval4G_3 (s : ℚ) (h1 : (0.2 : ℚ) ≤ s) (h2 : s < (2.4 : ℚ)) :
    se4G s = 0.6016 := by
  have d0 : (s < (-6.7 : ℚ)) = False := eq_false (by linarith)
  have d1 : (s < (-4.7 : ℚ)) = False := eq_false (by linarith)
  have d2 : (s < (-2.3 : ℚ)) = False := eq_false (by linarith)
  have d3 : (s < (0.2 : ℚ)) = False := eq_false (by linarith)
  simp only [se4G, d0, d1, d2, d3, h2, if_true, if_false]

/-- Value of the `4G` step function on interval 4. -/
lemma seval4G_4 (s : ℚ) (h1 : (2.4 : ℚ) ≤ s) (h2 : s < (4.3 : ℚ)) :
    se4G s = 0.877 := by
  have d0 : (s < (-6.7 : ℚ)) = False := eq_false (by linarith)
  have d1 : (s < (-4.7 : ℚ)) = False := eq_false (by linarith)
  have d2 : (s < (-2.3 : ℚ)) = False := eq_false (by linarith)
  have d3 : (s < (0.2 : ℚ)) = False := eq_false (by linarith)
  have d4 : (s < (2.4 : ℚ)) = False := eq_false (by linarith)
  simp only [se4G, d0, d1, d2, d3, d4, h2, if_true, if_false]

/-- Value of the `4G` step function on interval 5. -/
lemma seval4G_5 (s : ℚ) (h1 : (4.3 : ℚ) ≤ s) (h2 : s < (5.9 : ℚ)) :
    se4G s = 1.1758 := by
  have d0 : (s < (-6.7 : ℚ)) = False := eq_false (by linarith)
  have d1 : (s < (-4.7 : ℚ)) = False := eq_false (by linarith)
  have d2 : (s < (-2.3 : ℚ)) = False := eq_false (by linarith)
  have d3 : (s < (0.2 : ℚ)) = False := eq_false (by linarith)
  have d4 : (s < (2.4 : ℚ)) = False := eq_false (by linarith)
  have d5 : (s < (4.3 : ℚ)) = False := eq_false (by linarith)
  simp only [se4G, d0, d1, d2, d3, d4, d5, h2, if_true, if_false]

/-- Value of the `4G` step function on interval 6. -/
lemma seval4G_6 (s : ℚ) (h1 : (5.9 : ℚ) ≤ s) (h2 : s < (8.1 : ℚ)) :
    se4G s = 1.4766 := by
  have d0 : (s < (-6.7 : ℚ)) = False := eq_false (by linarith)
  have d1 : (s < (-4.7 : ℚ)) = False := eq_false (by linarith)
  have d2 : (s < (-2.3 : ℚ)) = False := eq_false (by linarith)
  have d3 : (s < (0.2 : ℚ)) = False := eq_false (by linarith)
  have d4 : (s < (2.4 : ℚ)) = False := eq_false (by linarith)
  have d5 : (s < (4.3 : ℚ)) = False := eq_false (by linarith)
  have d6 : (s < (5.9 : ℚ)) = False := eq_false (by linarith)
  simp only [se4G, d0, d1, d2, d3, d4, d5, d6, h2, if_true, if_false]

/-- Value of the `4G` step function on interval 7. -/
lemma seval4G_7 (s : ℚ) (h1 : (8.1 : ℚ) ≤ s) (h2 : s < (10.3 : ℚ)) :
    se4G s = 1.9141 := by
  have d0 : (s < (-6.7 : ℚ)) = False := eq_false (by linarith)
  have d1 : (s < (-4.7 : ℚ)) = False := eq_false (by linarith)
  have d2 : (s < (-2.3 : ℚ)) = False := eq_false (by linarith)
  have d3 : (s < (0.2 : ℚ)) = False := eq_false (by linarith)
  have d4 : (s < (2.4 : ℚ)) = False := eq_false (by linarith)
  have d5 : (s < (4.3 : ℚ)) = False := eq_false (by linarith)
  have d6 : (s < (5.9 : ℚ)) = False := eq_false (by linarith)
  have d7 : (s < (8.1 : ℚ)) = False := eq_false (by linarith)
  simp only [se4G, d0, d1, d2, d3, d4, d5, d6, d7, h2, if_true, if_false]

/-- Value of the `4G` step function on interval 8. -/
lemma seval4G_8 (s : ℚ) (h1 : (10.3 : ℚ) ≤ s) (h2 : s < (11.7 : ℚ)) :
    se4G s = 2.4063 := by
  have d0 : (s < (-6.7 : ℚ)) = False := eq_false (by linarith)
  have d1 : (s < (-4.7 : ℚ)) = False := eq_false (by linarith)
  have d2 : (s < (-2.3 : ℚ)) = False := eq_false (by linarith)
  have d3 : (s < (0.2 : ℚ)) = False := eq_false (by linarith)
  have d4 : (s < (2.4 : ℚ)) = False := eq_false (by linarith)
  have d5 : (s < (4.3 : ℚ)) = False := eq_false (by linarith)
  have d6 : (s < (5.9 : ℚ)) = False := eq_false (by linarith)
  have d7 : (s < (8.1 : ℚ)) = False := eq_false (by linarith)
  have d8 : (s < (10.3 : ℚ)) = False := eq_false (by linarith)
  simp only [se4G, d0, d1, d2, d3, d4, d5, d6, d7, d8, h2, if_true, if_false]

/-- Value of the `4G` step function on interval 9. -/
lemma seval4G_9 (s : ℚ) (h1 : (11.7 : ℚ) ≤ s) (h2 : s < (14.1 : ℚ)) :
    se4G s = 2.7305 := by
  have d0 : (s < (-6.7 : ℚ)) = False := eq_false (by linarith)
  have d1 : (s < (-4.7 : ℚ)) = False := eq_false (by linarith)
  have d2 : (s < (-2.3 : ℚ)) = False := eq_false (by linarith)
  have d3 : (s < (0.2 : ℚ)) = False := eq_false (by linarith)
  have d4 : (s < (2.4 : ℚ)) = False := eq_false (by linarith)
  have d5 : (s < (4.3 : ℚ)) = False := eq_false (by linarith)
  have d6 : (s < (5.9 : ℚ)) = False := eq_false (by linarith)
  have d7 : (s < (8.1 : ℚ)) = False := eq_false (by linarith)
  have d8 : (s < (10.3 : ℚ)) = False := eq_false (by linarith)
  have d9 : (s < (11.7 : ℚ)) = False := eq_false (by linarith)
  simp only [se4G, d0, d1, d2, d3, d4, d5, d6, d7, d8, d9, h2, if_true, if_false]

/-- Value of the `4G` step function on interval 10. -/
lemma seval4G_10 (s : ℚ) (h1 : (14.1 : ℚ) ≤ s) (h2 : s < (16.3 : ℚ)) :
    se4G s = 3.3223 := by
  have d0 : (s < (-6.7 : ℚ)) = False := eq_false (by linarith)
  have d1 : (s < (-4.7 : ℚ)) = False := eq_false (by linarith)
  have d2 : (s < (-2.3 : ℚ)) = False := eq_false (by linarith)
  have d3 : (s < (0.2 : ℚ)) = False := eq_false (by linarith)
  have d4 : (s < (2.4 : ℚ)) = False := eq_false (by linarith)
  have d5 : (s < (4.3 : ℚ)) = False := eq_false (by linarith)
  have d6 : (s < (5.9 : ℚ)) = False := eq_false (by linarith)
  have d7 : (s < (8.1 : ℚ)) = False := eq_false (by linarith)
  have d8 : (s < (10.3 : ℚ)) = False := eq_false (by linarith)
  have d9 : (s < (11.7 : ℚ)) = False := eq_false (by linarith)
  have d10 : (s < (14.1 : ℚ)) = False := eq_false (by linarith)
  simp only [se4G, d0, d1, d2, d3, d4, d5, d6, d7, d8, d9, d10, h2, if_true, if_false]

/-- Value of the `4G` step function on interval 11. -/
lemma seval4G_11 (s : ℚ) (h1 : (16.3 : ℚ) ≤ s) (h2 : s < (18.7 : ℚ)) :
    se4G s = 3.9023 := by
  have d0 : (s < (-6.7 : ℚ)) = False := eq_false (by linarith)
  have d1 : (s < (-4.7 : ℚ)) = False := eq_false (by linarith)
  have d2 : (s < (-2.3 : ℚ)) = False := eq_false (by linarith)
  have d3 : (s < (0.2 : ℚ)) = False := eq_false (by linarith)
  have d4 : (s < (2.4 : ℚ)) = False := eq_false (by linarith)
  have d5 : (s < (4.3 : ℚ)) = False := eq_false (by linarith)
  have d6 : (s < (5.9 : ℚ)) = False := eq_false (by linarith)
  have d7 : (s < (8.1 : ℚ)) = False := eq_false (by linarith)
  have d8 : (s < (10.3 : ℚ)) = False := eq_false (by linarith)
  have d9 : (s < (11.7 : ℚ)) = False := eq_false (by linarith)
  have d10 : (s < (14.1 : ℚ)) = False := eq_false (by linarith)
  have d11 : (s < (16.3 : ℚ)) = False := eq_false (by linarith)
  simp only [se4G, d0, d1, d2, d3, d4, d5, d6, d7, d8, d9, d10, d11, h2, if_true, if_false]

/-- Value of the `4G` step function on interval 12. -/
lemma seval4G_12 (s : ℚ) (h1 : (18.7 : ℚ) ≤ s) (h2 : s < (21 : ℚ)) :
    se4G s = 4.5234 := by
  have d0 : (s < (-6.7 : ℚ)) = False := eq_false (by linarith)
  have d1 : (s < (-4.7 : ℚ)) = False := eq_false (by linarith)
  have d2 : (s < (-2.3 : ℚ)) = False := eq_false (by linarith)
  have d3 : (s < (0.2 : ℚ)) = False := eq_false (by linarith)
  have d4 : (s < (2.4 : ℚ)) = False := eq_false (by linarith)
  have d5 : (s < (4.3 : ℚ)) = False := eq_false (by linarith)
  have d6 : (s < (5.9 : ℚ)) = False := eq_false (by linarith)
  have d7 : (s < (8.1 : ℚ)) = False := eq_false (by linarith)
  have d8 : (s < (10.3 : ℚ)) = False := eq_false (by linarith)
  have d9 : (s < (11.7 : ℚ)) = False := eq_false (by linarith)
  have d10 : (s < (14.1 : ℚ)) = False := eq_false (by linarith)
  have d11 : (s < (16.3 : ℚ)) = False := eq_false (by linarith)
  have d12 : (s < (18.7 : ℚ)) = False := eq_false (by linarith)
  simp only [se4G, d0, d1, d2, d3, d4, d5, d6, d7, d8, d9, d10, d11, d12, h2, if_true, if_false]

/-- Value of the `4G` step function on interval 13. -/
lemma seval4G_13 (s : ℚ) (h1 : (21 : ℚ) ≤ s) (h2 : s < (22.7 : ℚ)) :
    se4G s = 5.1152 := by
  have d0 : (s < (-6.7 : ℚ)) = False := eq_false (by linarith)
  have d1 : (s < (-4.7 : ℚ)) = False := eq_false (by linarith)
  have d2 : (s < (-2.3 : ℚ)) = False := eq_false (by linarith)
  have d3 : (s < (0.2 : ℚ)) = False := eq_false (by linarith)
  have d4 : (s < (2.4 : ℚ)) = False := eq_false (by linarith)
  have d5 : (s < (4.3 : ℚ)) = False := eq_false (by linarith)
  have d6 : (s < (5.9 : ℚ)) = False := eq_false (by linarith)
  have d7 : (s < (8.1 : ℚ)) = False := eq_false (by linarith)
  have d8 : (s < (10.3 : ℚ)) = False := eq_false (by linarith)
  have d9 : (s < (11.7 : ℚ)) = False := eq_false (by linarith)
  have d10 : (s < (14.1 : ℚ)) = False := eq_false (by linarith)
  have d11 : (s < (16.3 : ℚ)) = False := eq_false (by linarith)
  have d12 : (s < (18.7 : ℚ)) = False := eq_false (by linarith)
  have d13 : (s < (21 : ℚ)) = False := eq_false (by linarith)
  simp only [se4G, d0, d1, d2, d3, d4, d5, d6, d7, d8, d9, d10, d11, d12, d13, h2, if_true, if_false]

/-- Value of the `4G` step function above the block. -/
lemma seval4G_sat (s : ℚ) (h : (22.7 : ℚ) ≤ s) : se4G s = 5.5547 := by
  have d0 : (s < (-6.7 : ℚ)) = False := eq_false (by linarith)
  have d1 : (s < (-4.7 : ℚ)) = False := eq_false (by linarith)
  have d2 : (s < (-2.3 : ℚ)) = False := eq_false (by linarith)
  have d3 : (s < (0.2 : ℚ)) = False := eq_false (by linarith)
  have d4 : (s < (2.4 : ℚ)) = False := eq_false (by linarith)
  have d5 : (s < (4.3 : ℚ)) = False := eq_false (by linarith)
  have d6 : (s < (5.9 : ℚ)) = False := eq_false (by linarith)
  have d7 : (s < (8.1 : ℚ)) = False := eq_false (by linarith)
  have d8 : (s < (10.3 : ℚ)) = False := eq_false (by linarith)
  have d9 : (s < (11.7 : ℚ)) = False := eq_false (by linarith)
  have d10 : (s < (14.1 : ℚ)) = False := eq_false (by linarith)
  have d11 : (s < (16.3 : ℚ)) = False := eq_false (by linarith)
  have d12 : (s < (18.7 : ℚ)) = False := eq_false (by linarith)
  have d13 : (s < (21 : ℚ)) = False := eq_false (by linarith)
  have d14 : (s < (22.7 : ℚ)) = False := eq_false (by linarith)
  simp only [se4G, d0, d1, d2, d3, d4, d5, d6, d7, d8, d9, d10, d11, d12, d13, d14, if_false]

/-- Value of the `5G` step function below the block. -/
lemma seval5G_floor (s : ℚ) (h : s < (-6.7 : ℚ)) : se5G s = 0 := by
  simp only [se5G, h, if_true]

/-- Value of the `5G` step function on interval 0. -/
lemma seval5G_0 (s : ℚ) (h1 : (-6.7 : ℚ) ≤ s) (h2 : s < (-4.7 : ℚ)) :
    se5G s = 0.30 := by
  have d0 : (s < (-6.7 : ℚ)) = False := eq_false (by linarith)
  simp only [se5G, d0, h2, if_true, if_false]

/-- Value of the `5G` step function on interval 1. -/
lemma seval5G_1 (s : ℚ) (h1 : (-4.7 : ℚ) ≤ s) (h2 : s < (-2.3 : ℚ)) :
    se5G s = 2.05 := by
  have d0 : (s < (-6.7 : ℚ)) = False := eq_false (by linarith)
  have d1 : (s < (-4.7 : ℚ)) = False := eq_false (by linarith)
  simp only [se5G, d0, d1, h2, if_true, if_false]

/-- Value of the `5G` step function on interval 2. -/
lemma seval5G_2 (s : ℚ) (h1 : (-2.3 : ℚ) ≤ s) (h2 : s < (0.2 : ℚ)) :
    se5G s = 4.42 := by
  have d0 : (s < (-6.7 : ℚ)) = False := eq_false (by linarith)
  have d1 : (s < (-4.7 : ℚ)) = False := eq_false (by linarith)
  have d2 : (s < (-2.3 : ℚ)) = False := eq_false (by linarith)
  simp only [se5G, d0, d1, d2, h2, if_true, if_false]

/-- Value of the `5G` step function on interval 3. -/
lemma seval5G_3 (s : ℚ) (h1 : (0.2 : ℚ) ≤ s) (h2 : s < (2.4 : ℚ)) :
    se5G s = 6.40 := by
  have d0 : (s < (-6.7 : ℚ)) = False := eq_false (by linarith)
  have d1 : (s < (-4.7 : ℚ)) = False := eq_false (by linarith)
  have d2 : (s < (-2.3 : ℚ)) = False := eq_false (by linarith)
  have d3 : (s < (0.2 : ℚ)) = False := eq_false (by linarith)
  simp only [se5G, d0, d1, d2, d3, h2, if_true, if_false]

/-- Value of the `5G` step function on interval 4. -/
lemma seval5G_4 (s : ℚ) (h1 : (2.4 : ℚ) ≤ s) (h2 : s < (4.3 : ℚ)) :
    se5G s = 8.00 := by
  have d0 : (s < (-6.7 : ℚ)) = False := eq_false (by linarith)
  have d1 : (s < (-4.7 : ℚ)) = False := eq_false (by linarith)
  have d2 : (s < (-2.3 : ℚ)) = False := eq_false (by linarith)
  have d3 : (s < (0.2 : ℚ)) = False := eq_false (by linarith)
  have d4 : (s < (2.4 : ℚ)) = False := eq_false (by linarith)
  simp only [se5G, d0, d1, d2, d3, d4, h2, if_true, if_false]

/-- Value of the `5G` step function on interval 5. -/
lemma seval5G_5 (s : ℚ) (h1 : (4.3 : ℚ) ≤ s) (h2 : s < (5.9 : ℚ)) :
    se5G s = 10.82 := by
  have d0 : (s < (-6.7 : ℚ)) = False := eq_false (by linarith)
  have d1 : (s < (-4.7 : ℚ)) = False := eq_false (by linarith)
  have d2 : (s < (-2.3 : ℚ)) = False := eq_false (by linarith)
  have d3 : (s < (0.2 : ℚ)) = False := eq_false (by linarith)
  have d4 : (s < (2.4 : ℚ)) = False := eq_false (by linarith)
  have d5 : (s < (4.3 : ℚ)) = False := eq_false (by linarith)
  simp only [se5G, d0, d1, d2, d3, d4, d5, h2, if_true, if_false]

/-- Value of the `5G` step function on interval 6. -/
lemma seval5G_6 (s : ℚ) (h1 : (5.9 : ℚ) ≤ s) (h2 : s < (8.1 : ℚ)) :
    se5G s = 12.40 := by
  have d0 : (s < (-6.7 : ℚ)) = False := eq_false (by linarith)
  have d1 : (s < (-4.7 : ℚ)) = False := eq_false (by linarith)
  have d2 : (s < (-2.3 : ℚ)) = False := eq_false (by linarith)
  have d3 : (s < (0.2 : ℚ)) = False := eq_false (by linarith)
  have d4 : (s < (2.4 : ℚ)) = False := eq_false (by linarith)
  have d5 : (s < (4.3 : ℚ)) = False := eq_false (by linarith)
  have d6 : (s < (5.9 : ℚ)) = False := eq_false (by linarith)
  simp only [se5G, d0, d1, d2, d3, d4, d5, d6, h2, if_true, if_false]

/-- Value of the `5G` step function on interval 7. -/
lemma seval5G_7 (s : ℚ) (h1 : (8.1 : ℚ) ≤ s) (h2 : s < (10.3 : ℚ)) :
    se5G s = 16.00 := by
  have d0 : (s < (-6.7 : ℚ)) = False := eq_false (by linarith)
  have d1 : (s < (-4.7 : ℚ)) = False := eq_false (by linarith)
  have d2 : (s < (-2.3 : ℚ)) = False := eq_false (by linarith)
  have d3 : (s < (0.2 : ℚ)) = False := eq_false (by linarith)
  have d4 : (s < (2.4 : ℚ)) = False := eq_false (by linarith)
  have d5 : (s < (4.3 : ℚ)) = False := eq_false (by linarith)
  have d6 : (s < (5.9 : ℚ)) = False := eq_false (by linarith)
  have d7 : (s < (8.1 : ℚ)) = False := eq_false (by linarith)
  simp only [se5G, d0, d1, d2, d3, d4, d5, d6, d7, h2, if_true, if_false]

/-- Value of the `5G` step function on interval 8. -/
lemma seval5G_8 (s : ℚ) (h1 : (10.3 : ℚ) ≤ s) (h2 : s < (11.7 : ℚ)) :
    se5G s = 19.00 := by
  have d0 : (s < (-6.7 : ℚ)) = False := eq_false (by linarith)
  have d1 : (s < (-4.7 : ℚ)) = False := eq_false (by linarith)
  have d2 : (s < (-2.3 : ℚ)) = False := eq_false (by linarith)
  have d3 : (s < (0.2 : ℚ)) = False := eq_false (by linarith)
  have d4 : (s < (2.4 : ℚ)) = False := eq_false (by linarith)
  have d5 : (s < (4.3 : ℚ)) = False := eq_false (by linarith)
  have d6 : (s < (5.9 : ℚ)) = False := eq_false (by linarith)
  have d7 : (s < (8.1 : ℚ)) = False := eq_false (by linarith)
  have d8 : (s < (10.3 : ℚ)) = False := eq_false (by linarith)
  simp only [se5G, d0, d1, d2, d3, d4, d5, d6, d7, d8, h2, if_true, if_false]

/-- Value of the `5G` step function on interval 9. -/
lemma seval5G_9 (s : ℚ) (h1 : (11.7 : ℚ) ≤ s) (h2 : s < (14.1 : ℚ)) :
    se5G s = 22.00 := by
  have d0 : (s < (-6.7 : ℚ)) = False := eq_false (by linarith)
  have d1 : (s < (-4.7 : ℚ)) = False := eq_false (by linarith)
  have d2 : (s < (-2.3 : ℚ)) = False := eq_false (by linarith)
  have d3 : (s < (0.2 : ℚ)) = False := eq_false (by linarith)
  have d4 : (s < (2.4 : ℚ)) = False := eq_false (by linarith)
  have d5 : (s < (4.3 : ℚ)) = False := eq_false (by linarith)
  have d6 : (s < (5.9 : ℚ)) = False := eq_false (by linarith)
  have d7 : (s < (8.1 : ℚ)) = False := eq_false (by linarith)
  have d8 : (s < (10.3 : ℚ)) = False := eq_false (by linarith)
  have d9 : (s < (11.7 : ℚ)) = False := eq_false (by linarith)
  simp only [se5G, d0, d1, d2, d3, d4, d5, d6, d7, d8, d9, h2, if_true, if_false]

/-- Value of the `5G` step function on interval 10. -/
lemma seval5G_10 (s : ℚ) (h1 : (14.1 : ℚ) ≤ s) (h2 : s < (16.3 : ℚ)) :
    se5G s = 28.00 := by
  have d0 : (s < (-6.7 : ℚ)) = False := eq_false (by linarith)
  have d1 : (s < (-4.7 : ℚ)) = False := eq_false (by linarith)
  have d2 : (s < (-2.3 : ℚ)) = False := eq_false (by linarith)
  have d3 : (s < (0.2 : ℚ)) = False := eq_false (by linarith)
  have d4 : (s < (2.4 : ℚ)) = False := eq_false (by linarith)
  have d5 : (s < (4.3 : ℚ)) = False := eq_false (by linarith)
  have d6 : (s < (5.9 : ℚ)) = False := eq_false (by linarith)
  have d7 : (s < (8.1 : ℚ)) = False := eq_false (by linarith)
  have d8 : (s < (10.3 : ℚ)) = False := eq_false (by linarith)
  have d9 : (s < (11.7 : ℚ)) = False := eq_false (by linarith)
  have d10 : (s < (14.1 : ℚ)) = False := eq_false (by linarith)
  simp only [se5G, d0, d1, d2, d3, d4, d5, d6, d7, d8, d9, d10, h2, if_true, if_false]

/-- Value of the `5G` step function on interval 11. -/
lemma seval5G_11 (s : ℚ) (h1 : (16.3 : ℚ) ≤ s) (h2 : s < (18.7 : ℚ)) :
    se5G s = 32.00 := by
  have d0 : (s < (-6.7 : ℚ)) = False := eq_false (by linarith)
  have d1 : (s < (-4.7 : ℚ)) = False := eq_false (by linarith)
  have d2 : (s < (-2.3 : ℚ)) = False := eq_false (by linarith)
  have d3 : (s < (0.2 : ℚ)) = False := eq_false (by linarith)
  have d4 : (s < (2.4 : ℚ)) = False := eq_false (by linarith)
  have d5 : (s < (4.3 : ℚ)) = False := eq_false (by linarith)
  have d6 : (s < (5.9 : ℚ)) = False := eq_false (by linarith)
  have d7 : (s < (8.1 : ℚ)) = False := eq_false (by linarith)
  have d8 : (s < (10.3 : ℚ)) = False := eq_false (by linarith)
  have d9 : (s < (11.7 : ℚ)) = False := eq_false (by linarith)
  have d10 : (s < (14.1 : ℚ)) = False := eq_false (by linarith)
  have d11 : (s < (16.3 : ℚ)) = False := eq_false (by linarith)
  simp only [se5G, d0, d1, d2, d3, d4, d5, d6, d7, d8, d9, d10, d11, h2, if_true, if_false]

/-- Value of the `5G` step function on interval 12. -/
lemma seval5G_12 (s : ℚ) (h1 : (18.7 : ℚ) ≤ s) (h2 : s < (21 : ℚ)) :
    se5G s = 38.00 := by
  have d0 : (s < (-6.7 : ℚ)) = False := eq_false (by linarith)
  have d1 : (s < (-4.7 : ℚ)) = False := eq_false (by linarith)
  have d2 : (s < (-2.3 : ℚ)) = False := eq_false (by linarith)
  have d3 : (s < (0.2 : ℚ)) = False := eq_false (by linarith)
  have d4 : (s < (2.4 : ℚ)) = False := eq_false (by linarith)
  have d5 : (s < (4.3 : ℚ)) = False := eq_false (by linarith)
  have d6 : (s < (5.9 : ℚ)) = False := eq_false (by linarith)
  have d7 : (s < (8.1 : ℚ)) = False := eq_false (by linarith)
  have d8 : (s < (10.3 : ℚ)) = False := eq_false (by linarith)
  have d9 : (s < (11.7 : ℚ)) = False := eq_false (by linarith)
  have d10 : (s < (14.1 : ℚ)) = False := eq_false (by linarith)
  have d11 : (s < (16.3 : ℚ)) = False := eq_false (by linarith)
  have d12 : (s < (18.7 : ℚ)) = False := eq_false (by linarith)
  simp only [se5G, d0, d1, d2, d3, d4, d5, d6, d7, d8, d9, d10, d11, d12, h2, if_true, if_false]

/-- Value of the `5G` step function on interval 13. -/
lemma seval5G_13 (s : ℚ) (h1 : (21 : ℚ) ≤ s) (h2 : s < (22.7 : ℚ)) :
    se5G s = 44.00 := by
  have d0 : (s < (-6.7 : ℚ)) = False := eq_false (by linarith)
  have d1 : (s < (-4.7 : ℚ)) = False := eq_false (by linarith)
  have d2 : (s < (-2.3 : ℚ)) = False := eq_false (by linarith)
  have d3 : (s < (0.2 : ℚ)) = False := eq_false (by linarith)
  have d4 : (s < (2.4 : ℚ)) = False := eq_false (by linarith)
  have d5 : (s < (4.3 : ℚ)) = False := eq_false (by linarith)
  have d6 : (s < (5.9 : ℚ)) = False := eq_false (by linarith)
  have d7 : (s < (8.1 : ℚ)) = False := eq_false (by linarith)
  have d8 : (s < (10.3 : ℚ)) = False := eq_false (by linarith)
  have d9 : (s < (11.7 : ℚ)) = False := eq_false (by linarith)
  have d10 : (s < (14.1 : ℚ)) = False := eq_false (by linarith)
  have d11 : (s < (16.3 : ℚ)) = False := eq_false (by linarith)
  have d12 : (s < (18.7 : ℚ)) = False := eq_false (by linarith)
  have d13 : (s < (21 : ℚ)) = False := eq_false (by linarith)
  simp only [se5G, d0, d1, d2, d3, d4, d5, d6, d7, d8, d9, d10, d11, d12, d13, h2, if_true, if_false]

/-- Value of the `5G` step function above the block. -/
lemma seval5G_sat (s : ℚ) (h : (22.7 : ℚ) ≤ s) : se5G s = 50.00 := by
  have d0 : (s < (-6.7 : ℚ)) = False := eq_false (by linarith)
  have d1 : (s < (-4.7 : ℚ)) = False := eq_false (by linarith)
  have d2 : (s < (-2.3 : ℚ)) = False := eq_false (by linarith)
  have d3 : (s < (0.2 : ℚ)) = False := eq_false (by linarith)
  have d4 : (s < (2.4 : ℚ)) = False := eq_false (by linarith)
  have d5 : (s < (4.3 : ℚ)) = False := eq_false (by linarith)
  have d6 : (s < (5.9 : ℚ)) = False := eq_false (by linarith)
  have d7 : (s < (8.1 : ℚ)) = False := eq_false (by linarith)
  have d8 : (s < (10.3 : ℚ)) = False := eq_false (by linarith)
  have d9 : (s < (11.7 : ℚ)) = False := eq_false (by linarith)
  have d10 : (s < (14.1 : ℚ)) = False := eq_false (by linarith)
  have d11 : (s < (16.3 : ℚ)) = False := eq_false (by linarith)
  have d12 : (s < (18.7 : ℚ)) = False := eq_false (by linarith)
  have d13 : (s < (21 : ℚ)) = False := eq_false (by linarith)
  have d14 : (s < (22.7 : ℚ)) = False := eq_false (by linarith)
  simp only [se5G, d0, d1, d2, d3, d4, d5, d6, d7, d8, d9, d10, d11, d12, d13, d14, if_false]

/-- On the shipped table, `estimate_spectral_efficiency` for `4G` agrees with the plain step function everywhere. -/
lemma char4G (s : ℚ) :
    estimate_spectral_efficiency s "4G" (MODULATION_AND_CODING_LUT : List (MCEntry ℚ)) =
      Except.ok (some (se4G s)) := by
  rcases lt_or_le s (-6.7 : ℚ) with h | h0
  · rw [eval4G_floor s h, seval4G_floor s h]
  rcases lt_or_le s (-4.7 : ℚ) with h | h1
  · rw [eval4G_0 s h0 h, seval4G_0 s h0 h]
  rcases lt_or_le s (-2.3 : ℚ) with h | h2
  · rw [eval4G_1 s h1 h, seval4G_1 s h1 h]
  rcases lt_or_le s (0.2 : ℚ) with h | h3
  · rw [eval4G_2 s h2 h, seval4G_2 s h2 h]
  rcases lt_or_le s (2.4 : ℚ) with h | h4
  · rw [eval4G_3 s h3 h, seval4G_3 s h3 h]
  rcases lt_or_le s (4.3 : ℚ) with h | h5
  · rw [eval4G_4 s h4 h, seval4G_4 s h4 h]
  rcases lt_or_le s (5.9 : ℚ) with h | h6
  · rw [eval4G_5 s h5 h, seval4G_5 s h5 h]
  rcases lt_or_le s (8.1 : ℚ) with h | h7
  · rw [eval4G_6 s h6 h, seval4G_6 s h6 h]
  rcases lt_or_le s (10.3 : ℚ) with h | h8
  · rw [eval4G_7 s h7 h, seval4G_7 s h7 h]
  rcases lt_or_le s (11.7 : ℚ) with h | h9
  · rw [eval4G_8 s h8 h, seval4G_8 s h8 h]
  rcases lt_or_le s (14.1 : ℚ) with h | h10
  · rw [eval4G_9 s h9 h, seval4G_9 s h9 h]
  rcases lt_or_le s (16.3 : ℚ) with h | h11
  · rw [eval4G_10 s h10 h, seval4G_10 s h10 h]
  rcases lt_or_le s (18.7 : ℚ) with h | h12
  · rw [eval4G_11 s h11 h, seval4G_11 s h11 h]
  rcases lt_or_le s (21 : ℚ) with h | h13
  · rw [eval4G_12 s h12 h, seval4G_12 s h12 h]
  rcases lt_or_le s (22.7 : ℚ) with h | h14
  · rw [eval4G_13 s h13 h, seval4G_13 s h13 h]
  rw [eval4G_sat s h14, seval4G_sat s h14]

/-- The `4G` step function is non-negative. -/
lemma se4G_nonneg (s : ℚ) : 0 ≤ se4G s := by
  rcases lt_or_le s (-6.7 : ℚ) with h | k0
  · rw [seval4G_floor s h]
  rcases lt_or_le s (-4.7 : ℚ) with h | k1
  · rw [seval4G_0 s k0 h]
    norm_num
  rcases lt_or_le s (-2.3 : ℚ) with h | k2
  · rw [seval4G_1 s k1 h]
    norm_num
  rcases lt_or_le s (0.2 : ℚ) with h | k3
  · rw [seval4G_2 s k2 h]
    norm_num
  rcases lt_or_le s (2.4 : ℚ) with h | k4
  · rw [seval4G_3 s k3 h]
    norm_num
  rcases lt_or_le s (4.3 : ℚ) with h | k5
  · rw [seval4G_4 s k4 h]
    norm_num
  rcases lt_or_le s (5.9 : ℚ) with h | k6
  · rw [seval4G_5 s k5 h]
    norm_num
  rcases lt_or_le s (8.1 : ℚ) with h | k7
  · rw [seval4G_6 s k6 h]
    norm_num
  rcases lt_or_le s (10.3 : ℚ) with h | k8
  · rw [seval4G_7 s k7 h]
    norm_num
  rcases lt_or_le s (11.7 : ℚ) with h | k9
  · rw [seval4G_8 s k8 h]
    norm_num
  rcases lt_or_le s (14.1 : ℚ) with h | k10
  · rw [seval4G_9 s k9 h]
    norm_num
  rcases lt_or_le s (16.3 : ℚ) with h | k11
  · rw [seval4G_10 s k10 h]
    norm_num
  rcases lt_or_le s (18.7 : ℚ) with h | k12
  · rw [seval4G_11 s k11 h]
    norm_num
  rcases lt_or_le s (21 : ℚ) with h | k13
  · rw [seval4G_12 s k12 h]
    norm_num
  rcases lt_or_le s (22.7 : ℚ) with h | k14
  · rw [seval4G_13 s k13 h]
    norm_num
  rw [seval4G_sat s k14]
  norm_num

/-- On the shipped table, `estimate_spectral_efficiency` for `5G` agrees with the plain step function everywhere. -/
lemma char5G (s : ℚ) :
    estimate_spectral_efficiency s "5G" (MODULATION_AND_CODING_LUT : List (MCEntry ℚ)) =
      Except.ok (some (se5G s)) := by
  rcases lt_or_le s (-6.7 : ℚ) with h | h0
  · rw [eval5G_floor s h, seval5G_floor s h]
  rcases lt_or_le s (-4.7 : ℚ) with h | h1
  · rw [eval5G_0 s h0 h, seval5G_0 s h0 h]
  rcases lt_or_le s (-2.3 : ℚ) with h | h2
  · rw [eval5G_1 s h1 h, seval5G_1 s h1 h]
  rcases lt_or_le s (0.2 : ℚ) with h | h3
  · rw [eval5G_2 s h2 h, seval5G_2 s h2 h]
  rcases lt_or_le s (2.4 : ℚ) with h | h4
  · rw [eval5G_3 s h3 h, seval5G_3 s h3 h]
  rcases lt_or_le s (4.3 : ℚ) with h | h5
  · rw [eval5G_4 s h4 h, seval5G_4 s h4 h]
  rcases lt_or_le s (5.9 : ℚ) with h | h6
  · rw [eval5G_5 s h5 h, seval5G_5 s h5 h]
  rcases lt_or_le s (8.1 : ℚ) with h | h7
  · rw [eval5G_6 s h6 h, seval5G_6 s h6 h]
  rcases lt_or_le s (10.3 : ℚ) with h | h8
  · rw [eval5G_7 s h7 h, seval5G_7 s h7 h]
  rcases lt_or_le s (11.7 : ℚ) with h | h9
  · rw [eval5G_8 s h8 h, seval5G_8 s h8 h]
  rcases lt_or_le s (14.1 : ℚ) with h | h10
  · rw [eval5G_9 s h9 h, seval5G_9 s h9 h]
  rcases lt_or_le s (16.3 : ℚ) with h | h11
  · rw [eval5G_10 s h10 h, seval5G_10 s h10 h]
  rcases lt_or_le s (18.7 : ℚ) with h | h12
  · rw [eval5G_11 s h11 h, seval5G_11 s h11 h]
  rcases lt_or_le s (21 : ℚ) with h | h13
  · rw [eval5G_12 s h12 h, seval5G_12 s h12 h]
  rcases lt_or_le s (22.7 : ℚ) with h | h14
  · rw [eval5G_13 s h13 h, seval5G_13 s h13 h]
  rw [eval5G_sat s h14, seval5G_sat s h14]

/-- The `5G` step function is non-negative. -/
lemma se5G_nonneg (s : ℚ) : 0 ≤ se5G s := by
  rcases lt_or_le s (-6.7 : ℚ) with h | k0
  · rw [seval5G_floor s h]
  rcases lt_or_le s (-4.7 : ℚ) with h | k1
  · rw [seval5G_0 s k0 h]
    norm_num
  rcases lt_or_le s (-2.3 : ℚ) with h | k2
  · rw [seval5G_1 s k1 h]
    norm_num
  rcases lt_or_le s (0.2 : ℚ) with h | k3
  · rw [seval5G_2 s k2 h]
    norm_num
  rcases lt_or_le s (2.4 : ℚ) with h | k4
  · rw [seval5G_3 s k3 h]
    norm_num
  rcases lt_or_le s (4.3 : ℚ) with h | k5
  · rw [seval5G_4 s k4 h]
    norm_num
  rcases lt_or_le s (5.9 : ℚ) with h | k6
  · rw [seval5G_5 s k5 h]
    norm_num
  rcases lt_or_le s (8.1 : ℚ) with h | k7
  · rw [seval5G_6 s k6 h]
    norm_num
  rcases lt_or_le s (10.3 : ℚ) with h | k8
  · rw [seval5G_7 s k7 h]
    norm_num
  rcases lt_or_le s (11.7 : ℚ) with h | k9
  · rw [seval5G_8 s k8 h]
    norm_num
  rcases lt_or_le s (14.1 : ℚ) with h | k10
  · rw [seval5G_9 s k9 h]
    norm_num
  rcases lt_or_le s (16.3 : ℚ) with h | k11
  · rw [seval5G_10 s k10 h]
    norm_num
  rcases lt_or_le s (18.7 : ℚ) with h | k12
  · rw [seval5G_11 s k11 h]
    norm_num
  rcases lt_or_le s (21 : ℚ) with h | k13
  · rw [seval5G_12 s k12 h]
    norm_num
  rcases lt_or_le s (22.7 : ℚ) with h | k14
  · rw [seval5G_13 s k13 h]
    norm_num
  rw [seval5G_sat s k14]
  norm_num

/-- The `4G` step function is monotonically non-decreasing. -/
lemma mono4G (s1 s2 : ℚ) (h : s1 ≤ s2) : se4G s1 ≤ se4G s2 := by
  rcases lt_or_le s1 (-6.7 : ℚ) with h0 | k0
  · rw [seval4G_floor s1 h0]
    exact se4G_nonneg s2
  rcases lt_or_le s1 (-4.7 : ℚ) with h1 | k1
  · rw [seval4G_0 s1 k0 h1]
    rcases lt_or_le s2 (-4.7 : ℚ) with m | n1
    · rw [seval4G_0 s2 (le_trans k0 h) m]
    rcases lt_or_le s2 (-2.3 : ℚ) with m | n2
    · rw [seval4G_1 s2 n1 m]
      norm_num
    rcases lt_or_le s2 (0.2 : ℚ) with m | n3
    · rw [seval4G_2 s2 n2 m]
      norm_num
    rcases lt_or_le s2 (2.4 : ℚ) with m | n4
    · rw [seval4G_3 s2 n3 m]
      norm_num
    rcases lt_or_le s2 (4.3 : ℚ) with m | n5
    · rw [seval4G_4 s2 n4 m]
      norm_num
    rcases lt_or_le s2 (5.9 : ℚ) with m | n6
    · rw [seval4G_5 s2 n5 m]
      norm_num
    rcases lt_or_le s2 (8.1 : ℚ) with m | n7
    · rw [seval4G_6 s2 n6 m]
      norm_num
    rcases lt_or_le s2 (10.3 : ℚ) with m | n8
    · rw [seval4G_7 s2 n7 m]
      norm_num
    rcases lt_or_le s2 (11.7 : ℚ) with m | n9
    · rw [seval4G_8 s2 n8 m]
      norm_num
    rcases lt_or_le s2 (14.1 : ℚ) with m | n10
    · rw [seval4G_9 s2 n9 m]
      norm_num
    rcases lt_or_le s2 (16.3 : ℚ) with m | n11
    · rw [seval4G_10 s2 n10 m]
      norm_num
    rcases lt_or_le s2 (18.7 : ℚ) with m | n12
    · rw [seval4G_11 s2 n11 m]
      norm_num
    rcases lt_or_le s2 (21 : ℚ) with m | n13
    · rw [seval4G_12 s2 n12 m]
      norm_num
    rcases lt_or_le s2 (22.7 : ℚ) with m | n14
    · rw [seval4G_13 s2 n13 m]
      norm_num
    rw [seval4G_sat s2 n14]
    norm_num
  rcases lt_or_le s1 (-2.3 : ℚ) with h1 | k2
  · rw [seval4G_1 s1 k1 h1]
    rcases lt_or_le s2 (-2.3 : ℚ) with m | n2
    · rw [seval4G_1 s2 (le_trans k1 h) m]
    rcases lt_or_le s2 (0.2 : ℚ) with m | n3
    · rw [seval4G_2 s2 n2 m]
      norm_num
    rcases lt_or_le s2 (2.4 : ℚ) with m | n4
    · rw [seval4G_3 s2 n3 m]
      norm_num
    rcases lt_or_le s2 (4.3 : ℚ) with m | n5
    · rw [seval4G_4 s2 n4 m]
      norm_num
    rcases lt_or_le s2 (5.9 : ℚ) with m | n6
    · rw [seval4G_5 s2 n5 m]
      norm_num
    rcases lt_or_le s2 (8.1 : ℚ) with m | n7
    · rw [seval4G_6 s2 n6 m]
      norm_num
    rcases lt_or_le s2 (10.3 : ℚ) with m | n8
    · rw [seval4G_7 s2 n7 m]
      norm_num
    rcases lt_or_le s2 (11.7 : ℚ) with m | n9
    · rw [seval4G_8 s2 n8 m]
      norm_num
    rcases lt_or_le s2 (14.1 : ℚ) with m | n10
    · rw [seval4G_9 s2 n9 m]
      norm_num
    rcases lt_or_le s2 (16.3 : ℚ) with m | n11
    · rw [seval4G_10 s2 n10 m]
      norm_num
    rcases lt_or_le s2 (18.7 : ℚ) with m | n12
    · rw [seval4G_11 s2 n11 m]
      norm_num
    rcases lt_or_le s2 (21 : ℚ) with m | n13
    · rw [seval4G_12 s2 n12 m]
      norm_num
    rcases lt_or_le s2 (22.7 : ℚ) with m | n14
    · rw [seval4G_13 s2 n13 m]
      norm_num
    rw [seval4G_sat s2 n14]
    norm_num
  rcases lt_or_le s1 (0.2 : ℚ) with h1 | k3
  · rw [seval4G_2 s1 k2 h1]
    rcases lt_or_le s2 (0.2 : ℚ) with m | n3
    · rw [seval4G_2 s2 (le_trans k2 h) m]
    rcases lt_or_le s2 (2.4 : ℚ) with m | n4
    · rw [seval4G_3 s2 n3 m]
      norm_num
    rcases lt_or_le s2 (4.3 : ℚ) with m | n5
    · rw [seval4G_4 s2 n4 m]
      norm_num
    rcases lt_or_le s2 (5.9 : ℚ) with m | n6
    · rw [seval4G_5 s2 n5 m]
      norm_num
    rcases lt_or_le s2 (8.1 : ℚ) with m | n7
    · rw [seval4G_6 s2 n6 m]
      norm_num
    rcases lt_or_le s2 (10.3 : ℚ) with m | n8
    · rw [seval4G_7 s2 n7 m]
      norm_num
    rcases lt_or_le s2 (11.7 : ℚ) with m | n9
    · rw [seval4G_8 s2 n8 m]
      norm_num
    rcases lt_or_le s2 (14.1 : ℚ) with m | n10
    · rw [seval4G_9 s2 n9 m]
      norm_num
    rcases lt_or_le s2 (16.3 : ℚ) with m | n11
    · rw [seval4G_10 s2 n10 m]
      norm_num
    rcases lt_or_le s2 (18.7 : ℚ) with m | n12
    · rw [seval4G_11 s2 n11 m]
      norm_num
    rcases lt_or_le s2 (21 : ℚ) with m | n13
    · rw [seval4G_12 s2 n12 m]
      norm_num
    rcases lt_or_le s2 (22.7 : ℚ) with m | n14
    · rw [seval4G_13 s2 n13 m]
      norm_num
    rw [seval4G_sat s2 n14]
    norm_num
  rcases lt_or_le s1 (2.4 : ℚ) with h1 | k4
  · rw [seval4G_3 s1 k3 h1]
    rcases lt_or_le s2 (2.4 : ℚ) with m | n4
    · rw [seval4G_3 s2 (le_trans k3 h) m]
    rcases lt_or_le s2 (4.3 : ℚ) with m | n5
    · rw [seval4G_4 s2 n4 m]
      norm_num
    rcases lt_or_le s2 (5.9 : ℚ) with m | n6
    · rw [seval4G_5 s2 n5 m]
      norm_num
    rcases lt_or_le s2 (8.1 : ℚ) with m | n7
    · rw [seval4G_6 s2 n6 m]
      norm_num
    rcases lt_or_le s2 (10.3 : ℚ) with m | n8
    · rw [seval4G_7 s2 n7 m]
      norm_num
    rcases lt_or_le s2 (11.7 : ℚ) with m | n9
    · rw [seval4G_8 s2 n8 m]
      norm_num
    rcases lt_or_le s2 (14.1 : ℚ) with m | n10
    · rw [seval4G_9 s2 n9 m]
      norm_num
    rcases lt_or_le s2 (16.3 : ℚ) with m | n11
    · rw [seval4G_10 s2 n10 m]
      norm_num
    rcases lt_or_le s2 (18.7 : ℚ) with m | n12
    · rw [seval4G_11 s2 n11 m]
      norm_num
    rcases lt_or_le s2 (21 : ℚ) with m | n13
    · rw [seval4G_12 s2 n12 m]
      norm_num
    rcases lt_or_le s2 (22.7 : ℚ) with m | n14
    · rw [seval4G_13 s2 n13 m]
      norm_num
    rw [seval4G_sat s2 n14]
    norm_num
  rcases lt_or_le s1 (4.3 : ℚ) with h1 | k5
  · rw [seval4G_4 s1 k4 h1]
    rcases lt_or_le s2 (4.3 : ℚ) with m | n5
    · rw [seval4G_4 s2 (le_trans k4 h) m]
    rcases lt_or_le s2 (5.9 : ℚ) with m | n6
    · rw [seval4G_5 s2 n5 m]
      norm_num
    rcases lt_or_le s2 (8.1 : ℚ) with m | n7
    · rw [seval4G_6 s2 n6 m]
      norm_num
    rcases lt_or_le s2 (10.3 : ℚ) with m | n8
    · rw [seval4G_7 s2 n7 m]
      norm_num
    rcases lt_or_le s2 (11.7 : ℚ) with m | n9
    · rw [seval4G_8 s2 n8 m]
      norm_num
    rcases lt_or_le s2 (14.1 : ℚ) with m | n10
    · rw [seval4G_9 s2 n9 m]
      norm_num
    rcases lt_or_le s2 (16.3 : ℚ) with m | n11
    · rw [seval4G_10 s2 n10 m]
      norm_num
    rcases lt_or_le s2 (18.7 : ℚ) with m | n12
    · rw [seval4G_11 s2 n11 m]
      norm_num
    rcases lt_or_le s2 (21 : ℚ) with m | n13
    · rw [seval4G_12 s2 n12 m]
      norm_num
    rcases lt_or_le s2 (22.7 : ℚ) with m | n14
    · rw [seval4G_13 s2 n13 m]
      norm_num
    rw [seval4G_sat s2 n14]
    norm_num
  rcases lt_or_le s1 (5.9 : ℚ) with h1 | k6
  · rw [seval4G_5 s1 k5 h1]
    rcases lt_or_le s2 (5.9 : ℚ) with m | n6
    · rw [seval4G_5 s2 (le_trans k5 h) m]
    rcases lt_or_le s2 (8.1 : ℚ) with m | n7
    · rw [seval4G_6 s2 n6 m]
      norm_num
    rcases lt_or_le s2 (10.3 : ℚ) with m | n8
    · rw [seval4G_7 s2 n7 m]
      norm_num
    rcases lt_or_le s2 (11.7 : ℚ) with m | n9
    · rw [seval4G_8 s2 n8 m]
      norm_num
    rcases lt_or_le s2 (14.1 : ℚ) with m | n10
    · rw [seval4G_9 s2 n9 m]
      norm_num
    rcases lt_or_le s2 (16.3 : ℚ) with m | n11
    · rw [seval4G_10 s2 n10 m]
      norm_num
    rcases lt_or_le s2 (18.7 : ℚ) with m | n12
    · rw [seval4G_11 s2 n11 m]
      norm_num
    rcases lt_or_le s2 (21 : ℚ) with m | n13
    · rw [seval4G_12 s2 n12 m]
      norm_num
    rcases lt_or_le s2 (22.7 : ℚ) with m | n14
    · rw [seval4G_13 s2 n13 m]
      norm_num
    rw [seval4G_sat s2 n14]
    norm_num
  rcases lt_or_le s1 (8.1 : ℚ) with h1 | k7
  · rw [seval4G_6 s1 k6 h1]
    rcases lt_or_le s2 (8.1 : ℚ) with m | n7
    · rw [seval4G_6 s2 (le_trans k6 h) m]
    rcases lt_or_le s2 (10.3 : ℚ) with m | n8
    · rw [seval4G_7 s2 n7 m]
      norm_num
    rcases lt_or_le s2 (11.7 : ℚ) with m | n9
    · rw [seval4G_8 s2 n8 m]
      norm_num
    rcases lt_or_le s2 (14.1 : ℚ) with m | n10
    · rw [seval4G_9 s2 n9 m]
      norm_num
    rcases lt_or_le s2 (16.3 : ℚ) with m | n11
    · rw [seval4G_10 s2 n10 m]
      norm_num
    rcases lt_or_le s2 (18.7 : ℚ) with m | n12
    · rw [seval4G_11 s2 n11 m]
      norm_num
    rcases lt_or_le s2 (21 : ℚ) with m | n13
    · rw [seval4G_12 s2 n12 m]
      norm_num
    rcases lt_or_le s2 (22.7 : ℚ) with m | n14
    · rw [seval4G_13 s2 n13 m]
      norm_num
    rw [seval4G_sat s2 n14]
    norm_num
  rcases lt_or_le s1 (10.3 : ℚ) with h1 | k8
  · rw [seval4G_7 s1 k7 h1]
    rcases lt_or_le s2 (10.3 : ℚ) with m | n8
    · rw [seval4G_7 s2 (le_trans k7 h) m]
    rcases lt_or_le s2 (11.7 : ℚ) with m | n9
    · rw [seval4G_8 s2 n8 m]
      norm_num
    rcases lt_or_le s2 (14.1 : ℚ) with m | n10
    · rw [seval4G_9 s2 n9 m]
      norm_num
    rcases lt_or_le s2 (16.3 : ℚ) with m | n11
    · rw [seval4G_10 s2 n10 m]
      norm_num
    rcases lt_or_le s2 (18.7 : ℚ) with m | n12
    · rw [seval4G_11 s2 n11 m]
      norm_num
    rcases lt_or_le s2 (21 : ℚ) with m | n13
    · rw [seval4G_12 s2 n12 m]
      norm_num
    rcases lt_or_le s2 (22.7 : ℚ) with m | n14
    · rw [seval4G_13 s2 n13 m]
      norm_num
    rw [seval4G_sat s2 n14]
    norm_num
  rcases lt_or_le s1 (11.7 : ℚ) with h1 | k9
  · rw [seval4G_8 s1 k8 h1]
    rcases lt_or_le s2 (11.7 : ℚ) with m | n9
    · rw [seval4G_8 s2 (le_trans k8 h) m]
    rcases lt_or_le s2 (14.1 : ℚ) with m | n10
    · rw [seval4G_9 s2 n9 m]
      norm_num
    rcases lt_or_le s2 (16.3 : ℚ) with m | n11
    · rw [seval4G_10 s2 n10 m]
      norm_num
    rcases lt_or_le s2 (18.7 : ℚ) with m | n12
    · rw [seval4G_11 s2 n11 m]
      norm_num
    rcases lt_or_le s2 (21 : ℚ) with m | n13
    · rw [seval4G_12 s2 n12 m]
      norm_num
    rcases lt_or_le s2 (22.7 : ℚ) with m | n14
    · rw [seval4G_13 s2 n13 m]
      norm_num
    rw [seval4G_sat s2 n14]
    norm_num
  rcases lt_or_le s1 (14.1 : ℚ) with h1 | k10
  · rw [seval4G_9 s1 k9 h1]
    rcases lt_or_le s2 (14.1 : ℚ) with m | n10
    · rw [seval4G_9 s2 (le_trans k9 h) m]
    rcases lt_or_le s2 (16.3 : ℚ) with m | n11
    · rw [seval4G_10 s2 n10 m]
      norm_num
    rcases lt_or_le s2 (18.7 : ℚ) with m | n12
    · rw [seval4G_11 s2 n11 m]
      norm_num
    rcases lt_or_le s2 (21 : ℚ) with m | n13
    · rw [seval4G_12 s2 n12 m]
      norm_num
    rcases lt_or_le s2 (22.7 : ℚ) with m | n14
    · rw [seval4G_13 s2 n13 m]
      norm_num
    rw [seval4G_sat s2 n14]
    norm_num
  rcases lt_or_le s1 (16.3 : ℚ) with h1 | k11
  · rw [seval4G_10 s1 k10 h1]
    rcases lt_or_le s2 (16.3 : ℚ) with m | n11
    · rw [seval4G_10 s2 (le_trans k10 h) m]
    rcases lt_or_le s2 (18.7 : ℚ) with m | n12
    · rw [seval4G_11 s2 n11 m]
      norm_num
    rcases lt_or_le s2 (21 : ℚ) with m | n13
    · rw [seval4G_12 s2 n12 m]
      norm_num
    rcases lt_or_le s2 (22.7 : ℚ) with m | n14
    · rw [seval4G_13 s2 n13 m]
      norm_num
    rw [seval4G_sat s2 n14]
    norm_num
  rcases lt_or_le s1 (18.7 : ℚ) with h1 | k12
  · rw [seval4G_11 s1 k11 h1]
    rcases lt_or_le s2 (18.7 : ℚ) with m | n12
    · rw [seval4G_11 s2 (le_trans k11 h) m]
    rcases lt_or_le s2 (21 : ℚ) with m | n13
    · rw [seval4G_12 s2 n12 m]
      norm_num
    rcases lt_or_le s2 (22.7 : ℚ) with m | n14
    · rw [seval4G_13 s2 n13 m]
      norm_num
    rw [seval4G_sat s2 n14]
    norm_num
  rcases lt_or_le s1 (21 : ℚ) with h1 | k13
  · rw [seval4G_12 s1 k12 h1]
    rcases lt_or_le s2 (21 : ℚ) with m | n13
    · rw [seval4G_12 s2 (le_trans k12 h) m]
    rcases lt_or_le s2 (22.7 : ℚ) with m | n14
    · rw [seval4G_13 s2 n13 m]
      norm_num
    rw [seval4G_sat s2 n14]
    norm_num
  rcases lt_or_le s1 (22.7 : ℚ) with h1 | k14
  · rw [seval4G_13 s1 k13 h1]
    rcases lt_or_le s2 (22.7 : ℚ) with m | n14
    · rw [seval4G_13 s2 (le_trans k13 h) m]
    rw [seval4G_sat s2 n14]
    norm_num
  rw [seval4G_sat s1 k14, seval4G_sat s2 (le_trans k14 h)]

/-- The `5G` step function is monotonically non-decreasing. -/
lemma mono5G (s1 s2 : ℚ) (h : s1 ≤ s2) : se5G s1 ≤ se5G s2 := by
  rcases lt_or_le s1 (-6.7 : ℚ) with h0 | k0
  · rw [seval5G_floor s1 h0]
    exact se5G_nonneg s2
  rcases lt_or_le s1 (-4.7 : ℚ) with h1 | k1
  · rw [seval5G_0 s1 k0 h1]
    rcases lt_or_le s2 (-4.7 : ℚ) with m | n1
    · rw [seval5G_0 s2 (le_trans k0 h) m]
    rcases lt_or_le s2 (-2.3 : ℚ) with m | n2
    · rw [seval5G_1 s2 n1 m]
      norm_num
    rcases lt_or_le s2 (0.2 : ℚ) with m | n3
    · rw [seval5G_2 s2 n2 m]
      norm_num
    rcases lt_or_le s2 (2.4 : ℚ) with m | n4
    · rw [seval5G_3 s2 n3 m]
      norm_num
    rcases lt_or_le s2 (4.3 : ℚ) with m | n5
    · rw [seval5G_4 s2 n4 m]
      norm_num
    rcases lt_or_le s2 (5.9 : ℚ) with m | n6
    · rw [seval5G_5 s2 n5 m]
      norm_num
    rcases lt_or_le s2 (8.1 : ℚ) with m | n7
    · rw [seval5G_6 s2 n6 m]
      norm_num
    rcases lt_or_le s2 (10.3 : ℚ) with m | n8
    · rw [seval5G_7 s2 n7 m]
      norm_num
    rcases lt_or_le s2 (11.7 : ℚ) with m | n9
    · rw [seval5G_8 s2 n8 m]
      norm_num
    rcases lt_or_le s2 (14.1 : ℚ) with m | n10
    · rw [seval5G_9 s2 n9 m]
      norm_num
    rcases lt_or_le s2 (16.3 : ℚ) with m | n11
    · rw [seval5G_10 s2 n10 m]
      norm_num
    rcases lt_or_le s2 (18.7 : ℚ) with m | n12
    · rw [seval5G_11 s2 n11 m]
      norm_num
    rcases lt_or_le s2 (21 : ℚ) with m | n13
    · rw [seval5G_12 s2 n12 m]
      norm_num
    rcases lt_or_le s2 (22.7 : ℚ) with m | n14
    · rw [seval5G_13 s2 n13 m]
      norm_num
    rw [seval5G_sat s2 n14]
    norm_num
  rcases lt_or_le s1 (-2.3 : ℚ) with h1 | k2
  · rw [seval5G_1 s1 k1 h1]
    rcases lt_or_le s2 (-2.3 : ℚ) with m | n2
    · rw [seval5G_1 s2 (le_trans k1 h) m]
    rcases lt_or_le s2 (0.2 : ℚ) with m | n3
    · rw [seval5G_2 s2 n2 m]
      norm_num
    rcases lt_or_le s2 (2.4 : ℚ) with m | n4
    · rw [seval5G_3 s2 n3 m]
      norm_num
    rcases lt_or_le s2 (4.3 : ℚ) with m | n5
    · rw [seval5G_4 s2 n4 m]
      norm_num
    rcases lt_or_le s2 (5.9 : ℚ) with m | n6
    · rw [seval5G_5 s2 n5 m]
      norm_num
    rcases lt_or_le s2 (8.1 : ℚ) with m | n7
    · rw [seval5G_6 s2 n6 m]
      norm_num
    rcases lt_or_le s2 (10.3 : ℚ) with m | n8
    · rw [seval5G_7 s2 n7 m]
      norm_num
    rcases lt_or_le s2 (11.7 : ℚ) with m | n9
    · rw [seval5G_8 s2 n8 m]
      norm_num
    rcases lt_or_le s2 (14.1 : ℚ) with m | n10
    · rw [seval5G_9 s2 n9 m]
      norm_num
    rcases lt_or_le s2 (16.3 : ℚ) with m | n11
    · rw [seval5G_10 s2 n10 m]
      norm_num
    rcases lt_or_le s2 (18.7 : ℚ) with m | n12
    · rw [seval5G_11 s2 n11 m]
      norm_num
    rcases lt_or_le s2 (21 : ℚ) with m | n13
    · rw [seval5G_12 s2 n12 m]
      norm_num
    rcases lt_or_le s2 (22.7 : ℚ) with m | n14
    · rw [seval5G_13 s2 n13 m]
      norm_num
    rw [seval5G_sat s2 n14]
    norm_num
  rcases lt_or_le s1 (0.2 : ℚ) with h1 | k3
  · rw [seval5G_2 s1 k2 h1]
    rcases lt_or_le s2 (0.2 : ℚ) with m | n3
    · rw [seval5G_2 s2 (le_trans k2 h) m]
    rcases lt_or_le s2 (2.4 : ℚ) with m | n4
    · rw [seval5G_3 s2 n3 m]
      norm_num
    rcases lt_or_le s2 (4.3 : ℚ) with m | n5
    · rw [seval5G_4 s2 n4 m]
      norm_num
    rcases lt_or_le s2 (5.9 : ℚ) with m | n6
    · rw [seval5G_5 s2 n5 m]
      norm_num
    rcases lt_or_le s2 (8.1 : ℚ) with m | n7
    · rw [seval5G_6 s2 n6 m]
      norm_num
    rcases lt_or_le s2 (10.3 : ℚ) with m | n8
    · rw [seval5G_7 s2 n7 m]
      norm_num
    rcases lt_or_le s2 (11.7 : ℚ) with m | n9
    · rw [seval5G_8 s2 n8 m]
      norm_num
    rcases lt_or_le s2 (14.1 : ℚ) with m | n10
    · rw [seval5G_9 s2 n9 m]
      norm_num
    rcases lt_or_le s2 (16.3 : ℚ) with m | n11
    · rw [seval5G_10 s2 n10 m]
      norm_num
    rcases lt_or_le s2 (18.7 : ℚ) with m | n12
    · rw [seval5G_11 s2 n11 m]
      norm_num
    rcases lt_or_le s2 (21 : ℚ) with m | n13
    · rw [seval5G_12 s2 n12 m]
      norm_num
    rcases lt_or_le s2 (22.7 : ℚ) with m | n14
    · rw [seval5G_13 s2 n13 m]
      norm_num
    rw [seval5G_sat s2 n14]
    norm_num
  rcases lt_or_le s1 (2.4 : ℚ) with h1 | k4
  · rw [seval5G_3 s1 k3 h1]
    rcases lt_or_le s2 (2.4 : ℚ) with m | n4
    · rw [seval5G_3 s2 (le_trans k3 h) m]
    rcases lt_or_le s2 (4.3 : ℚ) with m | n5
    · rw [seval5G_4 s2 n4 m]
      norm_num
    rcases lt_or_le s2 (5.9 : ℚ) with m | n6
    · rw [seval5G_5 s2 n5 m]
      norm_num
    rcases lt_or_le s2 (8.1 : ℚ) with m | n7
    · rw [seval5G_6 s2 n6 m]
      norm_num
    rcases lt_or_le s2 (10.3 : ℚ) with m | n8
    · rw [seval5G_7 s2 n7 m]
      norm_num
    rcases lt_or_le s2 (11.7 : ℚ) with m | n9
    · rw [seval5G_8 s2 n8 m]
      norm_num
    rcases lt_or_le s2 (14.1 : ℚ) with m | n10
    · rw [seval5G_9 s2 n9 m]
      norm_num
    rcases lt_or_le s2 (16.3 : ℚ) with m | n11
    · rw [seval5G_10 s2 n10 m]
      norm_num
    rcases lt_or_le s2 (18.7 : ℚ) with m | n12
    · rw [seval5G_11 s2 n11 m]
      norm_num
    rcases lt_or_le s2 (21 : ℚ) with m | n13
    · rw [seval5G_12 s2 n12 m]
      norm_num
    rcases lt_or_le s2 (22.7 : ℚ) with m | n14
    · rw [seval5G_13 s2 n13 m]
      norm_num
    rw [seval5G_sat s2 n14]
    norm_num
  rcases lt_or_le s1 (4.3 : ℚ) with h1 | k5
  · rw [seval5G_4 s1 k4 h1]
    rcases lt_or_le s2 (4.3 : ℚ) with m | n5
    · rw [seval5G_4 s2 (le_trans k4 h) m]
    rcases lt_or_le s2 (5.9 : ℚ) with m | n6
    · rw [seval5G_5 s2 n5 m]
      norm_num
    rcases lt_or_le s2 (8.1 : ℚ) with m | n7
    · rw [seval5G_6 s2 n6 m]
      norm_num
    rcases lt_or_le s2 (10.3 : ℚ) with m | n8
    · rw [seval5G_7 s2 n7 m]
      norm_num
    rcases lt_or_le s2 (11.7 : ℚ) with m | n9
    · rw [seval5G_8 s2 n8 m]
      norm_num
    rcases lt_or_le s2 (14.1 : ℚ) with m | n10
    · rw [seval5G_9 s2 n9 m]
      norm_num
    rcases lt_or_le s2 (16.3 : ℚ) with m | n11
    · rw [seval5G_10 s2 n10 m]
      norm_num
    rcases lt_or_le s2 (18.7 : ℚ) with m | n12
    · rw [seval5G_11 s2 n11 m]
      norm_num
    rcases lt_or_le s2 (21 : ℚ) with m | n13
    · rw [seval5G_12 s2 n12 m]
      norm_num
    rcases lt_or_le s2 (22.7 : ℚ) with m | n14
    · rw [seval5G_13 s2 n13 m]
      norm_num
    rw [seval5G_sat s2 n14]
    norm_num
  rcases lt_or_le s1 (5.9 : ℚ) with h1 | k6
  · rw [seval5G_5 s1 k5 h1]
    rcases lt_or_le s2 (5.9 : ℚ) with m | n6
    · rw [seval5G_5 s2 (le_trans k5 h) m]
    rcases lt_or_le s2 (8.1 : ℚ) with m | n7
    · rw [seval5G_6 s2 n6 m]
      norm_num
    rcases lt_or_le s2 (10.3 : ℚ) with m | n8
    · rw [seval5G_7 s2 n7 m]
      norm_num
    rcases lt_or_le s2 (11.7 : ℚ) with m | n9
    · rw [seval5G_8 s2 n8 m]
      norm_num
    rcases lt_or_le s2 (14.1 : ℚ) with m | n10
    · rw [seval5G_9 s2 n9 m]
      norm_num
    rcases lt_or_le s2 (16.3 : ℚ) with m | n11
    · rw [seval5G_10 s2 n10 m]
      norm_num
    rcases lt_or_le s2 (18.7 : ℚ) with m | n12
    · rw [seval5G_11 s2 n11 m]
      norm_num
    rcases lt_or_le s2 (21 : ℚ) with m | n13
    · rw [seval5G_12 s2 n12 m]
      norm_num
    rcases lt_or_le s2 (22.7 : ℚ) with m | n14
    · rw [seval5G_13 s2 n13 m]
      norm_num
    rw [seval5G_sat s2 n14]
    norm_num
  rcases lt_or_le s1 (8.1 : ℚ) with h1 | k7
  · rw [seval5G_6 s1 k6 h1]
    rcases lt_or_le s2 (8.1 : ℚ) with m | n7
    · rw [seval5G_6 s2 (le_trans k6 h) m]
    rcases lt_or_le s2 (10.3 : ℚ) with m | n8
    · rw [seval5G_7 s2 n7 m]
      norm_num
    rcases lt_or_le s2 (11.7 : ℚ) with m | n9
    · rw [seval5G_8 s2 n8 m]
      norm_num
    rcases lt_or_le s2 (14.1 : ℚ) with m | n10
    · rw [seval5G_9 s2 n9 m]
      norm_num
    rcases lt_or_le s2 (16.3 : ℚ) with m | n11
    · rw [seval5G_10 s2 n10 m]
      norm_num
    rcases lt_or_le s2 (18.7 : ℚ) with m | n12
    · rw [seval5G_11 s2 n11 m]
      norm_num
    rcases lt_or_le s2 (21 : ℚ) with m | n13
    · rw [seval5G_12 s2 n12 m]
      norm_num
    rcases lt_or_le s2 (22.7 : ℚ) with m | n14
    · rw [seval5G_13 s2 n13 m]
      norm_num
    rw [seval5G_sat s2 n14]
    norm_num
  rcases lt_or_le s1 (10.3 : ℚ) with h1 | k8
  · rw [seval5G_7 s1 k7 h1]
    rcases lt_or_le s2 (10.3 : ℚ) with m | n8
    · rw [seval5G_7 s2 (le_trans k7 h) m]
    rcases lt_or_le s2 (11.7 : ℚ) with m | n9
    · rw [seval5G_8 s2 n8 m]
      norm_num
    rcases lt_or_le s2 (14.1 : ℚ) with m | n10
    · rw [seval5G_9 s2 n9 m]
      norm_num
    rcases lt_or_le s2 (16.3 : ℚ) with m | n11
    · rw [seval5G_10 s2 n10 m]
      norm_num
    rcases lt_or_le s2 (18.7 : ℚ) with m | n12
    · rw [seval5G_11 s2 n11 m]
      norm_num
    rcases lt_or_le s2 (21 : ℚ) with m | n13
    · rw [seval5G_12 s2 n12 m]
      norm_num
    rcases lt_or_le s2 (22.7 : ℚ) with m | n14
    · rw [seval5G_13 s2 n13 m]
      norm_num
    rw [seval5G_sat s2 n14]
    norm_num
  rcases lt_or_le s1 (11.7 : ℚ) with h1 | k9
  · rw [seval5G_8 s1 k8 h1]
    rcases lt_or_le s2 (11.7 : ℚ) with m | n9
    · rw [seval5G_8 s2 (le_trans k8 h) m]
    rcases lt_or_le s2 (14.1 : ℚ) with m | n10
    · rw [seval5G_9 s2 n9 m]
      norm_num
    rcases lt_or_le s2 (16.3 : ℚ) with m | n11
    · rw [seval5G_10 s2 n10 m]
      norm_num
    rcases lt_or_le s2 (18.7 : ℚ) with m | n12
    · rw [seval5G_11 s2 n11 m]
      norm_num
    rcases lt_or_le s2 (21 : ℚ) with m | n13
    · rw [seval5G_12 s2 n12 m]
      norm_num
    rcases lt_or_le s2 (22.7 : ℚ) with m | n14
    · rw [seval5G_13 s2 n13 m]
      norm_num
    rw [seval5G_sat s2 n14]
    norm_num
  rcases lt_or_le s1 (14.1 : ℚ) with h1 | k10
  · rw [seval5G_9 s1 k9 h1]
    rcases lt_or_le s2 (14.1 : ℚ) with m | n10
    · rw [seval5G_9 s2 (le_trans k9 h) m]
    rcases lt_or_le s2 (16.3 : ℚ) with m | n11
    · rw [seval5G_10 s2 n10 m]
      norm_num
    rcases lt_or_le s2 (18.7 : ℚ) with m | n12
    · rw [seval5G_11 s2 n11 m]
      norm_num
    rcases lt_or_le s2 (21 : ℚ) with m | n13
    · rw [seval5G_12 s2 n12 m]
      norm_num
    rcases lt_or_le s2 (22.7 : ℚ) with m | n14
    · rw [seval5G_13 s2 n13 m]
      norm_num
    rw [seval5G_sat s2 n14]
    norm_num
  rcases lt_or_le s1 (16.3 : ℚ) with h1 | k11
  · rw [seval5G_10 s1 k10 h1]
    rcases lt_or_le s2 (16.3 : ℚ) with m | n11
    · rw [seval5G_10 s2 (le_trans k10 h) m]
    rcases lt_or_le s2 (18.7 : ℚ) with m | n12
    · rw [seval5G_11 s2 n11 m]
      norm_num
    rcases lt_or_le s2 (21 : ℚ) with m | n13
    · rw [seval5G_12 s2 n12 m]
      norm_num
    rcases lt_or_le s2 (22.7 : ℚ) with m | n14
    · rw [seval5G_13 s2 n13 m]
      norm_num
    rw [seval5G_sat s2 n14]
    norm_num
  rcases lt_or_le s1 (18.7 : ℚ) with h1 | k12
  · rw [seval5G_11 s1 k11 h1]
    rcases lt_or_le s2 (18.7 : ℚ) with m | n12
    · rw [seval5G_11 s2 (le_trans k11 h) m]
    rcases lt_or_le s2 (21 : ℚ) with m | n13
    · rw [seval5G_12 s2 n12 m]
      norm_num
    rcases lt_or_le s2 (22.7 : ℚ) with m | n14
    · rw [seval5G_13 s2 n13 m]
      norm_num
    rw [seval5G_sat s2 n14]
    norm_num
  rcases lt_or_le s1 (21 : ℚ) with h1 | k13
  · rw [seval5G_12 s1 k12 h1]
    rcases lt_or_le s2 (21 : ℚ) with m | n13
    · rw [seval5G_12 s2 (le_trans k12 h) m]
    rcases lt_or_le s2 (22.7 : ℚ) with m | n14
    · rw [seval5G_13 s2 n13 m]
      norm_num
    rw [seval5G_sat s2 n14]
    norm_num
  rcases lt_or_le s1 (22.7 : ℚ) with h1 | k14
  · rw [seval5G_13 s1 k13 h1]
    rcases lt_or_le s2 (22.7 : ℚ) with m | n14
    · rw [seval5G_13 s2 (le_trans k13 h) m]
    rw [seval5G_sat s2 n14]
    norm_num
  rw [seval5G_sat s1 k14, seval5G_sat s2 (le_trans k14 h)]


/-- Generic bound: a successful `listAt` index is below the list length. -/
lemma listAt_lt_length {α : Type} : ∀ (l : List α) (i : ℕ) (a : α), listAt l i = some a → i < l.length := by
  intro l
  induction l with
  | nil => intro i a h; exact absurd h (by simp [listAt])
  | cons b t ih =>
    intro i a h
    cases i with
    | zero => simp
    | succ n => exact Nat.succ_lt_succ (ih n a h)

/-- Any in-block consecutive pair of the shipped table determines the lookup value on its interval. -/
lemma shipped_pair_lookup (g : String) (s : ℚ) (i : ℕ) (lower upper : MCEntry ℚ)
    (h1 : listAt (MODULATION_AND_CODING_LUT : List (MCEntry ℚ)) i = some lower)
    (h2 : listAt (MODULATION_AND_CODING_LUT : List (MCEntry ℚ)) (i + 1) = some upper)
    (hg1 : lower.generation = g) (hg2 : upper.generation = g)
    (hs1 : lower.sinr ≤ s) (hs2 : s < upper.sinr) :
    estimate_spectral_efficiency s g (MODULATION_AND_CODING_LUT : List (MCEntry ℚ)) =
      Except.ok (some lower.spectral_efficiency) := by
  have hlen : i + 1 < 30 := by
    have hb := listAt_lt_length (MODULATION_AND_CODING_LUT : List (MCEntry ℚ)) (i + 1) upper h2
    simpa [listAt, MODULATION_AND_CODING_LUT] using hb
  have hle : i ≤ 28 := by omega
  interval_cases i
  · injection h1 with h1e
    injection h2 with h2e
    subst h1e; subst h2e
    subst hg1
    exact eval4G_0 s hs1 hs2
  · injection h1 with h1e
    injection h2 with h2e
    subst h1e; subst h2e
    subst hg1
    exact eval4G_1 s hs1 hs2
  · injection h1 with h1e
    injection h2 with h2e
    subst h1e; subst h2e
    subst hg1
    exact eval4G_2 s hs1 hs2
  · injection h1 with h1e
    injection h2 with h2e
    subst h1e; subst h2e
    subst hg1
    exact eval4G_3 s hs1 hs2
  · injection h1 with h1e
    injection h2 with h2e
    subst h1e; subst h2e
    subst hg1
    exact eval4G_4 s hs1 hs2
  · injection h1 with h1e
    injection h2 with h2e
    subst h1e; subst h2e
    subst hg1
    exact eval4G_5 s hs1 hs2
  · injection h1 with h1e
    injection h2 with h2e
    subst h1e; subst h2e
    subst hg1
    exact eval4G_6 s hs1 hs2
  · injection h1 with h1e
    injection h2 with h2e
    subst h1e; subst h2e
    subst hg1
    exact eval4G_7 s hs1 hs2
  · injection h1 with h1e
    injection h2 with h2e
    subst h1e; subst h2e
    subst hg1
    exact eval4G_8 s hs1 hs2
  · injection h1 with h1e
    injection h2 with h2e
    subst h1e; subst h2e
    subst hg1
    exact eval4G_9 s hs1 hs2
  · injection h1 with h1e
    injection h2 with h2e
    subst h1e; subst h2e
    subst hg1
    exact eval4G_10 s hs1 hs2
  · injection h1 with h1e
    injection h2 with h2e
    subst h1e; subst h2e
    subst hg1
    exact eval4G_11 s hs1 hs2
  · injection h1 with h1e
    injection h2 with h2e
    subst h1e; subst h2e
    subst hg1
    exact eval4G_12 s hs1 hs2
  · injection h1 with h1e
    injection h2 with h2e
    subst h1e; subst h2e
    subst hg1
    exact eval4G_13 s hs1 hs2
  · injection h1 with h1e
    injection h2 with h2e
    subst h1e; subst h2e
    exact absurd (hg1.trans hg2.symm) (by decide)
  · injection h1 with h1e
    injection h2 with h2e
    subst h1e; subst h2e
    subst hg1
    exact eval5G_0 s hs1 hs2
  · injection h1 with h1e
    injection h2 with h2e
    subst h1e; subst h2e
    subst hg1
    exact eval5G_1 s hs1 hs2
  · injection h1 with h1e
    injection h2 with h2e
    subst h1e; subst h2e
    subst hg1
    exact eval5G_2 s hs1 hs2
  · injection h1 with h1e
    injection h2 with h2e
    subst h1e; subst h2e
    subst hg1
    exact eval5G_3 s hs1 hs2
  · injection h1 with h1e
    injection h2 with h2e
    subst h1e; subst h2e
    subst hg1
    exact eval5G_4 s hs1 hs2
  · injection h1 with h1e
    injection h2 with h2e
    subst h1e; subst h2e
    subst hg1
    exact eval5G_5 s hs1 hs2
  · injection h1 with h1e
    injection h2 with h2e
    subst h1e; subst h2e
    subst hg1
    exact eval5G_6 s hs1 hs2
  · injection h1 with h1e
    injection h2 with h2e
    subst h1e; subst h2e
    subst hg1
    exact eval5G_7 s hs1 hs2
  · injection h1 with h1e
    injection h2 with h2e
    subst h1e; subst h2e
    subst hg1
    exact eval5G_8 s hs1 hs2
  · injection h1 with h1e
    injection h2 with h2e
    subst h1e; subst h2e
    subst hg1
    exact eval5G_9 s hs1 hs2
  · injection h1 with h1e
    injection h2 with h2e
    subst h1e; subst h2e
    subst hg1
    exact eval5G_10 s hs1 hs2
  · injection h1 with h1e
    injection h2 with h2e
    subst h1e; subst h2e
    subst hg1
    exact eval5G_11 s hs1 hs2
  · injection h1 with h1e
    injection h2 with h2e
    subst h1e; subst h2e
    subst hg1
    exact eval5G_12 s hs1 hs2
  · injection h1 with h1e
    injection h2 with h2e
    subst h1e; subst h2e
    subst hg1
    exact eval5G_13 s hs1 hs2

end LookupLemmas

noncomputable section ClaimProofs

section SortHelpers

/-- Raising 10 to a real exponent preserves the descending order used by the sort. -/
lemma rpow_ge_mono : ∀ a b : ℝ, a ≥ b → (10 : ℝ) ^ a ≥ (10 : ℝ) ^ b :=
  fun _ _ h => Real.rpow_le_rpow_of_exponent_le (by norm_num) h

/-- Sorting commutes with mapping a monotone function. -/
lemma sort_map_rpow (l : List ℝ) :
    (l.map fun value => (10 : ℝ) ^ value).insertionSort (· ≥ ·) =
      (l.insertionSort (· ≥ ·)).map fun value => (10 : ℝ) ^ value := by
  refine List.eq_of_perm_of_sorted ?_ (List.sorted_insertionSort _ _) ?_
  · exact (List.perm_insertionSort _ _).trans
      (((List.perm_insertionSort (· ≥ ·) l).symm).map _)
  · exact List.Pairwise.map _ (fun a b h => rpow_ge_mono a b h)
      (List.sorted_insertionSort _ l)

/-- Keeping only the three strongest dB values before the linear conversion
does not change the three strongest linear magnitudes. -/
lemma take3_sort_map_top3 (l : List ℝ) :
    ((((l.insertionSort (· ≥ ·)).take 3).map fun value => (10 : ℝ) ^ value).insertionSort
        (· ≥ ·)).take 3 =
      ((l.map fun value => (10 : ℝ) ^ value).insertionSort (· ≥ ·)).take 3 := by
  rw [sort_map_rpow ((l.insertionSort (· ≥ ·)).take 3)]
  have hs : ((l.insertionSort (· ≥ ·)).take 3).Sorted (· ≥ ·) :=
    List.Pairwise.sublist (List.take_sublist 3 _) (List.sorted_insertionSort _ l)
  rw [List.Sorted.insertionSort_eq hs, sort_map_rpow l, List.map_take, List.take_take,
    min_self]

/-- The sorted linear interference list only depends on the multiset of inputs. -/
lemma sort_map_perm (l1 l2 : List ℝ) (hp : List.Perm l1 l2) :
    (l1.map fun value => (10 : ℝ) ^ value).insertionSort (· ≥ ·) =
      (l2.map fun value => (10 : ℝ) ^ value).insertionSort (· ≥ ·) :=
  List.eq_of_perm_of_sorted
    ((List.perm_insertionSort _ _).trans ((hp.map _).trans (List.perm_insertionSort _ _).symm))
    (List.sorted_insertionSort _ _) (List.sorted_insertionSort _ _)

end SortHelpers

/-- The Euclidean length of the segment from the origin to (6, 8) is 10. -/
lemma lineLength_origin_68 : lineLength ((0 : ℝ), 0) (6, 8) = 10 := by
  show Real.sqrt (((0 : ℝ) - 6) ^ 2 + ((0 : ℝ) - 8) ^ 2) = 10
  rw [show ((0 : ℝ) - 6) ^ 2 + ((0 : ℝ) - 8) ^ 2 = 10 ^ 2 by norm_num]
  exact Real.sqrt_sq (by norm_num)

/-- If no pair of the sliding window passes the generation guard, the lookup
loop falls off the end and returns Python `None`. -/
lemma seLoop_of_no_match {α : Type} [LinearOrderedField α] (s : α) (g : String)
    (lut : List (MCEntry α)) :
    ∀ ps : List (MCEntry α × MCEntry α),
      (∀ p ∈ ps, p.1.generation = "" ∨ ¬ p.2.generation = g) →
      seLoop s g lut ps = Except.ok Option.none := by
  intro ps
  induction ps with
  | nil => intro _; rfl
  | cons p rest ih =>
    intro h
    rcases p with ⟨lo, hi⟩
    have hstep : seStep s g lut lo hi = Option.none := by
      rcases h _ (List.mem_cons_self _ _) with h' | h'
      · have h'' : lo.generation = "" := h'
        simp [seStep, h'']
      · have h'' : ¬ hi.generation = g := h'
        simp [seStep, h'']
    simp only [seLoop, hstep]
    exact ih fun q hq => h q (List.mem_cons_of_mem _ hq)

/-- Transmitters built from the same antenna type and parameter set carry the
same power, gain and losses. -/
lemma mkTransmitter_same_params (d1 d2 : TxData) (a : String) (p : SimParams)
    (t1 t2 : Transmitter)
    (h1 : mkTransmitter d1 a p = some t1) (h2 : mkTransmitter d2 a p = some t2) :
    t1.power = t2.power ∧ t1.gain = t2.gain ∧ t1.losses = t2.losses := by
  unfold mkTransmitter at h1 h2
  split_ifs at h1 h2 <;>
    first
      | (injection h1 with h1e
         injection h2 with h2e
         subst h1e
         subst h2e
         exact ⟨rfl, rfl, rfl⟩)
      | exact absurd h1 (by simp)

/-- Every constructed interfering transmitter comes from some input datum with
the same antenna type and parameter set. -/
lemma mkInterferers_mem (a : String) (p : SimParams) :
    ∀ (ds : List TxData) (ts : List Transmitter),
      mkInterferers ds a p = some ts →
      ∀ t ∈ ts, ∃ d, mkTransmitter d a p = some t := by
  intro ds
  induction ds with
  | nil =>
    intro ts h t ht
    injection h with h'
    subst h'
    exact absurd ht (List.not_mem_nil t)
  | cons d rest ih =>
    intro ts h t ht
    rcases hm1 : mkTransmitter d a p with _ | t0
    · rw [mkInterferers, hm1] at h
      exact absurd h (by simp)
    rcases hm2 : mkInterferers rest a p with _ | ts0
    · rw [mkInterferers, hm1, hm2] at h
      exact absurd h (by simp)
    rw [mkInterferers, hm1, hm2] at h
    injection h with h'
    subst h'
    rcases List.mem_cons.mp ht with rfl | ht'
    · exact ⟨d, hm1⟩
    · exact ih ts0 hm2 t ht'

/-- In any constructed `SimulationManager`, every interfering transmitter has
the same power, gain and losses as the serving transmitter. -/
lemma mkSimulationManager_interferer_params (txs itxs : List TxData) (a : String)
    (rxs : List RxData) (sas : List SiteAreaData) (p : SimParams)
    (mgr : SimulationManager)
    (h : mkSimulationManager txs itxs a rxs sas p = some mgr) :
    ∀ t ∈ mgr.interfering_transmitters,
      t.power = mgr.transmitter.power ∧ t.gain = mgr.transmitter.gain ∧
        t.losses = mgr.transmitter.losses := by
  unfold mkSimulationManager at h
  rcases h0 : txs.head? with _ | t0
  · simp only [h0] at h
    exact Option.noConfusion h
  rcases hsa : sas.head? with _ | sa0
  · simp only [h0, hsa] at h
    exact Option.noConfusion h
  rcases hm1 : mkTransmitter t0 a p with _ | tx
  · simp only [h0, hsa, hm1] at h
    exact Option.noConfusion h
  rcases hm2 : mkInterferers itxs a p with _ | itl
  · simp only [h0, hsa, hm1, hm2] at h
    exact Option.noConfusion h
  simp only [h0, hsa, hm1, hm2, Option.some.injEq] at h
  subst h
  intro t ht
  obtain ⟨d, hd⟩ := mkInterferers_mem a p itxs itl hm2 t ht
  exact mkTransmitter_same_params d t0 a p t tx hd hm1

/-- Claim C1: on the shipped table, the lookup returns the lower entry's spectral
efficiency on each in-block interval `[lower.sinr, upper.sinr)`, the block
maximum at or above the top threshold (22.7 dB), zero below the bottom
threshold (-6.7 dB); and the three spec scenarios evaluate as stated. -/
theorem spectral_efficiency_lookup_correct :
    (∀ (g : String) (s : ℚ) (i : ℕ) (lower upper : MCEntry ℚ),
      listAt (MODULATION_AND_CODING_LUT : List (MCEntry ℚ)) i = some lower →
      listAt (MODULATION_AND_CODING_LUT : List (MCEntry ℚ)) (i + 1) = some upper →
      lower.generation = g → upper.generation = g →
      lower.sinr ≤ s → s < upper.sinr →
      estimate_spectral_efficiency s g (MODULATION_AND_CODING_LUT : List (MCEntry ℚ)) =
        Except.ok (some lower.spectral_efficiency)) ∧
    (∀ s : ℚ, (22.7 : ℚ) ≤ s →
      estimate_spectral_efficiency s "4G" (MODULATION_AND_CODING_LUT : List (MCEntry ℚ)) =
          Except.ok (some (5.5547 : ℚ)) ∧
      estimate_spectral_efficiency s "5G" (MODULATION_AND_CODING_LUT : List (MCEntry ℚ)) =
          Except.ok (some (50.00 : ℚ))) ∧
    (∀ s : ℚ, s < (-6.7 : ℚ) →
      estimate_spectral_efficiency s "4G" (MODULATION_AND_CODING_LUT : List (MCEntry ℚ)) =
          Except.ok (some (0 : ℚ)) ∧
      estimate_spectral_efficiency s "5G" (MODULATION_AND_CODING_LUT : List (MCEntry ℚ)) =
          Except.ok (some (0 : ℚ))) ∧
    estimate_spectral_efficiency (0 : ℚ) "5G" (MODULATION_AND_CODING_LUT : List (MCEntry ℚ)) =
      Except.ok (some (4.42 : ℚ)) ∧
    estimate_spectral_efficiency (100 : ℚ) "5G" (MODULATION_AND_CODING_LUT : List (MCEntry ℚ)) =
      Except.ok (some (50.00 : ℚ)) ∧
    estimate_spectral_efficiency (-10 : ℚ) "5G" (MODULATION_AND_CODING_LUT : List (MCEntry ℚ)) =
      Except.ok (some (0 : ℚ)) :=
  ⟨shipped_pair_lookup,
   fun s h => ⟨eval4G_sat s h, eval5G_sat s h⟩,
   fun s h => ⟨eval4G_floor s h, eval5G_floor s h⟩,
   eval5G_2 0 (by norm_num) (by norm_num),
   eval5G_sat 100 (by norm_num),
   eval5G_floor (-10) (by norm_num)⟩

/-- Witness for C1 at concrete inputs. -/
theorem spectral_efficiency_lookup_correct_witness :
    estimate_spectral_efficiency (0 : ℚ) "5G" (MODULATION_AND_CODING_LUT : List (MCEntry ℚ)) =
      Except.ok (some ((⟨"5G", "8x8", 3, "QPSK", 449, 4.42, -2.3⟩ : MCEntry ℚ).spectral_efficiency)) ∧
    estimate_spectral_efficiency (23 : ℚ) "4G" (MODULATION_AND_CODING_LUT : List (MCEntry ℚ)) =
      Except.ok (some (5.5547 : ℚ)) ∧
    estimate_spectral_efficiency (-7 : ℚ) "5G" (MODULATION_AND_CODING_LUT : List (MCEntry ℚ)) =
      Except.ok (some (0 : ℚ)) :=
  ⟨spectral_efficiency_lookup_correct.1 "5G" 0 17 _ _ rfl rfl rfl rfl (by norm_num) (by norm_num),
   (spectral_efficiency_lookup_correct.2.1 23 (by norm_num)).1,
   ((spectral_efficiency_lookup_correct.2.2.1 (-7) (by norm_num)).2)⟩

/-- Claim C9: within either generation block of the shipped table, the looked-up
spectral efficiency is monotonically non-decreasing in the SINR. -/
theorem spectral_efficiency_monotone :
    ∀ (g : String), (g = "4G" ∨ g = "5G") →
    ∀ (s1 s2 : ℚ), s1 ≤ s2 →
    ∃ v1 v2 : ℚ,
      estimate_spectral_efficiency s1 g (MODULATION_AND_CODING_LUT : List (MCEntry ℚ)) =
        Except.ok (some v1) ∧
      estimate_spectral_efficiency s2 g (MODULATION_AND_CODING_LUT : List (MCEntry ℚ)) =
        Except.ok (some v2) ∧
      v1 ≤ v2 := by
  rintro g (rfl | rfl) s1 s2 h
  · exact ⟨se4G s1, se4G s2, char4G s1, char4G s2, mono4G s1 s2 h⟩
  · exact ⟨se5G s1, se5G s2, char5G s1, char5G s2, mono5G s1 s2 h⟩

/-- Witness for C9 at concrete inputs. -/
theorem spectral_efficiency_monotone_witness :
    ∃ v1 v2 : ℚ,
      estimate_spectral_efficiency (0 : ℚ) "4G" (MODULATION_AND_CODING_LUT : List (MCEntry ℚ)) =
        Except.ok (some v1) ∧
      estimate_spectral_efficiency (1 : ℚ) "4G" (MODULATION_AND_CODING_LUT : List (MCEntry ℚ)) =
        Except.ok (some v2) ∧
      v1 ≤ v2 :=
  spectral_efficiency_monotone "4G" (Or.inl rfl) 0 1 (by decide)

/-- Claim C6 (amended): when no sliding-window pair passes the generation guard,
`estimate_spectral_efficiency` returns Python `None` (no exception is raised
and the 0.1 initialisation value is never returned). -/
theorem spectral_efficiency_no_match_returns_none {α : Type} [LinearOrderedField α]
    (s : α) (g : String) (lut : List (MCEntry α))
    (h : ∀ p ∈ pairwise lut, p.1.generation = "" ∨ ¬ p.2.generation = g) :
    estimate_spectral_efficiency s g lut = Except.ok Option.none :=
  seLoop_of_no_match s g lut (pairwise lut) h

/-- Witness for the amended C6: generation "3G" against the shipped table. -/
theorem spectral_efficiency_no_match_returns_none_witness :
    estimate_spectral_efficiency (0 : ℚ) "3G" (MODULATION_AND_CODING_LUT : List (MCEntry ℚ)) =
      Except.ok Option.none :=
  spectral_efficiency_no_match_returns_none 0 "3G" _ (by decide)

/-- Claim C6 (counterexample to the claim as stated): for generation "3G" no pair of
the shipped table matches, yet the function surfaces no error at all - it
returns `None`. -/
theorem spectral_efficiency_no_match_counterexample :
    (∀ p ∈ pairwise (MODULATION_AND_CODING_LUT : List (MCEntry ℚ)),
      ¬(¬ p.1.generation = "" ∧ p.2.generation = "3G")) ∧
    estimate_spectral_efficiency (0 : ℚ) "3G" (MODULATION_AND_CODING_LUT : List (MCEntry ℚ)) =
      Except.ok Option.none ∧
    ∀ e : PyErr,
      estimate_spectral_efficiency (0 : ℚ) "3G" (MODULATION_AND_CODING_LUT : List (MCEntry ℚ)) ≠
        Except.error e := by
  have hn : estimate_spectral_efficiency (0 : ℚ) "3G"
      (MODULATION_AND_CODING_LUT : List (MCEntry ℚ)) = Except.ok Option.none :=
    seLoop_of_no_match 0 "3G" _ _ (by decide)
  refine ⟨by decide, hn, ?_⟩
  intro e h
  rw [hn] at h
  exact Except.noConfusion h

/-- Claim C5: the function `estimate_sinr` sorts the linear interference magnitudes descending,
keeps the strongest three, scales their sum by `network_load / 100`, adds the
linear noise, and returns the rounded base-10 log of the ratio; consequently
its output only depends on the multiset of interference entries and is
unchanged when everything but the three strongest entries is dropped. -/
theorem estimate_sinr_top3_truncation :
    (∀ (received_power noise : ℝ) (interference : List ℝ) (p : SimParams),
      estimate_sinr received_power interference noise p =
        (received_power,
         ((((interference.map fun value => (10 : ℝ) ^ value).insertionSort
              (· ≥ ·)).take 3).sum) * (p.network_load / 100),
         noise,
         ((((interference.map fun value => (10 : ℝ) ^ value).insertionSort
              (· ≥ ·)).take 3).sum) * (p.network_load / 100) + (10 : ℝ) ^ noise,
         pyRound2 (Real.logb 10 ((10 : ℝ) ^ received_power /
           (((((interference.map fun value => (10 : ℝ) ^ value).insertionSort
                (· ≥ ·)).take 3).sum) * (p.network_load / 100) + (10 : ℝ) ^ noise))))) ∧
    (∀ (received_power noise : ℝ) (p : SimParams) (l1 l2 : List ℝ), List.Perm l1 l2 →
      estimate_sinr received_power l1 noise p = estimate_sinr received_power l2 noise p) ∧
    (∀ (received_power noise : ℝ) (p : SimParams) (l : List ℝ),
      estimate_sinr received_power ((l.insertionSort (· ≥ ·)).take 3) noise p =
        estimate_sinr received_power l noise p) := by
  refine ⟨fun _ _ _ _ => rfl, fun rp n p l1 l2 hp => ?_, fun rp n p l => ?_⟩
  · unfold estimate_sinr
    rw [sort_map_perm l1 l2 hp]
  · unfold estimate_sinr
    rw [take3_sort_map_top3 l]

/-- Witness for C5: swapping the two interference entries leaves the output
unchanged. -/
theorem estimate_sinr_top3_truncation_witness :
    estimate_sinr 0 [(1 : ℝ), 2] 3 sampleParams = estimate_sinr 0 [2, 1] 3 sampleParams :=
  estimate_sinr_top3_truncation.2.1 0 3 sampleParams [1, 2] [2, 1] (List.Perm.swap 2 1 [])

/-- Claim C3 (counterexample to the claim as stated): the code converts dB values
with `10 ** value`, not `10 ** (value / 10)`; at received power 0 dBm, noise
1 dB and no interference the two conventions give different outputs. -/
theorem sinr_conversion_counterexample :
    estimate_sinr 0 [] 1 sampleParams ≠ estimate_sinr_claimedconv 0 [] 1 sampleParams := by
  intro h
  have h4 : (estimate_sinr 0 [] 1 sampleParams).2.2.2.1 =
      (estimate_sinr_claimedconv 0 [] 1 sampleParams).2.2.2.1 :=
    congrArg (fun t : ℝ × ℝ × ℝ × ℝ × ℝ => t.2.2.2.1) h
  have e1 : (estimate_sinr 0 [] 1 sampleParams).2.2.2.1 = (10 : ℝ) ^ (1 : ℝ) := by
    simp [estimate_sinr]
  have e2 : (estimate_sinr_claimedconv 0 [] 1 sampleParams).2.2.2.1 =
      (10 : ℝ) ^ ((1 : ℝ) / 10) := by
    simp [estimate_sinr_claimedconv]
  rw [e1, e2] at h4
  have hlt : (10 : ℝ) ^ ((1 : ℝ) / 10) < (10 : ℝ) ^ (1 : ℝ) :=
    Real.rpow_lt_rpow_of_exponent_lt (by norm_num) (by norm_num)
  exact absurd h4 (ne_of_gt hlt)

/-- Claim C3 (amended): in `estimate_sinr` the received power, every interference
entry and the noise are converted to linear magnitudes via `10 ^ value`
(no division by 10) before the SINR ratio is formed. -/
theorem sinr_uses_ten_pow_value :
    ∀ (received_power noise : ℝ) (interference : List ℝ) (p : SimParams),
      estimate_sinr received_power interference noise p =
        (received_power,
         ((((interference.map fun value => (10 : ℝ) ^ value).insertionSort
              (· ≥ ·)).take 3).sum) * (p.network_load / 100),
         noise,
         ((((interference.map fun value => (10 : ℝ) ^ value).insertionSort
              (· ≥ ·)).take 3).sum) * (p.network_load / 100) + (10 : ℝ) ^ noise,
         pyRound2 (Real.logb 10 ((10 : ℝ) ^ received_power /
           (((((interference.map fun value => (10 : ℝ) ^ value).insertionSort
                (· ≥ ·)).take 3).sum) * (p.network_load / 100) + (10 : ℝ) ^ noise)))) :=
  fun _ _ _ _ => rfl

/-- Claim C8 (counterexample to the claim as stated): `estimate_noise` uses
`k = 1.38e-23`, not the CODATA value `1.380649e-23` named by the spec. -/
theorem noise_constant_counterexample :
    estimate_noise 10 ≠
      10 * Real.logb 10 ((1.380649e-23 : ℝ) * 290 * 1000) + 1.5 +
        10 * Real.logb 10 (10 * 1000000) := by
  intro h
  have hlt : Real.logb 10 ((1.38e-23 : ℝ) * 290 * 1000) <
      Real.logb 10 ((1.380649e-23 : ℝ) * 290 * 1000) :=
    Real.logb_lt_logb (by norm_num) (by norm_num) (by norm_num)
  simp only [estimate_noise] at h
  linarith

/-- Claim C8 (amended): `estimate_noise` returns
`10 log10(k T 1000) + 1.5 + 10 log10(bandwidth_Hz)` with `k = 1.38e-23` and
`T = 290`. -/
theorem noise_formula_k138 (bandwidth : ℝ) :
    estimate_noise bandwidth =
      10 * Real.logb 10 ((1.38e-23 : ℝ) * 290 * 1000) + 1.5 +
        10 * Real.logb 10 (bandwidth * 1000000) := rfl

/-- Claim C10: the function `estimate_received_power` ignores its `transmitter` argument: its
value always uses the serving transmitter's EIRP, and it matches the formula
built from the passed transmitter exactly when that transmitter's EIRP equals
the serving one's. -/
theorem received_power_ignores_transmitter_argument :
    (∀ (mgr : SimulationManager) (t1 t2 : Transmitter) (r : Receiver) (pl : ℝ),
      estimate_received_power mgr t1 r pl = estimate_received_power mgr t2 r pl) ∧
    (∀ (mgr : SimulationManager) (t : Transmitter) (r : Receiver) (pl : ℝ),
      estimate_received_power mgr t r pl =
        (mgr.transmitter.power + mgr.transmitter.gain - mgr.transmitter.losses)
          - pl - r.misc_losses + r.gain - r.losses) ∧
    (∀ (mgr : SimulationManager) (t : Transmitter) (r : Receiver) (pl : ℝ),
      (estimate_received_power mgr t r pl =
          (t.power + t.gain - t.losses) - pl - r.misc_losses + r.gain - r.losses ↔
        t.power + t.gain - t.losses =
          mgr.transmitter.power + mgr.transmitter.gain - mgr.transmitter.losses)) := by
  refine ⟨fun _ _ _ _ _ => rfl, fun _ _ _ _ => rfl, fun mgr t r pl => ?_⟩
  simp only [estimate_received_power]
  constructor
  · intro h
    linarith
  · intro h
    rw [h]

/-- Claim C4: for a constructed manager, every interfering transmitter shares the
serving antenna parameter set, so its received interference power equals the
spec formula with the interferer's own EIRP. -/
theorem interference_received_power_formula :
    ∀ (txs itxs : List TxData) (a : String) (rxs : List RxData)
      (sas : List SiteAreaData) (p : SimParams) (mgr : SimulationManager),
      mkSimulationManager txs itxs a rxs sas p = some mgr →
      ∀ t ∈ mgr.interfering_transmitters, ∀ (r : Receiver) (path_loss : ℝ),
        estimate_received_power mgr t r path_loss =
          (t.power + t.gain - t.losses) - path_loss - r.misc_losses + r.gain - r.losses := by
  intro txs itxs a rxs sas p mgr h t ht r pl
  obtain ⟨hp, hg, hl⟩ :=
    mkSimulationManager_interferer_params txs itxs a rxs sas p mgr h t ht
  unfold estimate_received_power
  rw [← hp, ← hg, ← hl]

/-- Witness for C4 on a concretely constructed manager. -/
theorem interference_received_power_formula_witness :
    estimate_received_power mgrC4 (⟨"i1", (100, 0), "macro", 30, 40, 16, 2⟩ : Transmitter)
        rxOrigin 7 =
      ((⟨"i1", (100, 0), "macro", 30, 40, 16, 2⟩ : Transmitter).power +
          (⟨"i1", (100, 0), "macro", 30, 40, 16, 2⟩ : Transmitter).gain -
          (⟨"i1", (100, 0), "macro", 30, 40, 16, 2⟩ : Transmitter).losses) - 7 -
        rxOrigin.misc_losses + rxOrigin.gain - rxOrigin.losses :=
  interference_received_power_formula [⟨"s1", (0, 0)⟩] [⟨"i1", (100, 0)⟩] "macro" []
    [⟨"a1", 1000000⟩] sampleParams mgrC4 rfl _ (List.mem_cons_self _ _) rxOrigin 7

/-- Claim C7: with zero interfering transmitters, `estimate_interference` raises
ZeroDivisionError, so the first `estimate_link_budget` call with any receiver
raises instead of returning records; no record list is ever produced except
the empty one for zero receivers. -/
theorem empty_interferers_raises :
    ∀ (mgr : SimulationManager) (frequency bandwidth : ℝ)
      (generation ant_type tranmission_type environment : String)
      (lut : List (MCEntry ℝ)) (p : SimParams) (plc : PLFn),
      mgr.interfering_transmitters = [] →
      (∀ receiver : Receiver,
        estimate_interference mgr receiver frequency environment p plc =
          Except.error PyErr.zeroDivisionError) ∧
      (mgr.receivers ≠ [] →
        estimate_link_budget mgr frequency bandwidth generation ant_type
          tranmission_type environment lut p plc =
          Except.error PyErr.zeroDivisionError) ∧
      (∀ records, estimate_link_budget mgr frequency bandwidth generation ant_type
          tranmission_type environment lut p plc = Except.ok records → records = []) := by
  intro mgr frequency bandwidth generation ant_type tranmission_type environment lut p plc hE
  have hI : ∀ receiver : Receiver,
      estimate_interference mgr receiver frequency environment p plc =
        Except.error PyErr.zeroDivisionError := by
    intro receiver
    simp [estimate_interference, hE]
  have hOne : ∀ receiver : Receiver,
      linkBudgetOne mgr frequency bandwidth generation tranmission_type environment
        lut p plc receiver = Except.error PyErr.zeroDivisionError := by
    intro receiver
    simp only [linkBudgetOne, hI receiver]
  have hBudget : mgr.receivers ≠ [] →
      estimate_link_budget mgr frequency bandwidth generation ant_type
        tranmission_type environment lut p plc = Except.error PyErr.zeroDivisionError := by
    intro hr
    unfold estimate_link_budget
    rcases hrecv : mgr.receivers with _ | ⟨r, rest⟩
    · exact absurd hrecv hr
    · simp only [linkBudgetList, hOne r]
  refine ⟨hI, hBudget, ?_⟩
  intro records hrec
  rcases hrecv : mgr.receivers with _ | ⟨r, rest⟩
  · unfold estimate_link_budget at hrec
    rw [hrecv] at hrec
    simp only [linkBudgetList] at hrec
    injection hrec with h'
    exact h'.symm
  · rw [hBudget (by rw [hrecv]; exact List.cons_ne_nil _ _)] at hrec
    exact Except.noConfusion hrec

/-- Witness for C7 on a concrete manager with one receiver and no interferers. -/
theorem empty_interferers_raises_witness :
    estimate_link_budget mgrEmpty 3.5 10 "5G" "micro" "SISO" "urban"
      (MODULATION_AND_CODING_LUT : List (MCEntry ℝ)) sampleParams plSpy =
      Except.error PyErr.zeroDivisionError :=
  ((empty_interferers_raises mgrEmpty 3.5 10 "5G" "micro" "SISO" "urban"
      (MODULATION_AND_CODING_LUT : List (MCEntry ℝ)) sampleParams plSpy rfl).2.1
    (List.cons_ne_nil _ _))

/-- Claim C2 is violated by the code: the serving-path distance is clamped to 20 m,
but the interference-path distance is not (line 328 compares instead of
assigning), as the spying collaborator observes: it is handed the raw 10 m
distance. -/
theorem interference_distance_not_clamped :
    (estimate_path_loss mgrNear rxOrigin 3.5 "urban" sampleParams plSpy).2.2.1 = 20 ∧
    (estimate_path_loss mgrNear rxOrigin 3.5 "urban" sampleParams plSpy).1 = 20 ∧
    (∃ rest : List ℝ × String × ℝ × ℝ,
      estimate_interference mgrNear rxOrigin 3.5 "urban" sampleParams plSpy =
        Except.ok rest ∧
      rest.2.2.1 = 10 ∧ rest.2.2.2 = 10) ∧
    lineLength rxOrigin.coordinates txNear.coordinates = 10 := by
  have hL : lineLength rxOrigin.coordinates txNear.coordinates = 10 := lineLength_origin_68
  have hserv : (if lineLength rxOrigin.coordinates mgrNear.transmitter.coordinates < 20
      then (20 : ℝ) else lineLength rxOrigin.coordinates mgrNear.transmitter.coordinates) = 20 := by
    rw [show lineLength rxOrigin.coordinates mgrNear.transmitter.coordinates = 10 from hL]
    norm_num
  refine ⟨?_, ?_, ?_, hL⟩
  · show (if lineLength rxOrigin.coordinates mgrNear.transmitter.coordinates < 20
      then (20 : ℝ) else lineLength rxOrigin.coordinates mgrNear.transmitter.coordinates) = 20
    exact hserv
  · show (if lineLength rxOrigin.coordinates mgrNear.transmitter.coordinates < 20
      then (20 : ℝ) else lineLength rxOrigin.coordinates mgrNear.transmitter.coordinates) = 20
    exact hserv
  · refine ⟨([(24 : ℝ) + 5 - 1 - 10 - 4 + 4 - 4], "spy", 10, 10), ?_, rfl, rfl⟩
    unfold estimate_interference
    simp only [mgrNear, txNear, rxOrigin, List.map, plSpy, estimate_received_power]
    rw [show lineLength ((0 : ℝ), 0) (6, 8) = 10 from lineLength_origin_68]
    simp [List.getLast?]

end ClaimProofs

end Pysim5g
